import Mathlib

/-!
# movie-microservices: cache-aside reads, invalidation and notification dispatch

A shallow embedding of the notification service
(`notification-service/internal/{models,repository,services}`) and of the
watchlist service (`watchlist-service/internal/{models,repository,controllers}`).

Conventions.
* A Go result `(T, error)` is an `Except Error T`; a lone `error` is an
  `Option Error` (`none` is `nil`).
* Instants are natural numbers counted in nanoseconds from the Go zero time, so
  the zero value of `time.Time` is `0`; a nullable timestamp column is an
  `Option Nat`.
* Tables are lists of rows.  The collaborators the services only reach through an
  interface or a network client (senders, database failures, Redis failures, the
  JSON codec, the clock) are described by an environment record `Env`.
* Every call a service makes on a collaborator is appended to a log, so that
  "invokes no sender" or "performs no store read" can be stated.
-/

namespace MovieMicroservices

/-! ## Shared primitives -/

/-- Errors that the modelled code can observe. -/
inductive Error where
  | db
  | scan
  | redisNil
  | redisDown
  | cantMarshal
  | json
  | templateNotFound
  | sender
  | render
  | jwt
  | config
  deriving DecidableEq, Repr

/-- Decimal rendering of an integer: `strconv.Itoa` and the `%d` verb of `fmt.Sprintf`. -/
def Itoa : Int → String
  | Int.ofNat n => Nat.repr n
  | Int.negSucc n => "-" ++ Nat.repr (n + 1)

/-- The constant `time.Second`, in nanoseconds. -/
def Second : Nat := 1000000000

/-- The constant `time.Minute`. -/
def Minute : Nat := 60 * Second

/-- An entry of the Redis keyspace: the stored payload, the time-to-live that the `SET`
carried and the instant at which the entry expires. -/
structure CacheEntry where
  value : String
  ttl : Nat
  expiresAt : Nat
  deriving DecidableEq, Repr

/-- The Redis keyspace. -/
abbrev Cache := String → Option CacheEntry

/-- The outcome of `rdb.Get(ctx, key).Result()`: the payload of a live entry, `redis.Nil` when
the key is absent or expired, a connection error when the server cannot be reached. -/
def redisGet (down : Bool) (c : Cache) (now : Nat) (key : String) : Except Error String :=
  if down then .error .redisDown
  else match c key with
    | some e => if now < e.expiresAt then .ok e.value else .error .redisNil
    | none => .error .redisNil

/-- The keyspace after a `SET key value EX ttl` issued at `now`. -/
def cacheSet (c : Cache) (now : Nat) (key value : String) (ttl : Nat) : Cache :=
  fun k => if k = key then some { value := value, ttl := ttl, expiresAt := now + ttl } else c k

/-- The keyspace after `DEL key`. -/
def cacheDel (c : Cache) (key : String) : Cache :=
  fun k => if k = key then none else c k

/-! ## Notification service: models -/

/-- The struct `models.Notification`. -/
structure Notification where
  ID : Int
  UserID : Int
  Typ : String
  Title : String
  Content : String
  Status : String
  Channel : String
  CreatedAt : Nat
  SentAt : Nat
  ReadAt : Nat
  deriving DecidableEq, Repr

/-- A row of table `notifications` (`database.RunMigrations`).  `sent_at` and `read_at` have
no default and are not written by the `INSERT`, so they are nullable here; the other columns
are always written by the inserts of the repository. -/
structure NotificationRow where
  id : Int
  user_id : Int
  typ : String
  title : String
  content : String
  status : String
  channel : String
  created_at : Nat
  sent_at : Option Nat
  read_at : Option Nat
  deriving DecidableEq, Repr

/-- The struct `models.Template`. -/
structure Template where
  ID : Int
  Name : String
  Typ : String
  Subject : String
  Content : String
  CreatedAt : Nat
  UpdatedAt : Nat
  deriving DecidableEq, Repr

/-- The struct `models.Preference`, also the shape of a row of table `preferences`. -/
structure Preference where
  ID : Int
  UserID : Int
  EmailEnabled : Bool
  PushEnabled : Bool
  CreatedAt : Nat
  UpdatedAt : Nat
  deriving DecidableEq, Repr

/-- A field of the anonymous data structs handed to `SendWithTemplate`. -/
inductive FieldValue where
  | str (s : String)
  | int (i : Int)
  deriving DecidableEq, Repr

/-- The data struct handed to `SendWithTemplate`: field names with their values. -/
abbrev TemplateData := List (String × FieldValue)

/-- A call made by the notification service on one of its collaborators. -/
inductive Call where
  | GetPending
  | GetByUserID (userID : Int)
  | CreateNotification (n : Notification)
  | UpdateStatus (id : Int) (status : String)
  | MarkAsRead (id : Int)
  | GetPreference (userID : Int)
  | GetTemplate (name templateType : String)
  | EmailSend (recipient subject content : String)
  | EmailSendWithTemplate (recipient : String) (template : Template) (data : TemplateData)
  | PushSend (recipient title content : String)
  | RedisGet (key : String)
  | RedisSet (key value : String) (ttl : Nat)
  | RedisDel (key : String)
  | SavePreference (p : Preference)
  | Migrate
  deriving DecidableEq, Repr

/-- Whether a logged call is a call on a sender. -/
def Call.isSend : Call → Bool
  | .EmailSend _ _ _ => true
  | .EmailSendWithTemplate _ _ _ => true
  | .PushSend _ _ _ => true
  | _ => false

/-- Whether a logged call is a read of the notification store. -/
def Call.isStoreRead : Call → Bool
  | .GetPending => true
  | .GetByUserID _ => true
  | _ => false

/-- Whether a logged call writes to the cache. -/
def Call.isCacheWrite : Call → Bool
  | .RedisSet _ _ _ => true
  | .RedisDel _ => true
  | _ => false

/-- What the collaborators of the notification service do during one service call.  The
indexed fields are read at the position of the notification within the batch of `SendPending`;
single-shot operations read them at `0`. -/
structure Env where
  /-- The value of `CURRENT_TIMESTAMP` and of the Redis clock at step `k`. -/
  clock : Nat → Nat
  /-- The query of `GetPending` fails. -/
  getPendingErr : Bool
  /-- The query of `GetByUserID` fails. -/
  getByUserErr : Bool
  /-- The `INSERT` of `Create` fails. -/
  createErr : Bool
  /-- The `UPDATE` of `MarkAsRead` fails. -/
  markReadErr : Bool
  /-- The query of `GetByNameAndType` fails. -/
  templateErr : Bool
  /-- The preference query at step `k` fails. -/
  prefErr : Nat → Bool
  /-- The `UPDATE` of `UpdateStatus` at step `k` fails. -/
  updErr : Nat → Bool
  /-- The call `emailService.Send` at step `k` returns an error. -/
  emailErr : Nat → Bool
  /-- The call `pushService.Send` at step `k` returns an error. -/
  pushErr : Nat → Bool
  /-- The outcome of `emailService.SendWithTemplate`. -/
  sendWithTemplate : String → Template → TemplateData → Option Error
  /-- Redis `GET` cannot reach the server. -/
  redisGetErr : Bool
  /-- Redis `SET` fails. -/
  redisSetErr : Bool
  /-- Redis `DEL` fails. -/
  redisDelErr : Bool
  /-- The function `json.Marshal` on a notification list. -/
  jsonMarshal : List Notification → Except Error String
  /-- The function `json.Unmarshal` into a notification list. -/
  jsonUnmarshal : String → Except Error (List Notification)
  /-- The `UPDATE` of `CreateOrUpdate` fails. -/
  prefUpdateErr : Bool := false
  /-- The `SELECT` that follows the `UPDATE` of `CreateOrUpdate` fails. -/
  prefSelectErr : Bool := false
  /-- The `INSERT` of `CreateOrUpdate` fails. -/
  prefInsertErr : Bool := false
  /-- One of the statements of `RunMigrations` fails. -/
  migrateErr : Bool := false

/-- The state behind the notification service: its three tables, the id sequence of table
`notifications`, the Redis keyspace and the log of collaborator calls. -/
structure State where
  notifications : List NotificationRow
  serial : Int
  preferences : List Preference
  templates : List Template
  redis : Cache
  log : List Call
  /-- The id sequence of table `preferences`. -/
  prefSerial : Int := 1
  /-- The id sequence of table `templates`. -/
  templateSerial : Int := 1

/-! ## Notification service: repository -/

/-- The `rows.Scan` of the notification queries.  The destinations `&n.SentAt` and `&n.ReadAt`
are `*time.Time`: `database/sql` cannot store a NULL there and the scan fails. -/
def scanNotification (r : NotificationRow) : Except Error Notification :=
  match r.sent_at, r.read_at with
  | some s, some rd =>
    .ok { ID := r.id, UserID := r.user_id, Typ := r.typ, Title := r.title,
          Content := r.content, Status := r.status, Channel := r.channel,
          CreatedAt := r.created_at, SentAt := s, ReadAt := rd }
  | _, _ => .error .scan

/-- The `for rows.Next()` loop: the first failing scan aborts with its error. -/
def scanAll : List NotificationRow → Except Error (List Notification)
  | [] => .ok []
  | r :: rs =>
    match scanNotification r with
    | .error e => .error e
    | .ok n =>
      match scanAll rs with
      | .error e => .error e
      | .ok ns => .ok (n :: ns)

/-- The rows selected by the query of `notificationRepository.GetByUserID`:
`WHERE user_id = $1 ORDER BY created_at DESC LIMIT 50`. -/
def selectByUser (rows : List NotificationRow) (userID : Int) : List NotificationRow :=
  ((rows.filter (fun r => r.user_id = userID)).insertionSort
    (fun a b => b.created_at ≤ a.created_at)).take 50

/-- The rows selected by the query of `notificationRepository.GetPending`:
`WHERE status = 'pending' ORDER BY created_at ASC LIMIT 100`. -/
def selectPending (rows : List NotificationRow) : List NotificationRow :=
  ((rows.filter (fun r => r.status = "pending")).insertionSort
    (fun a b => a.created_at ≤ b.created_at)).take 100

/-- The method `notificationRepository.GetByUserID`. -/
def repoGetByUserID (env : Env) (st : State) (userID : Int) :
    Except Error (List Notification) × State :=
  let st1 := { st with log := st.log ++ [Call.GetByUserID userID] }
  if env.getByUserErr then (.error .db, st1)
  else (scanAll (selectByUser st.notifications userID), st1)

/-- The method `notificationRepository.GetPending`. -/
def repoGetPending (env : Env) (st : State) : Except Error (List Notification) × State :=
  let st1 := { st with log := st.log ++ [Call.GetPending] }
  if env.getPendingErr then (.error .db, st1)
  else (scanAll (selectPending st.notifications), st1)

/-- Whether the `INSERT` of `Create` respects the `VARCHAR` widths of the table. -/
def fitsColumns (n : Notification) : Bool :=
  decide (n.Typ.length ≤ 50) && decide (n.Title.length ≤ 255) &&
  decide (n.Status.length ≤ 50) && decide (n.Channel.length ≤ 50)

/-- The method `notificationRepository.Create`: the row gets the next id of the sequence and
the current time as `created_at`; `sent_at` and `read_at` stay NULL. -/
def repoCreate (env : Env) (st : State) (n : Notification) : Except Error Notification × State :=
  let st1 := { st with log := st.log ++ [Call.CreateNotification n] }
  if env.createErr || !fitsColumns n then (.error .db, st1)
  else
    let row : NotificationRow :=
      { id := st.serial, user_id := n.UserID, typ := n.Typ, title := n.Title,
        content := n.Content, status := n.Status, channel := n.Channel,
        created_at := env.clock 0, sent_at := none, read_at := none }
    (.ok { n with ID := st.serial, CreatedAt := env.clock 0 },
     { st1 with notifications := st.notifications ++ [row], serial := st.serial + 1 })

/-- The statement of `notificationRepository.UpdateStatus` on one row:
`SET status = $1, sent_at = CASE WHEN $1 = 'sent' THEN CURRENT_TIMESTAMP ELSE sent_at END
WHERE id = $2`. -/
def updateStatusRow (now : Nat) (id : Int) (status : String) (r : NotificationRow) :
    NotificationRow :=
  if r.id = id then
    { r with status := status, sent_at := if status = "sent" then some now else r.sent_at }
  else r

/-- The method `notificationRepository.UpdateStatus`, issued at step `k`. -/
def repoUpdateStatus (env : Env) (k : Nat) (st : State) (id : Int) (status : String) :
    Option Error × State :=
  let st1 := { st with log := st.log ++ [Call.UpdateStatus id status] }
  if env.updErr k then (some .db, st1)
  else (none, { st1 with
    notifications := st.notifications.map (updateStatusRow (env.clock k) id status) })

/-- The statement of `notificationRepository.MarkAsRead` on one row. -/
def markAsReadRow (now : Nat) (id : Int) (r : NotificationRow) : NotificationRow :=
  if r.id = id then { r with read_at := some now } else r

/-- The method `notificationRepository.MarkAsRead`. -/
def repoMarkAsRead (env : Env) (st : State) (id : Int) : Option Error × State :=
  let st1 := { st with log := st.log ++ [Call.MarkAsRead id] }
  if env.markReadErr then (some .db, st1)
  else (none, { st1 with notifications := st.notifications.map (markAsReadRow (env.clock 0) id) })

/-- The method `templateRepository.GetByNameAndType`: `nil, nil` when no row matches. -/
def repoGetTemplate (env : Env) (st : State) (name templateType : String) :
    Except Error (Option Template) × State :=
  let st1 := { st with log := st.log ++ [Call.GetTemplate name templateType] }
  if env.templateErr then (.error .db, st1)
  else (.ok (st.templates.find? (fun t => t.Name = name ∧ t.Typ = templateType)), st1)

/-- The preference that the query of `preferenceRepository.GetByUserID` yields: the stored row,
or on `sql.ErrNoRows` the default preference with both channels enabled. -/
def effectivePreference (rows : List Preference) (userID : Int) : Preference :=
  match rows.find? (fun p => p.UserID = userID) with
  | some p => p
  | none =>
    { ID := 0, UserID := userID, EmailEnabled := true, PushEnabled := true,
      CreatedAt := 0, UpdatedAt := 0 }

/-- The method `preferenceRepository.GetByUserID`, issued at step `k`. -/
def repoGetPreference (env : Env) (k : Nat) (st : State) (userID : Int) :
    Except Error Preference × State :=
  let st1 := { st with log := st.log ++ [Call.GetPreference userID] }
  if env.prefErr k then (.error .db, st1)
  else (.ok (effectivePreference st.preferences userID), st1)

/-! ## Notification service: services -/

/-- The cache key of `Create` and `GetUserNotifications`: `"notifications:" + strconv.Itoa(userID)`. -/
def notificationsKey (userID : Int) : String := "notifications:" ++ Itoa userID

/-- The placeholder address `fmt.Sprintf("user%d@example.com", userID)`. -/
def userEmail (userID : Int) : String := "user" ++ Itoa userID ++ "@example.com"

/-- The call `s.redis.Del(ctx, key)`; its result is discarded by every caller. -/
def redisDel (env : Env) (st : State) (key : String) : State :=
  { st with log := st.log ++ [Call.RedisDel key],
            redis := if env.redisDelErr then st.redis else cacheDel st.redis key }

/-- The call `s.redis.Set(ctx, key, data, ttl)` with a byte slice; its result is discarded. -/
def redisSet (env : Env) (st : State) (key value : String) (ttl : Nat) : State :=
  { st with log := st.log ++ [Call.RedisSet key value ttl],
            redis := if env.redisSetErr then st.redis
                     else cacheSet st.redis (env.clock 0) key value ttl }

/-- The call `s.emailService.Send(to, subject, content)` made at step `k`. -/
def emailSend (env : Env) (k : Nat) (st : State) (recipient subject content : String) :
    Option Error × State :=
  (if env.emailErr k then some Error.sender else none,
   { st with log := st.log ++ [Call.EmailSend recipient subject content] })

/-- The call `s.pushService.Send(to, title, content)` made at step `k`. -/
def pushSend (env : Env) (k : Nat) (st : State) (recipient title content : String) :
    Option Error × State :=
  (if env.pushErr k then some Error.sender else none,
   { st with log := st.log ++ [Call.PushSend recipient title content] })

/-- The method `notificationService.Create`. -/
def Create (env : Env) (st : State) (userID : Int)
    (notificationType title content channel : String) : Except Error Notification × State :=
  let notification : Notification :=
    { ID := 0, UserID := userID, Typ := notificationType, Title := title, Content := content,
      Status := "pending", Channel := channel, CreatedAt := 0, SentAt := 0, ReadAt := 0 }
  match repoCreate env st notification with
  | (.error err, st1) => (.error err, st1)
  | (.ok created, st1) =>
    -- Invalidate cache
    let cacheKey := notificationsKey userID
    (.ok created, redisDel env st1 cacheKey)

/-- The `switch notification.Channel` of `SendPending`: the send error (`nil` when no sender
was called) and the state after the call, if any. -/
def sendByChannel (env : Env) (k : Nat) (st : State) (notification : Notification)
    (preferences : Preference) : Option Error × State :=
  if notification.Channel = "email" then
    if preferences.EmailEnabled then
      emailSend env k st (userEmail notification.UserID) notification.Title notification.Content
    else (none, st)
  else if notification.Channel = "push" then
    if preferences.PushEnabled then
      pushSend env k st (Itoa notification.UserID) notification.Title notification.Content
    else (none, st)
  else (none, st)

/-- The body of the loop of `SendPending` for the notification at position `k` of the batch. -/
def processNotification (env : Env) (k : Nat) (st : State) (notification : Notification) :
    State :=
  match repoGetPreference env k st notification.UserID with
  | (.error _, st1) => st1
  | (.ok preferences, st1) =>
    match sendByChannel env k st1 notification preferences with
    | (some _, st2) => (repoUpdateStatus env k st2 notification.ID "failed").2
    | (none, st2) => (repoUpdateStatus env k st2 notification.ID "sent").2

/-- The loop `for _, notification := range notifications` of `SendPending`, from position `k`. -/
def sendLoop (env : Env) : Nat → List Notification → State → State
  | _, [], st => st
  | k, notification :: rest, st =>
    sendLoop env (k + 1) rest (processNotification env k st notification)

/-- The method `notificationService.SendPending`. -/
def SendPending (env : Env) (st : State) : Option Error × State :=
  match repoGetPending env st with
  | (.error err, st1) => (some err, st1)
  | (.ok notifications, st1) => (none, sendLoop env 0 notifications st1)

/-- The method `notificationService.GetUserNotifications`. -/
def GetUserNotifications (env : Env) (st : State) (userID : Int) :
    Except Error (List Notification) × State :=
  let cacheKey := notificationsKey userID
  let st1 := { st with log := st.log ++ [Call.RedisGet cacheKey] }
  let hit : Option (List Notification) :=
    match redisGet env.redisGetErr st.redis (env.clock 0) cacheKey with
    | .ok cached =>
      match env.jsonUnmarshal cached with
      | .ok notifications => some notifications
      | .error _ => none
    | .error _ => none
  match hit with
  | some notifications => (.ok notifications, st1)
  | none =>
    -- Cache miss, get from database
    match repoGetByUserID env st1 userID with
    | (.error err, st2) => (.error err, st2)
    | (.ok notifications, st2) =>
      match env.jsonMarshal notifications with
      | .ok data => (.ok notifications, redisSet env st2 cacheKey data (5 * Minute))
      | .error _ => (.ok notifications, st2)

/-- The method `notificationService.MarkAsRead`. -/
def MarkAsRead (env : Env) (st : State) (id : Int) : Option Error × State :=
  repoMarkAsRead env st id

/-- The common body of the four canned flows, which differ only in the template name, the data
struct and the type, title and content of the record they create. -/
def sendTemplated (env : Env) (st : State) (userID : Int) (templateName : String)
    (data : TemplateData) (notificationType title content : String) : Option Error × State :=
  match repoGetTemplate env st templateName "email" with
  | (.error err, st1) => (some err, st1)
  | (.ok none, st1) => (some Error.templateNotFound, st1)
  | (.ok (some template), st1) =>
    match repoGetPreference env 0 st1 userID with
    | (.error err, st2) => (some err, st2)
    | (.ok preferences, st2) =>
      if preferences.EmailEnabled then
        let st3 := { st2 with
          log := st2.log ++ [Call.EmailSendWithTemplate (userEmail userID) template data] }
        match env.sendWithTemplate (userEmail userID) template data with
        | some err => (some err, st3)
        | none =>
          -- Create notification record; a failure is only logged
          (none, (Create env st3 userID notificationType title content "email").2)
      else (none, st2)

/-- The method `notificationService.SendMovieRecommendation`. -/
def SendMovieRecommendation (env : Env) (st : State) (userID : Int)
    (username movieTitle : String) : Option Error × State :=
  sendTemplated env st userID "movie_recommendation"
    [("Username", .str username), ("MovieTitle", .str movieTitle)]
    "movie_recommendation" "New Movie Recommendation"
    ("We have a new movie recommendation for you: " ++ movieTitle)

/-- The method `notificationService.SendWatchlistReminder`. -/
def SendWatchlistReminder (env : Env) (st : State) (userID : Int)
    (username : String) (count : Int) : Option Error × State :=
  sendTemplated env st userID "watchlist_reminder"
    [("Username", .str username), ("Count", .int count)]
    "watchlist_reminder" "Movies in Your Watchlist"
    ("You have " ++ Itoa count ++ " movies in your watchlist. Why not watch one tonight?")

/-- The method `notificationService.SendNewRelease`. -/
def SendNewRelease (env : Env) (st : State) (userID : Int)
    (username movieTitle : String) : Option Error × State :=
  sendTemplated env st userID "new_release"
    [("Username", .str username), ("MovieTitle", .str movieTitle)]
    "new_release" "New Movie Release"
    ("A new movie \"" ++ movieTitle ++ "\" has been released that you might like.")

/-- The method `notificationService.SendRatingReminder`. -/
def SendRatingReminder (env : Env) (st : State) (userID : Int)
    (username movieTitle : String) : Option Error × State :=
  sendTemplated env st userID "rating_reminder"
    [("Username", .str username), ("MovieTitle", .str movieTitle)]
    "rating_reminder" "Rate Your Watched Movies"
    ("You recently watched \"" ++ movieTitle ++ "\". Would you like to rate it?")

/-! ## Watchlist service: models and repository -/

/-- The struct `models.WatchlistItem`, also the shape of a row of table `watchlists`. -/
structure WatchlistItem where
  ID : Int
  UserID : Int
  MovieID : Int
  CreatedAt : Nat
  deriving DecidableEq, Repr

/-- The struct `models.HistoryItem`, also the shape of a row of table `history`. -/
structure HistoryItem where
  ID : Int
  UserID : Int
  MovieID : Int
  Action : String
  CreatedAt : Nat
  deriving DecidableEq, Repr

/-- The struct `models.AddToWatchlistRequest`. -/
structure AddToWatchlistRequest where
  MovieID : Int
  deriving DecidableEq, Repr

/-- What the collaborators of the watchlist service do during one request. -/
structure WEnv where
  /-- The value of `CURRENT_TIMESTAMP` and of the Redis clock during the request. -/
  now : Nat
  /-- The query of `GetByUserID` fails. -/
  getErr : Bool
  /-- The query of `Exists` fails. -/
  existsErr : Bool
  /-- The `INSERT` of `Add` fails. -/
  addErr : Bool
  /-- The `DELETE` of `Remove` fails. -/
  removeErr : Bool
  /-- Redis `GET` cannot reach the server. -/
  redisGetErr : Bool
  /-- Redis `SET` fails. -/
  redisSetErr : Bool
  /-- Redis `DEL` fails. -/
  redisDelErr : Bool

/-- The state behind the watchlist service: its two tables with their id sequences and the
Redis keyspace. -/
structure WState where
  watchlists : List WatchlistItem
  watchlistSerial : Int
  history : List HistoryItem
  historySerial : Int
  redis : Cache

/-- The method `watchlistRepository.GetByUserID`:
`WHERE user_id = $1 ORDER BY created_at DESC`. -/
def watchlistGetByUserID (env : WEnv) (st : WState) (userID : Int) :
    Except Error (List WatchlistItem) :=
  if env.getErr then .error .db
  else .ok ((st.watchlists.filter (fun r => r.UserID = userID)).insertionSort
    (fun a b => b.CreatedAt ≤ a.CreatedAt))

/-- The method `watchlistRepository.Exists`. -/
def watchlistExists (env : WEnv) (st : WState) (userID movieID : Int) : Except Error Bool :=
  if env.existsErr then .error .db
  else .ok (st.watchlists.any (fun r => r.UserID = userID ∧ r.MovieID = movieID))

/-- The method `watchlistRepository.Add`.  The `INSERT` draws the next id of the sequence and
is refused by the constraint `UNIQUE(user_id, movie_id)` when the pair is already stored. -/
def watchlistAdd (env : WEnv) (st : WState) (userID movieID : Int) :
    Except Error WatchlistItem × WState :=
  if env.addErr then (.error .db, st)
  else if st.watchlists.any (fun r => r.UserID = userID ∧ r.MovieID = movieID) then
    (.error .db, { st with watchlistSerial := st.watchlistSerial + 1 })
  else
    let item : WatchlistItem :=
      { ID := st.watchlistSerial, UserID := userID, MovieID := movieID, CreatedAt := env.now }
    (.ok item, { st with watchlists := st.watchlists ++ [item],
                         watchlistSerial := st.watchlistSerial + 1 })

/-- The method `historyRepository.GetByUserID`:
`WHERE user_id = $1 ORDER BY created_at DESC LIMIT 50`. -/
def historyGetByUserID (env : WEnv) (st : WState) (userID : Int) :
    Except Error (List HistoryItem) :=
  if env.getErr then .error .db
  else .ok (((st.history.filter (fun r => r.UserID = userID)).insertionSort
    (fun a b => b.CreatedAt ≤ a.CreatedAt)).take 50)

/-- The method `historyRepository.Remove`:
`DELETE FROM history WHERE user_id = $1 AND movie_id = $2`. -/
def historyRemove (env : WEnv) (st : WState) (userID movieID : Int) : Option Error × WState :=
  if env.removeErr then (some .db, st)
  else (none, { st with
    history := st.history.filter (fun r => ¬ (r.UserID = userID ∧ r.MovieID = movieID)) })

/-! ## Watchlist service: controllers -/

/-- The value found under key `"data"` of a response body. -/
inductive Payload where
  | text (s : String)
  | watchlist (items : List WatchlistItem)
  | history (items : List HistoryItem)
  | watchlistItem (item : WatchlistItem)
  | historyItem (item : HistoryItem)
  deriving DecidableEq, Repr

/-- The three shapes of `gin.H` that the handlers write: `{"error": msg}`,
`{"success": true, "data": d}` and `{"success": true, "message": m}`. -/
inductive Body where
  | error (msg : String)
  | data (d : Payload)
  | message (m : String)
  deriving DecidableEq, Repr

/-- The reply written by `c.JSON(code, body)`. -/
structure Response where
  code : Nat
  body : Body
  deriving DecidableEq, Repr

/-- The value handed to `rdb.Set` as an `interface{}`. -/
inductive RedisValue where
  | bytes (s : String)
  | watchlistItems (items : List WatchlistItem)
  | historyItems (items : List HistoryItem)
  deriving DecidableEq, Repr

/-- How the go-redis client writes a command argument: strings and byte slices go on the wire
as they are; a slice of structs implements no `encoding.BinaryMarshaler` and is refused with
"can't marshal". -/
def RedisValue.wire : RedisValue → Except Error String
  | .bytes s => .ok s
  | .watchlistItems _ => .error .cantMarshal
  | .historyItems _ => .error .cantMarshal

/-- The call `ctrl.rdb.Set(ctx, key, value, ttl)`; its result is discarded.  A value that
cannot be written as an argument never reaches the server. -/
def rdbSet (env : WEnv) (st : WState) (key : String) (value : RedisValue) (ttl : Nat) : WState :=
  match value.wire with
  | .error _ => st
  | .ok payload =>
    if env.redisSetErr then st
    else { st with redis := cacheSet st.redis env.now key payload ttl }

/-- The call `ctrl.rdb.Del(ctx, key)`; its result is discarded. -/
def rdbDel (env : WEnv) (st : WState) (key : String) : WState :=
  if env.redisDelErr then st else { st with redis := cacheDel st.redis key }

/-- The cache key of the watchlist handlers: `"watchlist:" + strconv.Itoa(userID)`. -/
def watchlistKey (userID : Int) : String := "watchlist:" ++ Itoa userID

/-- The cache key of the history handlers: `"history:" + strconv.Itoa(userID)`. -/
def historyKey (userID : Int) : String := "history:" ++ Itoa userID

/-- The handler `WatchlistController.GetWatchlist`; `userID` is `c.Get("userID")`. -/
def GetWatchlist (env : WEnv) (st : WState) (userID : Option Int) : Response × WState :=
  match userID with
  | none => ({ code := 401, body := .error "User not authenticated" }, st)
  | some userID =>
    let cacheKey := watchlistKey userID
    match redisGet env.redisGetErr st.redis env.now cacheKey with
    | .ok cached => ({ code := 200, body := .data (.text cached) }, st)
    | .error _ =>
      match watchlistGetByUserID env st userID with
      | .error _ => ({ code := 500, body := .error "Failed to get watchlist" }, st)
      | .ok items =>
        ({ code := 200, body := .data (.watchlist items) },
         rdbSet env st cacheKey (.watchlistItems items) (5 * Minute))

/-- The handler `WatchlistController.AddToWatchlist`; `req` is the outcome of
`c.ShouldBindJSON(&req)`, with the message of the binding error on failure. -/
def AddToWatchlist (env : WEnv) (st : WState) (userID : Option Int)
    (req : Except String AddToWatchlistRequest) : Response × WState :=
  match userID with
  | none => ({ code := 401, body := .error "User not authenticated" }, st)
  | some userID =>
    match req with
    | .error msg => ({ code := 400, body := .error msg }, st)
    | .ok req =>
      match watchlistExists env st userID req.MovieID with
      | .error _ => ({ code := 500, body := .error "Failed to check watchlist" }, st)
      | .ok true => ({ code := 409, body := .error "Movie already in watchlist" }, st)
      | .ok false =>
        match watchlistAdd env st userID req.MovieID with
        | (.error _, st1) => ({ code := 500, body := .error "Failed to add to watchlist" }, st1)
        | (.ok item, st1) =>
          ({ code := 201, body := .data (.watchlistItem item) },
           rdbDel env st1 (watchlistKey userID))

/-- The handler `HistoryController.GetHistory`. -/
def GetHistory (env : WEnv) (st : WState) (userID : Option Int) : Response × WState :=
  match userID with
  | none => ({ code := 401, body := .error "User not authenticated" }, st)
  | some userID =>
    let cacheKey := historyKey userID
    match redisGet env.redisGetErr st.redis env.now cacheKey with
    | .ok cached => ({ code := 200, body := .data (.text cached) }, st)
    | .error _ =>
      match historyGetByUserID env st userID with
      | .error _ => ({ code := 500, body := .error "Failed to get history" }, st)
      | .ok items =>
        ({ code := 200, body := .data (.history items) },
         rdbSet env st cacheKey (.historyItems items) (5 * Minute))

/-- The handler `HistoryController.RemoveFromHistory`. -/
def RemoveFromHistory (env : WEnv) (st : WState) (userID : Option Int)
    (movieID : Except Error Int) : Response × WState :=
  match userID with
  | none => ({ code := 401, body := .error "User not authenticated" }, st)
  | some userID =>
    match movieID with
    | .error _ => ({ code := 400, body := .error "Invalid movie ID" }, st)
    | .ok movieID =>
      match historyRemove env st userID movieID with
      | (some _, st1) => ({ code := 500, body := .error "Failed to remove from history" }, st1)
      | (none, st1) =>
        ({ code := 200, body := .message "History item removed" },
         rdbDel env st1 (historyKey userID))

/-! ## Sample environments and states -/

/-- An environment in which every collaborator works; the clock reads `1000 + k` at step `k`
and the JSON codec is a toy one that knows the empty list only. -/
def sampleEnv : Env :=
  { clock := fun k => 1000 + k, getPendingErr := false, getByUserErr := false,
    createErr := false, markReadErr := false, templateErr := false,
    prefErr := fun _ => false, updErr := fun _ => false,
    emailErr := fun _ => false, pushErr := fun _ => false,
    sendWithTemplate := fun _ _ _ => none,
    redisGetErr := false, redisSetErr := false, redisDelErr := false,
    jsonMarshal := fun ns => if ns = [] then .ok "null" else .error .json,
    jsonUnmarshal := fun s => if s = "null" then .ok [] else .error .json }

/-- A pending e-mail notification of user 7 whose row scans (both timestamps are set). -/
def sampleRow7 : NotificationRow :=
  { id := 1, user_id := 7, typ := "new_release", title := "Out now", content := "Dune",
    status := "pending", channel := "email", created_at := 10, sent_at := some 3,
    read_at := some 4 }

/-- A pending e-mail notification of user 8, younger than `sampleRow7`. -/
def sampleRow8 : NotificationRow :=
  { id := 2, user_id := 8, typ := "new_release", title := "Out now", content := "Dune",
    status := "pending", channel := "email", created_at := 11, sent_at := some 3,
    read_at := some 4 }

/-- A state with the two sample rows, in which user 7 has switched e-mail off and user 8 has no
preference row. -/
def sampleState : State :=
  { notifications := [sampleRow7, sampleRow8], serial := 3,
    preferences := [{ ID := 1, UserID := 7, EmailEnabled := false, PushEnabled := true,
                      CreatedAt := 1, UpdatedAt := 1 }],
    templates := [], redis := fun _ => none, log := [] }

/-- The struct that the scan of `sampleRow7` yields. -/
def sampleNotification7 : Notification :=
  { ID := 1, UserID := 7, Typ := "new_release", Title := "Out now", Content := "Dune",
    Status := "pending", Channel := "email", CreatedAt := 10, SentAt := 3, ReadAt := 4 }

/-- The struct that the scan of `sampleRow8` yields. -/
def sampleNotification8 : Notification :=
  { ID := 2, UserID := 8, Typ := "new_release", Title := "Out now", Content := "Dune",
    Status := "pending", Channel := "email", CreatedAt := 11, SentAt := 3, ReadAt := 4 }

/-- The sample environment, except that the e-mail sender fails for the second notification of
the batch. -/
def failingSenderEnv : Env :=
  { sampleEnv with emailErr := fun k => decide (k = 1) }

/-- The four templates that `database.RunMigrations` inserts, all of type `email`. -/
def seedTemplates : List Template :=
  [{ ID := 1, Name := "movie_recommendation", Typ := "email",
     Subject := "New Movie Recommendation",
     Content := "Hi \x7b\x7b.Username\x7d\x7d, we have a new movie recommendation for you: \x7b\x7b.MovieTitle\x7d\x7d",
     CreatedAt := 0, UpdatedAt := 0 },
   { ID := 2, Name := "watchlist_reminder", Typ := "email",
     Subject := "Movies in Your Watchlist",
     Content := "Hi \x7b\x7b.Username\x7d\x7d, you have \x7b\x7b.Count\x7d\x7d movies in your watchlist. Why not watch one tonight?",
     CreatedAt := 0, UpdatedAt := 0 },
   { ID := 3, Name := "new_release", Typ := "email",
     Subject := "New Movie Release",
     Content := "Hi \x7b\x7b.Username\x7d\x7d, a new movie \"\x7b\x7b.MovieTitle\x7d\x7d\" has been released that you might like.",
     CreatedAt := 0, UpdatedAt := 0 },
   { ID := 4, Name := "rating_reminder", Typ := "email",
     Subject := "Rate Your Watched Movies",
     Content := "Hi \x7b\x7b.Username\x7d\x7d, you recently watched \"\x7b\x7b.MovieTitle\x7d\x7d\". Would you like to rate it?",
     CreatedAt := 0, UpdatedAt := 0 }]

/-- A fresh notification service: the seed templates, no notification, no preference row, an
empty cache. -/
def freshState : State :=
  { notifications := [], serial := 1, preferences := [], templates := seedTemplates,
    redis := fun _ => none, log := [] }

/-- The sample environment with a toy JSON codec that also knows one snapshot, the list made
of `sampleNotification7`. -/
def snapshotEnv : Env :=
  { sampleEnv with
    jsonMarshal := fun ns =>
      if ns = [] then .ok "null"
      else if ns = [sampleNotification7] then .ok "[n7]" else .error .json,
    jsonUnmarshal := fun s =>
      if s = "null" then .ok []
      else if s = "[n7]" then .ok [sampleNotification7] else .error .json }

/-- The sample state with a live cache entry for user 7 that holds the snapshot of their
notification list. -/
def cachedState : State :=
  { sampleState with
    redis := fun key =>
      if key = "notifications:7" then
        some { value := "[n7]", ttl := 5 * Minute, expiresAt := 2000 }
      else none }

/-- The sample environment with a Redis server that cannot be reached. -/
def redisDownEnv : Env :=
  { snapshotEnv with redisGetErr := true, redisSetErr := true, redisDelErr := true }

/-- An environment of the watchlist service in which every collaborator works. -/
def sampleWEnv : WEnv :=
  { now := 1000, getErr := false, existsErr := false, addErr := false, removeErr := false,
    redisGetErr := false, redisSetErr := false, redisDelErr := false }

/-- The watchlist row of the sample state. -/
def sampleWatchlistItem : WatchlistItem :=
  { ID := 1, UserID := 7, MovieID := 123, CreatedAt := 10 }

/-- The history row of the sample state. -/
def sampleHistoryItem : HistoryItem :=
  { ID := 1, UserID := 7, MovieID := 123, Action := "watched", CreatedAt := 10 }

/-- A state of the watchlist service: user 7 has movie 123 on the watchlist and in the history;
the cache is empty. -/
def sampleWState : WState :=
  { watchlists := [sampleWatchlistItem], watchlistSerial := 2,
    history := [sampleHistoryItem], historySerial := 2, redis := fun _ => none }

/-- The JSON text of the watchlist of user 7 in the sample state. -/
def sampleWatchlistJSON : String :=
  "[\x7b\"id\":1,\"userId\":7,\"movieId\":123,\"createdAt\":\"0001-01-01T00:00:00.00000001Z\"\x7d]"

/-- The JSON text of the history of user 7 in the sample state. -/
def sampleHistoryJSON : String :=
  "[\x7b\"id\":1,\"userId\":7,\"movieId\":123,\"action\":\"watched\",\"createdAt\":\"0001-01-01T00:00:00.00000001Z\"\x7d]"

/-- The sample state of the watchlist service with live cache entries for user 7 that hold the
JSON text of their collections. -/
def cachedWState : WState :=
  { sampleWState with
    redis := fun key =>
      if key = "watchlist:7" then
        some { value := sampleWatchlistJSON, ttl := 5 * Minute, expiresAt := 2000 }
      else if key = "history:7" then
        some { value := sampleHistoryJSON, ttl := 5 * Minute, expiresAt := 2000 }
      else none }

/-! ## Vocabulary of the dispatch claims -/

/-- Whether the channel of a notification is one of the two known channels and is switched on
in the given preference. -/
def channelEnabled (p : Preference) (n : Notification) : Bool :=
  (decide (n.Channel = "email") && p.EmailEnabled) ||
  (decide (n.Channel = "push") && p.PushEnabled)

/-- Whether the sender of the channel of `n` returns an error when called at step `k`. -/
def senderFails (env : Env) (k : Nat) (n : Notification) : Bool :=
  if n.Channel = "email" then env.emailErr k else env.pushErr k

/-- The sender call that `SendPending` makes for `n` when its channel is enabled. -/
def senderCall (n : Notification) : Call :=
  if n.Channel = "email" then .EmailSend (userEmail n.UserID) n.Title n.Content
  else .PushSend (Itoa n.UserID) n.Title n.Content

/-- Whether `SendPending` calls a sender for `n` at position `k`: the preference lookup
succeeds and the channel is enabled. -/
def callsSender (env : Env) (prefs : List Preference) (k : Nat) (n : Notification) : Bool :=
  !env.prefErr k && channelEnabled (effectivePreference prefs n.UserID) n


/-- The status that the iteration of `SendPending` for `n` at position `k` asks the store to
write: none when the preference lookup fails, `failed` when a sender was called and returned an
error, `sent` otherwise. -/
def statusWritten (env : Env) (prefs : List Preference) (k : Nat) (n : Notification) :
    Option String :=
  if env.prefErr k then none
  else if channelEnabled (effectivePreference prefs n.UserID) n && senderFails env k n then
    some "failed"
  else some "sent"

/-- The calls that the iteration of `SendPending` for `n` at position `k` makes on the
collaborators, in order. -/
def callsFor (env : Env) (prefs : List Preference) (k : Nat) (n : Notification) : List Call :=
  if env.prefErr k then [Call.GetPreference n.UserID]
  else if channelEnabled (effectivePreference prefs n.UserID) n then
    [Call.GetPreference n.UserID, senderCall n,
     Call.UpdateStatus n.ID (if senderFails env k n then "failed" else "sent")]
  else [Call.GetPreference n.UserID, Call.UpdateStatus n.ID "sent"]

/-! ## Further definitions: cache keys, request binding, preference service -/

/-- The three per-user collections that are cached. -/
inductive CollectionKind where
  | notifications
  | watchlist
  | history
  deriving DecidableEq, Repr

/-- The cache key of a collection of a user, as the three read and write paths form it. -/
def cacheKey : CollectionKind → Int → String
  | .notifications, userID => notificationsKey userID
  | .watchlist, userID => watchlistKey userID
  | .history, userID => historyKey userID

/-- The body of a `POST /api/watchlist` request as the JSON decoder sees it: either it does not
decode into `models.AddToWatchlistRequest`, with the message of the decoder, or it is an object,
with the integer under `"movieId"` when that member is present. -/
inductive WatchlistBody where
  | malformed (err : String)
  | object (movieId : Option Int)
  deriving DecidableEq, Repr

/-- The message of the validator when a field tagged `binding:"required"` holds its zero value. -/
def requiredMessage : String :=
  "Key: \x27AddToWatchlistRequest.MovieID\x27 Error:Field validation for \x27MovieID\x27 failed on the \x27required\x27 tag"

/-- The call `c.ShouldBindJSON(&req)` of `AddToWatchlist`: the body is decoded into the struct,
a missing member leaving the zero value, and then validated; `MovieID` is tagged
`binding:"required"`, which an integer satisfies only when it is not zero. -/
def bindAddToWatchlistRequest : WatchlistBody → Except String AddToWatchlistRequest
  | .malformed err => .error err
  | .object movieId =>
    if movieId.getD 0 = 0 then .error requiredMessage
    else .ok { MovieID := movieId.getD 0 }

/-- The method `preferenceService.GetPreferences`. -/
def GetPreferences (env : Env) (st : State) (userID : Int) : Except Error Preference × State :=
  repoGetPreference env 0 st userID

/-- A state of the watchlist service with empty tables and an empty cache. -/
def emptyWState : WState :=
  { watchlists := [], watchlistSerial := 1, history := [], historySerial := 1,
    redis := fun _ => none }

/-- The sample state with the seed templates, in which user 7 has switched e-mail off. -/
def seededState : State :=
  { sampleState with templates := seedTemplates }

/-- The sample environment, except that `SendWithTemplate` fails. -/
def failingTemplateSendEnv : Env :=
  { sampleEnv with sendWithTemplate := fun _ _ _ => some Error.sender }

/-- The sample environment with failures for the first notification of a batch: its preference
lookup fails, and so would its sender and its status update. -/
def firstFailsEnv : Env :=
  { sampleEnv with
    prefErr := fun k => decide (k = 0), emailErr := fun k => decide (k = 0),
    updErr := fun k => decide (k = 0) }

/-- A row as `Create` inserts it: pending, with `sent_at` and `read_at` NULL. -/
def createdRow : NotificationRow :=
  { id := 1, user_id := 7, typ := "new_release", title := "Out now", content := "Dune",
    status := "pending", channel := "email", created_at := 1000, sent_at := none,
    read_at := none }

/-- The sample state with two more rows, one already sent and one already failed. -/
def mixedState : State :=
  { sampleState with
    notifications :=
      [sampleRow7,
       { sampleRow8 with status := "sent", sent_at := some 5 },
       { id := 3, user_id := 8, typ := "new_release", title := "Out now", content := "Dune",
         status := "failed", channel := "push", created_at := 12, sent_at := some 3,
         read_at := some 4 }] }

/-! ## The e-mail service: rendering with `html/template`

`SendGridEmailService.SendWithTemplate` parses the content of the template with
`html/template` and executes it on the data struct.  The model covers three kinds of template.
The first is made of literal text without `<` and of actions of the form `.Field`, the named
placeholders of the seed templates: there the HTML context is the text context throughout, and
every action is printed through the HTML escaper.  The second is made of any literal text and of
actions of the form `.Field`: the execution evaluates every action in turn, whatever escaper the
context gives it, so it fails when the data lack a field; when they lack none the outcome of
the library is a parameter.  The third adds to the first the conditionals `if .Field`, with an
optional `else`, closed by `end` and not nested: the execution evaluates the condition and then
the actions of the branch taken only.  For any other template the outcome of the library is a
parameter. -/

/-- A piece of a template: literal text, or the body of an action between the delimiters. -/
inductive Segment where
  | text (chars : List Char)
  | action (body : List Char)
  deriving DecidableEq, Repr

/-- Where the lexer of the template stands: in literal text, in literal text after one opening
brace, inside an action, or inside an action after one closing brace. -/
inductive LexState where
  | text
  | opening
  | action
  | closing
  deriving DecidableEq, Repr

/-- The lexer of the template: it cuts the content at the delimiters, the first pair of opening
braces starting an action and the first pair of closing braces ending it.  `text` collects the
pending literal text and `body` the body of the action being read, both reversed.  An action
that is not closed is a parse error. -/
def lexTemplate : List Char → LexState → List Char → List Char → Except Error (List Segment)
  | [], .text, text, _ => .ok (if text.isEmpty then [] else [.text text.reverse])
  | [], .opening, text, _ => .ok [.text ('{' :: text).reverse]
  | [], .action, _, _ => .error .render
  | [], .closing, _, _ => .error .render
  | c :: rest, .text, text, body =>
    if c = '{' then lexTemplate rest .opening text body
    else lexTemplate rest .text (c :: text) body
  | c :: rest, .opening, text, body =>
    if c = '{' then
      match lexTemplate rest .action [] [] with
      | .error e => .error e
      | .ok segs => .ok (if text.isEmpty then segs else .text text.reverse :: segs)
    else lexTemplate rest .text (c :: '{' :: text) body
  | c :: rest, .action, text, body =>
    if c = '}' then lexTemplate rest .closing text body
    else lexTemplate rest .action text (c :: body)
  | c :: rest, .closing, text, body =>
    if c = '}' then
      match lexTemplate rest .text [] [] with
      | .error e => .error e
      | .ok segs => .ok (.action body.reverse :: segs)
    else lexTemplate rest .action text (c :: '}' :: body)

/-- Whether a character is a space inside an action. -/
def isActionSpace (c : Char) : Bool :=
  c = ' ' || c = '\t' || c = '\r' || c = '\n'

/-- The field that an action names when, spaces around it apart, it is a dot followed by an
identifier made of ASCII letters, digits and underscores that does not start with a digit. -/
def fieldOfAction (body : List Char) : Option String :=
  match ((body.dropWhile isActionSpace).reverse.dropWhile isActionSpace).reverse with
  | '.' :: c :: cs =>
    if (c.isAlpha || c = '_') && cs.all (fun d => d.isAlphanum || d = '_') then
      some (String.mk (c :: cs))
    else none
  | _ => none

/-- Whether a list of segments is within the modelled fragment: text without `<` and field
actions only. -/
def inFragment (segs : List Segment) : Bool :=
  segs.all (fun seg =>
    match seg with
    | .text chars => !chars.contains '<'
    | .action body => (fieldOfAction body).isSome)

/-- The escaping of one character by the HTML escaper of `html/template`. -/
def htmlEscapeChar (c : Char) : List Char :=
  if c = Char.ofNat 0 then [Char.ofNat 0xFFFD]
  else if c = '"' then "&#34;".data
  else if c = '&' then "&amp;".data
  else if c = '\'' then "&#39;".data
  else if c = '+' then "&#43;".data
  else if c = '<' then "&lt;".data
  else if c = '>' then "&gt;".data
  else [c]

/-- The HTML escaper of `html/template`, applied to the text of a value. -/
def htmlEscape (s : String) : String :=
  String.mk (s.data.flatMap htmlEscapeChar)

/-- The text of a value, as `fmt.Sprint` prints it. -/
def printValue : FieldValue → String
  | .str s => s
  | .int i => Itoa i

/-- The value of field `name` of the data struct: the field must exist and be exported. -/
def lookupField (data : TemplateData) (name : String) : Option FieldValue :=
  if (name.data.head?.map Char.isUpper).getD false then data.lookup name else none

/-- The execution of a template of the fragment on the data: text is copied, a field action
prints the escaped value of the field, and a field that the data does not provide stops the
execution with an error. -/
def execSegments (data : TemplateData) : List Segment → Except Error String
  | [] => .ok ""
  | .text chars :: rest =>
    match execSegments data rest with
    | .error e => .error e
    | .ok out => .ok (String.mk chars ++ out)
  | .action body :: rest =>
    match (fieldOfAction body).bind (lookupField data) with
    | none => .error .render
    | some v =>
      match execSegments data rest with
      | .error e => .error e
      | .ok out => .ok (htmlEscape (printValue v) ++ out)

/-- Whether every action of a list of segments is a field action, whatever the text is. -/
def isFlat (segs : List Segment) : Bool :=
  segs.all (fun seg =>
    match seg with
    | .text _ => true
    | .action body => (fieldOfAction body).isSome)

/-- Whether the data provide the field of every field action of a list of segments. -/
def providesAll (data : TemplateData) (segs : List Segment) : Bool :=
  segs.all (fun seg =>
    match seg with
    | .text _ => true
    | .action body => ((fieldOfAction body).bind (lookupField data)).isSome)

/-- The body of an action without the spaces around it. -/
def trimAction (body : List Char) : List Char :=
  ((body.dropWhile isActionSpace).reverse.dropWhile isActionSpace).reverse

/-- What an action of the fragment with conditionals is: a field, the keyword `if` followed by a
field, the keyword `else`, or the keyword `end`. -/
inductive ActionKind where
  | field (name : String)
  | ifField (name : String)
  | elseBranch
  | endBlock
  deriving DecidableEq, Repr

/-- The kind of an action, when it is one of the fragment with conditionals. -/
def classifyAction (body : List Char) : Option ActionKind :=
  match fieldOfAction body with
  | some name => some (.field name)
  | none =>
    if trimAction body = "end".data then some .endBlock
    else if trimAction body = "else".data then some .elseBranch
    else
      match trimAction body with
      | 'i' :: 'f' :: c :: rest =>
        if isActionSpace c then (fieldOfAction rest).map ActionKind.ifField else none
      | _ => none

/-- A node of a template outside a conditional or inside one of its branches: text, or a field
action. -/
inductive Item where
  | text (chars : List Char)
  | field (name : String)
  deriving DecidableEq, Repr

/-- A node of the top level of a template of the fragment with conditionals: an item, or a
conditional on a field with the items of its two branches. -/
inductive Node where
  | item (i : Item)
  | cond (name : String) (thenItems elseItems : List Item)
  deriving DecidableEq, Repr

/-- Where the parser of conditionals stands: outside a conditional, in the first branch of a
conditional on `name`, or in its `else` branch; the items of the current branch are collected
reversed. -/
inductive BlockState where
  | outside
  | inThen (name : String) (items : List Item)
  | inElse (name : String) (thenItems : List Item) (items : List Item)
  deriving DecidableEq, Repr

/-- The tree of a template of the fragment with conditionals: text without `<`, field actions
and conditionals on a field that are closed and not nested.  Any other list of segments has no
tree here. -/
def parseNodes : List Segment → BlockState → Option (List Node)
  | [], .outside => some []
  | [], .inThen _ _ => none
  | [], .inElse _ _ _ => none
  | .text chars :: rest, st =>
    if chars.contains '<' then none
    else
      match st with
      | .outside => (parseNodes rest .outside).map (fun nodes => Node.item (.text chars) :: nodes)
      | .inThen name items => parseNodes rest (.inThen name (.text chars :: items))
      | .inElse name thenItems items =>
        parseNodes rest (.inElse name thenItems (.text chars :: items))
  | .action body :: rest, st =>
    match classifyAction body, st with
    | some (.field f), .outside =>
      (parseNodes rest .outside).map (fun nodes => Node.item (.field f) :: nodes)
    | some (.field f), .inThen name items => parseNodes rest (.inThen name (.field f :: items))
    | some (.field f), .inElse name thenItems items =>
      parseNodes rest (.inElse name thenItems (.field f :: items))
    | some (.ifField name), .outside => parseNodes rest (.inThen name [])
    | some .elseBranch, .inThen name items => parseNodes rest (.inElse name items.reverse [])
    | some .endBlock, .inThen name items =>
      (parseNodes rest .outside).map (fun nodes => Node.cond name items.reverse [] :: nodes)
    | some .endBlock, .inElse name thenItems items =>
      (parseNodes rest .outside).map
        (fun nodes => Node.cond name thenItems items.reverse :: nodes)
    | _, _ => none

/-- The truth of a value as `text/template` sees it: a string is true when it is not empty, an
integer when it is not zero. -/
def isTrue : FieldValue → Bool
  | .str s => s ≠ ""
  | .int i => i ≠ 0

/-- The execution of the items of a branch or of the top level. -/
def execItems (data : TemplateData) : List Item → Except Error String
  | [] => .ok ""
  | .text chars :: rest =>
    match execItems data rest with
    | .error e => .error e
    | .ok out => .ok (String.mk chars ++ out)
  | .field name :: rest =>
    match lookupField data name with
    | none => .error .render
    | some v =>
      match execItems data rest with
      | .error e => .error e
      | .ok out => .ok (htmlEscape (printValue v) ++ out)

/-- The execution of a template of the fragment with conditionals: a conditional evaluates its
field, which the data must provide, and then executes the items of the first branch when the
value is true and those of the `else` branch otherwise; the other branch is not evaluated. -/
def execNodes (data : TemplateData) : List Node → Except Error String
  | [] => .ok ""
  | .item i :: rest =>
    match execItems data [i] with
    | .error e => .error e
    | .ok out =>
      match execNodes data rest with
      | .error e => .error e
      | .ok out2 => .ok (out ++ out2)
  | .cond name thenItems elseItems :: rest =>
    match lookupField data name with
    | none => .error .render
    | some v =>
      match execItems data (if isTrue v then thenItems else elseItems) with
      | .error e => .error e
      | .ok out =>
        match execNodes data rest with
        | .error e => .error e
        | .ok out2 => .ok (out ++ out2)

/-- The calls `template.New("email").Parse(content)` and `tmpl.Execute(&buf, data)` together:
the rendered text or the error.  `other` is the outcome of the library where the model does not
give it: on a template of field actions with markup when the data provide every field, and on a
template outside the three modelled kinds. -/
def renderTemplate (other : String → TemplateData → Except Error String) (content : String)
    (data : TemplateData) : Except Error String :=
  match lexTemplate content.data .text [] [] with
  | .error e => .error e
  | .ok segs =>
    if inFragment segs then execSegments data segs
    else if isFlat segs then
      if providesAll data segs then other content data else .error .render
    else
      match parseNodes segs .outside with
      | some nodes => execNodes data nodes
      | none => other content data

/-- The method `SendGridEmailService.Send`, a placeholder that only logs and returns `nil`. -/
def SendGridSend (_recipient _subject _content : String) : Option Error := none

/-- The method `SendGridEmailService.SendWithTemplate`, over the `Send` it ends with: the calls
of `Send` that it makes, and its result. -/
def SendWithTemplate (other : String → TemplateData → Except Error String)
    (send : String → String → String → Option Error)
    (recipient : String) (template : Template) (data : TemplateData) :
    List Call × Option Error :=
  match renderTemplate other template.Content data with
  | .error e => ([], some e)
  | .ok content =>
    ([Call.EmailSend recipient template.Subject content],
     send recipient template.Subject content)

/-- A stand-in for the library outside the fragment, for the sample environments. -/
def sampleOther (_content : String) (_data : TemplateData) : Except Error String :=
  .error Error.render

/-- The sample environment wired to the e-mail service of the repository. -/
def productionEnv : Env :=
  { sampleEnv with
    sendWithTemplate := fun recipient template data =>
      (SendWithTemplate sampleOther SendGridSend recipient template data).2 }

/-! ## The preference service: updates -/

/-- The struct `models.UpdatePreferenceRequest`; a nil pointer is `none`. -/
structure UpdatePreferenceRequest where
  EmailEnabled : Option Bool
  PushEnabled : Option Bool
  deriving DecidableEq, Repr

/-- The `UPDATE` of `CreateOrUpdate` on one row of table `preferences`. -/
def updatePreferenceRow (now : Nat) (p : Preference) (r : Preference) : Preference :=
  if r.UserID = p.UserID then
    { r with EmailEnabled := p.EmailEnabled, PushEnabled := p.PushEnabled, UpdatedAt := now }
  else r

/-- The method `preferenceRepository.CreateOrUpdate`: the `UPDATE` by `user_id`; when it touched
a row, the `SELECT` of the id and of the timestamps of the row; otherwise the `INSERT` of a new
row, which draws the next id of the sequence. -/
def repoCreateOrUpdate (env : Env) (st : State) (preference : Preference) :
    Except Error Preference × State :=
  let st1 := { st with log := st.log ++ [Call.SavePreference preference] }
  if env.prefUpdateErr then (.error .db, st1)
  else if st.preferences.any (fun r => r.UserID = preference.UserID) then
    -- Updated existing record
    let st2 := { st1 with
      preferences := st.preferences.map (updatePreferenceRow (env.clock 0) preference) }
    if env.prefSelectErr then (.error .db, st2)
    else
      match st2.preferences.find? (fun r => r.UserID = preference.UserID) with
      | none => (.error .db, st2)
      | some r =>
        (.ok { preference with ID := r.ID, CreatedAt := r.CreatedAt, UpdatedAt := r.UpdatedAt },
         st2)
  else
    -- Insert new record
    if env.prefInsertErr then (.error .db, st1)
    else
      let row : Preference :=
        { preference with ID := st.prefSerial, CreatedAt := env.clock 0,
                          UpdatedAt := env.clock 0 }
      (.ok row, { st1 with preferences := st.preferences ++ [row],
                           prefSerial := st.prefSerial + 1 })

/-- The method `preferenceService.UpdatePreferences`. -/
def UpdatePreferences (env : Env) (st : State) (userID : Int) (req : UpdatePreferenceRequest) :
    Except Error Preference × State :=
  match repoGetPreference env 0 st userID with
  | (.error err, st1) => (.error err, st1)
  | (.ok preference, st1) =>
    -- Update fields if provided
    let preference1 :=
      match req.EmailEnabled with
      | some b => { preference with EmailEnabled := b }
      | none => preference
    let preference2 :=
      match req.PushEnabled with
      | some b => { preference1 with PushEnabled := b }
      | none => preference1
    repoCreateOrUpdate env st1 preference2

/-! ## The migrations of the notification service -/

/-- One row of the `INSERT ... ON CONFLICT (name, type) DO NOTHING` of `RunMigrations`: the row
draws the next id of the sequence and is dropped when the table already holds a row with its
name and type. -/
def insertSeed (now : Nat) (acc : List Template × Int) (seed : Template) :
    List Template × Int :=
  if acc.1.any (fun t => t.Name = seed.Name ∧ t.Typ = seed.Typ) then (acc.1, acc.2 + 1)
  else (acc.1 ++ [{ seed with ID := acc.2, CreatedAt := now, UpdatedAt := now }], acc.2 + 1)

/-- The function `database.RunMigrations` of the notification service, as far as rows are
concerned: the tables and indexes are created if they do not exist, which changes no row, and
the four seed templates are inserted unless present. -/
def RunMigrations (env : Env) (st : State) : Option Error × State :=
  let st1 := { st with log := st.log ++ [Call.Migrate] }
  if env.migrateErr then (some .db, st1)
  else
    (none, { st1 with
      templates := (seedTemplates.foldl (insertSeed (env.clock 0))
        (st.templates, st.templateSerial)).1,
      templateSerial := (seedTemplates.foldl (insertSeed (env.clock 0))
        (st.templates, st.templateSerial)).2 })

/-! ## The watchlist service: the `Authenticate` middleware -/

/-- The claim `sub` of a token as the type assertion `claims["sub"].(float64)` sees it: a JSON
number, given by the integer that the conversion `int(userID)` yields, or anything else. -/
inductive SubClaim where
  | number (asInt : Int)
  | other
  deriving DecidableEq, Repr

/-- What `jwt.Parse` returns without error: the flag `token.Valid` and the claim `sub`. -/
structure Token where
  Valid : Bool
  sub : SubClaim
  deriving DecidableEq, Repr

/-- The collaborators of the middleware: `config.LoadConfig`, giving the JWT secret, and the
verification that `jwt.Parse` performs on a token of three segments with that secret (decoding,
the signing method required by the key function, signature, registered claims). -/
structure AuthEnv where
  config : Except Error String
  verify : String → String → Except Error Token

/-- The call `jwt.Parse(tokenString, keyFunc)`: a token that is not made of three segments
separated by dots is malformed; otherwise the verification decides. -/
def jwtParse (env : AuthEnv) (secret tokenString : String) : Except Error Token :=
  if tokenString.data.count '.' = 2 then env.verify secret tokenString else .error .jwt

/-- The removal of the 7 characters `Bearer ` from a longer header value. -/
def stripBearer (header : String) : String :=
  if 7 < header.data.length ∧ header.data.take 7 = "Bearer ".data then
    String.mk (header.data.drop 7)
  else header

/-- What the middleware did: the response it wrote, if any, whether it aborted the chain, and
the `userID` it put in the context, if any. -/
structure AuthResult where
  response : Option Response
  aborted : Bool
  userID : Option Int
  deriving DecidableEq, Repr

/-- The middleware `Authenticate`, on the value of the `Authorization` header. -/
def Authenticate (env : AuthEnv) (header : String) : AuthResult :=
  if header = "" then
    { response := some { code := 401, body := .error "Authorization header is required" },
      aborted := true, userID := none }
  else
    match env.config with
    | .error _ =>
      { response := some { code := 500, body := .error "Server configuration error" },
        aborted := true, userID := none }
    | .ok secret =>
      match jwtParse env secret (stripBearer header) with
      | .error _ =>
        { response := some { code := 401, body := .error "Invalid token" },
          aborted := true, userID := none }
      | .ok token =>
        if token.Valid then
          match token.sub with
          | .other =>
            { response := some { code := 401, body := .error "Invalid token claims" },
              aborted := true, userID := none }
          | .number userID => { response := none, aborted := false, userID := some userID }
        else
          { response := some { code := 401, body := .error "Invalid token" },
            aborted := true, userID := none }

/-- A route behind the middleware: an aborted chain answers with what the middleware wrote and
does not run the handler; otherwise `c.Next()` runs the handler with the context of the
middleware. -/
def authenticated (env : AuthEnv) (header : String)
    (handler : Option Int → WState → Response × WState) (st : WState) : Response × WState :=
  if (Authenticate env header).aborted then
    ((Authenticate env header).response.getD { code := 200, body := .message "" }, st)
  else handler (Authenticate env header).userID st

/-- An environment of the middleware in which the configuration loads and every token of three
segments verifies as the token of user 7. -/
def sampleAuthEnv : AuthEnv :=
  { config := .ok "watchlist_jwt_secret",
    verify := fun _ _ => .ok { Valid := true, sub := .number 7 } }

/-- The sample state in which user 7 has a preference row with e-mail on and push off, and
user 8 has none. -/
def preferenceState : State :=
  { sampleState with
    preferences := [{ ID := 1, UserID := 7, EmailEnabled := true, PushEnabled := false,
                      CreatedAt := 1, UpdatedAt := 1 }],
    prefSerial := 2 }

/-- The sample state of the watchlist service with three more history rows: two more for user 7
and movie 123, with other actions, and one for user 8. -/
def historyWState : WState :=
  { sampleWState with
    history :=
      [sampleHistoryItem,
       { ID := 2, UserID := 7, MovieID := 123, Action := "rated", CreatedAt := 11 },
       { ID := 3, UserID := 8, MovieID := 123, Action := "watched", CreatedAt := 12 },
       { ID := 4, UserID := 7, MovieID := 123, Action := "watched", CreatedAt := 13 }],
    historySerial := 5 }

/-- The sample environment, except that the `INSERT` of `Create` fails. -/
def failingCreateEnv : Env :=
  { sampleEnv with createErr := true }

/-- A fetched notification whose channel is empty. -/
def sampleNotification9 : Notification :=
  { ID := 9, UserID := 8, Typ := "info", Title := "Hello", Content := "", Status := "pending",
    Channel := "", CreatedAt := 12, SentAt := 3, ReadAt := 4 }

/-- The sample state with a third pending row, whose channel is empty. -/
def emptyChannelState : State :=
  { sampleState with
    notifications :=
      [sampleRow7, sampleRow8,
       { id := 9, user_id := 8, typ := "info", title := "Hello", content := "",
         status := "pending", channel := "", created_at := 12, sent_at := some 3,
         read_at := some 4 }] }

/-- A template whose subject carries a placeholder. -/
def greetingTemplate : Template :=
  { ID := 5, Name := "greeting", Typ := "email", Subject := "Welcome \x7b\x7b.Username\x7d\x7d",
    Content := "Hi \x7b\x7b.Username\x7d\x7d, welcome back.", CreatedAt := 0, UpdatedAt := 0 }

/-- A template whose content holds a conditional: the part between `if .Count` and `end`, with
the placeholder `Nickname`, is rendered only when `Count` is not zero. -/
def conditionalTemplate : Template :=
  { ID := 6, Name := "conditional_reminder", Typ := "email", Subject := "Your watchlist",
    Content := "Hi \x7b\x7b.Username\x7d\x7d\x7b\x7bif .Count\x7d\x7d, \x7b\x7b.Nickname\x7d\x7d has \x7b\x7b.Count\x7d\x7d movies waiting\x7b\x7bend\x7d\x7d.",
    CreatedAt := 0, UpdatedAt := 0 }

/-- Whether the HTML escaper of `html/template` rewrites a character. -/
def needsEscape (c : Char) : Bool :=
  c = Char.ofNat 0 || c = '"' || c = '&' || c = '\'' || c = '+' || c = '<' || c = '>'

/-- The content of the seed template `movie_recommendation`. -/
def recommendationContent : String :=
  "Hi \x7b\x7b.Username\x7d\x7d, we have a new movie recommendation for you: \x7b\x7b.MovieTitle\x7d\x7d"

/-! ## The notification controller: creating a notification -/

/-- The body of a `POST` request that creates a notification, as the JSON decoder sees it when
it is an object: the value of each member that is present. -/
structure NotificationBody where
  userId : Option Int
  typ : Option String
  title : Option String
  content : Option String
  channel : Option String
  deriving DecidableEq, Repr

/-- The struct `models.CreateNotificationRequest`. -/
structure CreateNotificationRequest where
  UserID : Int
  Typ : String
  Title : String
  Content : String
  Channel : String
  deriving DecidableEq, Repr

/-- The message of the validator for one field of `CreateNotificationRequest` that is tagged
`binding:"required"` and holds its zero value. -/
def requiredTagMessage (field : String) : String :=
  "Key: \x27CreateNotificationRequest." ++ field ++ "\x27 Error:Field validation for \x27" ++
    field ++ "\x27 failed on the \x27required\x27 tag"

/-- The call `c.ShouldBindJSON(&req)` of `CreateNotification`: the body is decoded into the
struct, a missing member leaving the zero value, and then validated; `UserID`, `Type` and
`Title` are tagged `binding:"required"`, `Content` and `Channel` are not. -/
def bindCreateNotificationRequest (body : Except String NotificationBody) :
    Except String CreateNotificationRequest :=
  match body with
  | .error err => .error err
  | .ok b =>
    let failed : List String :=
      (if b.userId.getD 0 = 0 then ["UserID"] else []) ++
      (if b.typ.getD "" = "" then ["Type"] else []) ++
      (if b.title.getD "" = "" then ["Title"] else [])
    if failed.isEmpty then
      .ok { UserID := b.userId.getD 0, Typ := b.typ.getD "", Title := b.title.getD "",
            Content := b.content.getD "", Channel := b.channel.getD "" }
    else .error ("\n".intercalate (failed.map requiredTagMessage))

/-- The handler `NotificationController.CreateNotification`: the status code it writes, and the
state afterwards. -/
def CreateNotification (env : Env) (st : State) (body : Except String NotificationBody) :
    Nat × State :=
  match bindCreateNotificationRequest body with
  | .error _ => (400, st)
  | .ok req =>
    match Create env st req.UserID req.Typ req.Title req.Content req.Channel with
    | (.error _, st1) => (500, st1)
    | (.ok _, st1) => (201, st1)

/-- The state of a fresh service after `SendMovieRecommendation(3, "alice", "Dune")`. -/
def afterRecommendation : State :=
  (SendMovieRecommendation sampleEnv freshState 3 "alice" "Dune").2

/-- The state `afterRecommendation` in which the two nullable timestamps of every row have been
given a value by hand, which no operation of the service does for a pending row. -/
def stampedRecommendation : State :=
  { afterRecommendation with
    notifications := afterRecommendation.notifications.map
      (fun r => { r with sent_at := some 0, read_at := some 0 }) }

/-! ## Lemmas on the dispatch loop -/

theorem updateStatusRow_id (now : Nat) (id : Int) (status : String) (r : NotificationRow) :
    (updateStatusRow now id status r).id = r.id := by
  unfold updateStatusRow
  split <;> rfl

theorem updateStatusRow_other (now : Nat) (id : Int) (status : String) (r : NotificationRow)
    (h : r.id ≠ id) : updateStatusRow now id status r = r := by
  unfold updateStatusRow
  simp [h]

theorem filter_id_map_updateStatusRow (now : Nat) (id id' : Int) (status : String)
    (rows : List NotificationRow) :
    (rows.map (updateStatusRow now id' status)).filter (fun r => r.id = id) =
      (rows.filter (fun r => r.id = id)).map (updateStatusRow now id' status) := by
  induction rows with
  | nil => rfl
  | cons r rs ih =>
    by_cases h : r.id = id
    · simp [List.filter_cons, updateStatusRow_id, h, ih]
    · simp [List.filter_cons, updateStatusRow_id, h, ih]

theorem filter_id_map_updateStatusRow_other (now : Nat) (id id' : Int) (status : String)
    (rows : List NotificationRow) (h : id' ≠ id) :
    (rows.map (updateStatusRow now id' status)).filter (fun r => r.id = id) =
      rows.filter (fun r => r.id = id) := by
  rw [filter_id_map_updateStatusRow]
  conv_rhs => rw [← List.map_id (rows.filter (fun r => r.id = id))]
  apply List.map_congr_left
  intro r hr
  have : r.id = id := by simpa using (List.mem_filter.mp hr).2
  exact updateStatusRow_other now id' status r (by rw [this]; exact fun e => h e.symm)

/-- One iteration of the loop either leaves the table alone or applies one status update for
the notification it handles. -/
theorem processNotification_table (env : Env) (k : Nat) (st : State) (n : Notification) :
    (processNotification env k st n).notifications = st.notifications ∨
    ∃ s, (s = "sent" ∨ s = "failed") ∧
      (processNotification env k st n).notifications =
        st.notifications.map (updateStatusRow (env.clock k) n.ID s) := by
  unfold processNotification repoGetPreference sendByChannel emailSend pushSend repoUpdateStatus
  by_cases h1 : env.prefErr k = true <;> by_cases h2 : n.Channel = "email" <;>
    by_cases h3 : (effectivePreference st.preferences n.UserID).EmailEnabled = true <;>
    by_cases h4 : n.Channel = "push" <;>
    by_cases h5 : (effectivePreference st.preferences n.UserID).PushEnabled = true <;>
    by_cases h6 : env.emailErr k = true <;> by_cases h7 : env.pushErr k = true <;>
    by_cases h8 : env.updErr k = true <;> simp [h1, h2, h3, h4, h5, h6, h7, h8]

theorem processNotification_preferences (env : Env) (k : Nat) (st : State) (n : Notification) :
    (processNotification env k st n).preferences = st.preferences := by
  unfold processNotification repoGetPreference sendByChannel emailSend pushSend repoUpdateStatus
  by_cases h1 : env.prefErr k = true <;> by_cases h2 : n.Channel = "email" <;>
    by_cases h3 : (effectivePreference st.preferences n.UserID).EmailEnabled = true <;>
    by_cases h4 : n.Channel = "push" <;>
    by_cases h5 : (effectivePreference st.preferences n.UserID).PushEnabled = true <;>
    by_cases h6 : env.emailErr k = true <;> by_cases h7 : env.pushErr k = true <;>
    by_cases h8 : env.updErr k = true <;> simp [h1, h2, h3, h4, h5, h6, h7, h8]

/-- The iteration for a notification whose channel is enabled: preference lookup, one sender
call, one status update. -/
theorem processNotification_enabled (env : Env) (k : Nat) (st : State) (n : Notification)
    (hpref : env.prefErr k = false)
    (hen : channelEnabled (effectivePreference st.preferences n.UserID) n = true) :
    processNotification env k st n =
      { st with
        log := st.log ++ [Call.GetPreference n.UserID, senderCall n,
          Call.UpdateStatus n.ID (if senderFails env k n then "failed" else "sent")],
        notifications :=
          if env.updErr k then st.notifications
          else st.notifications.map (updateStatusRow (env.clock k) n.ID
            (if senderFails env k n then "failed" else "sent")) } := by
  unfold channelEnabled at hen
  unfold processNotification repoGetPreference sendByChannel emailSend pushSend repoUpdateStatus
    senderFails senderCall
  by_cases h2 : n.Channel = "email" <;>
    by_cases h3 : (effectivePreference st.preferences n.UserID).EmailEnabled = true <;>
    by_cases h4 : n.Channel = "push" <;>
    by_cases h5 : (effectivePreference st.preferences n.UserID).PushEnabled = true <;>
    by_cases h6 : env.emailErr k = true <;> by_cases h7 : env.pushErr k = true <;>
    by_cases h8 : env.updErr k = true <;>
    simp [hpref, h2, h3, h4, h5, h6, h7, h8] at hen ⊢


theorem sendLoop_append (env : Env) (a b : List Notification) (k : Nat) (st : State) :
    sendLoop env k (a ++ b) st = sendLoop env (k + a.length) b (sendLoop env k a st) := by
  induction a generalizing k st with
  | nil => simp [sendLoop]
  | cons n rest ih =>
    show sendLoop env (k + 1) (rest ++ b) (processNotification env k st n) =
      sendLoop env (k + (rest.length + 1)) b
        (sendLoop env (k + 1) rest (processNotification env k st n))
    rw [ih, Nat.add_assoc, Nat.add_comm 1]

theorem sendLoop_preferences (env : Env) (batch : List Notification) (k : Nat) (st : State) :
    (sendLoop env k batch st).preferences = st.preferences := by
  induction batch generalizing k st with
  | nil => rfl
  | cons n rest ih => simp only [sendLoop]; rw [ih, processNotification_preferences]

/-- A step for another notification leaves the rows of a given id as they are. -/
theorem processNotification_filter_other (env : Env) (k : Nat) (st : State) (n : Notification)
    (id : Int) (h : n.ID ≠ id) :
    (processNotification env k st n).notifications.filter (fun r => r.id = id) =
      st.notifications.filter (fun r => r.id = id) := by
  rcases processNotification_table env k st n with h1 | ⟨s, -, h1⟩
  · rw [h1]
  · rw [h1, filter_id_map_updateStatusRow_other _ _ _ _ _ h]

/-- The loop leaves the rows of an id alone when no notification of the batch has that id. -/
theorem sendLoop_filter_other (env : Env) (batch : List Notification) (k : Nat) (st : State)
    (id : Int) (h : ∀ m ∈ batch, m.ID ≠ id) :
    (sendLoop env k batch st).notifications.filter (fun r => r.id = id) =
      st.notifications.filter (fun r => r.id = id) := by
  induction batch generalizing k st with
  | nil => rfl
  | cons n rest ih =>
    simp only [sendLoop]
    rw [ih _ _ (fun m hm => h m (List.mem_cons_of_mem _ hm)),
      processNotification_filter_other _ _ _ _ _ (h n (List.mem_cons_self _ _))]

/-- A batch whose ids are distinct splits around the notification at position `k`. -/
theorem batch_split (batch : List Notification) (k : Nat) (n : Notification)
    (hk : batch[k]? = some n) (hnd : (batch.map (fun m => m.ID)).Nodup) :
    batch = batch.take k ++ n :: batch.drop (k + 1) ∧ (batch.take k).length = k ∧
    (∀ m ∈ batch.take k, m.ID ≠ n.ID) ∧ (∀ m ∈ batch.drop (k + 1), m.ID ≠ n.ID) := by
  have hlt : k < batch.length := by
    by_contra hge
    rw [List.getElem?_eq_none (by omega)] at hk
    exact absurd hk (by simp)
  have hget : batch[k] = n := by
    rw [List.getElem?_eq_getElem hlt] at hk
    exact Option.some.inj hk
  have hsplit : batch = batch.take k ++ n :: batch.drop (k + 1) := by
    rw [← hget, List.getElem_cons_drop, List.take_append_drop]
  refine ⟨hsplit, by simp [List.length_take]; omega, ?_, ?_⟩
  · intro m hm hid
    rw [hsplit, List.map_append, List.map_cons, List.nodup_append] at hnd
    exact hnd.2.2 (List.mem_map_of_mem _ hm) (by rw [hid]; exact List.mem_cons_self _ _)
  · intro m hm hid
    rw [hsplit, List.map_append, List.map_cons, List.nodup_append] at hnd
    have := (List.nodup_cons.mp hnd.2.1).1
    exact this (by rw [← hid]; exact List.mem_map_of_mem _ hm)


/-! ## Lemmas on the queries -/

theorem scanNotification_ok (r : NotificationRow) (n : Notification)
    (h : scanNotification r = .ok n) :
    n.ID = r.id ∧ n.UserID = r.user_id ∧ n.Status = r.status ∧ n.Channel = r.channel := by
  unfold scanNotification at h
  split at h
  · injection h with h
    subst h
    exact ⟨rfl, rfl, rfl, rfl⟩
  · exact absurd h (by simp)

theorem scanAll_ids (rows : List NotificationRow) (ns : List Notification)
    (h : scanAll rows = .ok ns) : ns.map (fun m => m.ID) = rows.map (fun r => r.id) := by
  induction rows generalizing ns with
  | nil =>
    simp only [scanAll] at h
    injection h with h
    subst h
    rfl
  | cons r rs ih =>
    simp only [scanAll] at h
    split at h
    · exact absurd h (by simp)
    · rename_i n hn
      split at h
      · exact absurd h (by simp)
      · rename_i ns1 hns
        injection h with h
        subst h
        simp [ih ns1 hns, (scanNotification_ok r n hn).1]

theorem scanAll_mem (rows : List NotificationRow) (ns : List Notification)
    (h : scanAll rows = .ok ns) (n : Notification) (hn : n ∈ ns) :
    ∃ r ∈ rows, scanNotification r = .ok n := by
  induction rows generalizing ns with
  | nil =>
    simp only [scanAll] at h
    injection h with h
    subst h
    exact absurd hn (List.not_mem_nil _)
  | cons r rs ih =>
    simp only [scanAll] at h
    split at h
    · exact absurd h (by simp)
    · rename_i n1 hn1
      split at h
      · exact absurd h (by simp)
      · rename_i ns1 hns
        injection h with h
        subst h
        rcases List.mem_cons.mp hn with e | e
        · exact ⟨r, List.mem_cons_self _ _, by rw [e]; exact hn1⟩
        · obtain ⟨r', hr', hs⟩ := ih ns1 hns e
          exact ⟨r', List.mem_cons_of_mem _ hr', hs⟩

theorem selectPending_mem (rows : List NotificationRow) (r : NotificationRow)
    (h : r ∈ selectPending rows) : r ∈ rows ∧ r.status = "pending" := by
  unfold selectPending at h
  have h1 := List.mem_of_mem_take h
  have h2 := (List.perm_insertionSort _ _).mem_iff.mp h1
  have h3 := List.mem_filter.mp h2
  exact ⟨h3.1, by simpa using h3.2⟩

theorem selectPending_nodup (rows : List NotificationRow)
    (h : (rows.map (fun r => r.id)).Nodup) :
    ((selectPending rows).map (fun r => r.id)).Nodup := by
  unfold selectPending
  have h1 : ((rows.filter (fun r => r.status = "pending")).map (fun r => r.id)).Nodup :=
    h.sublist ((List.filter_sublist _).map _)
  have h2 := ((List.perm_insertionSort (fun a b : NotificationRow => a.created_at ≤ b.created_at)
    (rows.filter (fun r => r.status = "pending"))).map (fun r => r.id)).nodup_iff.mpr h1
  exact h2.sublist ((List.take_sublist _ _).map _)

/-- Under the primary key, the rows of a given id are one row. -/
theorem filter_id_singleton (rows : List NotificationRow) (r : NotificationRow)
    (hnd : (rows.map (fun x => x.id)).Nodup) (hr : r ∈ rows) :
    rows.filter (fun x => x.id = r.id) = [r] := by
  induction rows with
  | nil => exact absurd hr (List.not_mem_nil _)
  | cons a rest ih =>
    rw [List.map_cons, List.nodup_cons] at hnd
    rcases List.mem_cons.mp hr with e | e
    · subst e
      have : rest.filter (fun x => x.id = r.id) = [] := by
        apply List.filter_eq_nil_iff.mpr
        intro x hx
        have hne : x.id ≠ r.id := fun he => hnd.1 (by rw [← he]; exact List.mem_map_of_mem _ hx)
        simpa using hne
      simp [List.filter_cons, this]
    · have hne : a.id ≠ r.id := fun he => hnd.1 (by rw [he]; exact List.mem_map_of_mem _ e)
      simp [List.filter_cons, hne, ih hnd.2 e]


/-! ## The pass of `SendPending` as a whole -/

/-- The pass unfolds into the fetch followed by the loop. -/
theorem SendPending_fetched (env : Env) (st : State) (batch : List Notification)
    (hfetch : (repoGetPending env st).1 = .ok batch) :
    SendPending env st = (none, sendLoop env 0 batch (repoGetPending env st).2) := by
  unfold SendPending
  generalize repoGetPending env st = res at hfetch
  obtain ⟨r, st1⟩ := res
  simp only at hfetch
  subst hfetch
  rfl

/-- What a successful fetch says about the batch: it is the scan of the selected rows. -/
theorem repoGetPending_ok (env : Env) (st : State) (batch : List Notification)
    (hfetch : (repoGetPending env st).1 = .ok batch) :
    scanAll (selectPending st.notifications) = .ok batch ∧
    (repoGetPending env st).2 = { st with log := st.log ++ [Call.GetPending] } := by
  unfold repoGetPending at hfetch ⊢
  by_cases h : env.getPendingErr = true
  · simp [h] at hfetch
  · simp only [h] at hfetch ⊢
    exact ⟨hfetch, rfl⟩

/-- Under the primary key the ids of a fetched batch are distinct. -/
theorem batch_nodup (st : State) (batch : List Notification)
    (hkey : (st.notifications.map (fun r => r.id)).Nodup)
    (hscan : scanAll (selectPending st.notifications) = .ok batch) :
    (batch.map (fun m => m.ID)).Nodup := by
  rw [scanAll_ids _ _ hscan]
  exact selectPending_nodup _ hkey

/-- A fetched notification is the scan of a pending row of the table. -/
theorem batch_row (st : State) (batch : List Notification) (k : Nat) (n : Notification)
    (hscan : scanAll (selectPending st.notifications) = .ok batch) (hk : batch[k]? = some n) :
    ∃ r ∈ st.notifications, r.id = n.ID ∧ r.status = "pending" := by
  have hmem : n ∈ batch := List.getElem?_mem hk
  obtain ⟨r, hr, hs⟩ := scanAll_mem _ _ hscan n hmem
  have := selectPending_mem _ _ hr
  exact ⟨r, this.1, (scanNotification_ok r n hs).1.symm, this.2⟩

/-- The pass seen from position `k` of the batch, for a notification whose channel is enabled
and whose status update is carried out: the loop reaches the position in a state `before` in
which the row is untouched, the iteration logs one preference lookup, one sender call and one
status update, and the rest of the loop leaves the row alone. -/
theorem SendPending_enabled_at (env : Env) (st : State) (batch : List Notification) (k : Nat)
    (n : Notification)
    (hkey : (st.notifications.map (fun r => r.id)).Nodup)
    (hfetch : (repoGetPending env st).1 = .ok batch)
    (hk : batch[k]? = some n)
    (hpref : env.prefErr k = false)
    (hen : channelEnabled (effectivePreference st.preferences n.UserID) n = true)
    (hupd : env.updErr k = false) :
    (SendPending env st).2 =
      sendLoop env (k + 1) (batch.drop (k + 1))
        (processNotification env k (sendLoop env 0 (batch.take k) (repoGetPending env st).2) n) ∧
    (processNotification env k (sendLoop env 0 (batch.take k) (repoGetPending env st).2) n).log =
      (sendLoop env 0 (batch.take k) (repoGetPending env st).2).log ++
        [Call.GetPreference n.UserID, senderCall n,
         Call.UpdateStatus n.ID (if senderFails env k n then "failed" else "sent")] ∧
    ∃ r ∈ st.notifications, r.id = n.ID ∧ r.status = "pending" ∧
      (SendPending env st).2.notifications.filter (fun x => x.id = n.ID) =
        [updateStatusRow (env.clock k) n.ID (if senderFails env k n then "failed" else "sent") r]
    := by
  obtain ⟨hscan, hst1⟩ := repoGetPending_ok env st batch hfetch
  have hnd := batch_nodup st batch hkey hscan
  obtain ⟨hsplit, hlen, hpre, hpost⟩ := batch_split batch k n hk hnd
  obtain ⟨r, hr, hid, hstatus⟩ := batch_row st batch k n hscan hk
  have hfinal : (SendPending env st).2 =
      sendLoop env (k + 1) (batch.drop (k + 1))
        (processNotification env k (sendLoop env 0 (batch.take k) (repoGetPending env st).2) n)
      := by
    rw [SendPending_fetched env st batch hfetch]
    show sendLoop env 0 batch (repoGetPending env st).2 = _
    conv_lhs => rw [hsplit]
    rw [sendLoop_append, hlen, Nat.zero_add]
    rfl
  have hbpref : (sendLoop env 0 (batch.take k) (repoGetPending env st).2).preferences =
      st.preferences := by
    rw [sendLoop_preferences, hst1]
  have hstep := processNotification_enabled env k
    (sendLoop env 0 (batch.take k) (repoGetPending env st).2) n hpref (by rw [hbpref]; exact hen)
  refine ⟨hfinal, by rw [hstep], r, hr, hid, hstatus, ?_⟩
  rw [hfinal, sendLoop_filter_other _ _ _ _ _ hpost, hstep]
  simp only [hupd, Bool.false_eq_true, if_false]
  rw [filter_id_map_updateStatusRow, sendLoop_filter_other _ _ _ _ _ hpre, hst1]
  show List.map _ (st.notifications.filter (fun x => x.id = n.ID)) = _
  rw [← hid, filter_id_singleton _ _ hkey hr]
  rfl

/-- Over a batch with distinct ids, the loop maps the table row by row: a row is either left as
it is, or it is the row of a notification of the batch and receives exactly one status update,
to `sent` or to `failed`. -/
theorem sendLoop_rows (env : Env) (batch : List Notification) (k : Nat) (st : State)
    (hnd : (batch.map (fun m => m.ID)).Nodup) :
    ∃ g : NotificationRow → NotificationRow,
      (sendLoop env k batch st).notifications = st.notifications.map g ∧
      ∀ r, g r = r ∨ (r.id ∈ batch.map (fun m => m.ID) ∧
        ∃ j s, (s = "sent" ∨ s = "failed") ∧ g r = updateStatusRow (env.clock j) r.id s r) := by
  induction batch generalizing k st with
  | nil => exact ⟨id, by simp [sendLoop], fun r => Or.inl rfl⟩
  | cons n rest ih =>
    rw [List.map_cons, List.nodup_cons] at hnd
    obtain ⟨g1, hg1, hp1⟩ := ih (k + 1) (processNotification env k st n) hnd.2
    rcases processNotification_table env k st n with h1 | ⟨s, hs, h1⟩
    · refine ⟨g1, by simp only [sendLoop]; rw [hg1, h1], fun r => ?_⟩
      rcases hp1 r with h | ⟨hm, h⟩
      · exact Or.inl h
      · exact Or.inr ⟨List.mem_cons_of_mem _ hm, h⟩
    · refine ⟨fun r => g1 (updateStatusRow (env.clock k) n.ID s r),
        by simp only [sendLoop]; rw [hg1, h1, List.map_map]; rfl, fun r => ?_⟩
      by_cases hid : r.id = n.ID
      · right
        refine ⟨by rw [hid]; exact List.mem_cons_self _ _, k, s, hs, ?_⟩
        rcases hp1 (updateStatusRow (env.clock k) n.ID s r) with h | ⟨hm, -⟩
        · show g1 _ = _
          rw [h, hid]
        · rw [updateStatusRow_id, hid] at hm
          exact absurd hm hnd.1
      · have hr : updateStatusRow (env.clock k) n.ID s r = r :=
          updateStatusRow_other _ _ _ _ hid
        show g1 (updateStatusRow (env.clock k) n.ID s r) = r ∨
          (r.id ∈ (n :: rest).map (fun m => m.ID) ∧ ∃ j s1, (s1 = "sent" ∨ s1 = "failed") ∧
            g1 (updateStatusRow (env.clock k) n.ID s r) = updateStatusRow (env.clock j) r.id s1 r)
        rw [hr]
        rcases hp1 r with h | ⟨hm, h⟩
        · exact Or.inl h
        · exact Or.inr ⟨List.mem_cons_of_mem _ hm, h⟩

/-- The number of sender calls that one iteration adds to the log: one when the preference
lookup succeeds and the channel is enabled, none otherwise. -/
theorem processNotification_sends (env : Env) (k : Nat) (st : State) (n : Notification) :
    (processNotification env k st n).log.countP Call.isSend =
      st.log.countP Call.isSend + (if callsSender env st.preferences k n then 1 else 0) := by
  unfold callsSender channelEnabled
  unfold processNotification repoGetPreference sendByChannel emailSend pushSend repoUpdateStatus
  by_cases h1 : env.prefErr k = true <;> by_cases h2 : n.Channel = "email" <;>
    by_cases h3 : (effectivePreference st.preferences n.UserID).EmailEnabled = true <;>
    by_cases h4 : n.Channel = "push" <;>
    by_cases h5 : (effectivePreference st.preferences n.UserID).PushEnabled = true <;>
    by_cases h6 : env.emailErr k = true <;> by_cases h7 : env.pushErr k = true <;>
    by_cases h8 : env.updErr k = true <;>
    simp [h1, h2, h3, h4, h5, h6, h7, h8, List.countP_append, List.countP_cons, Call.isSend]

/-- The number of sender calls of the loop: one for each position that calls a sender. -/
theorem sendLoop_sends (env : Env) (batch : List Notification) (k : Nat) (st : State) :
    (sendLoop env k batch st).log.countP Call.isSend =
      st.log.countP Call.isSend +
        (List.enumFrom k batch).countP (fun p => callsSender env st.preferences p.1 p.2) := by
  induction batch generalizing k st with
  | nil => simp [sendLoop]
  | cons n rest ih =>
    simp only [sendLoop, List.enumFrom_cons, List.countP_cons]
    rw [ih, processNotification_sends, processNotification_preferences]
    omega


/-! ## Claims on the dispatch pass -/

/-- C1 (the code departs from the claim).  In the sample state user 7 has switched e-mail off
and user 8 has no preference row.  The pass calls no sender for the notification of user 7, as
claimed, but it does not leave it pending: the send error is `nil` when no sender was called, so
the row is updated to `sent` and `sent_at` is stamped, just as for the notification of user 8
that was really sent. -/
theorem SendPending_disabled_channel_is_marked_sent :
    (SendPending sampleEnv sampleState).1 = none ∧
    (SendPending sampleEnv sampleState).2.notifications =
      [{ sampleRow7 with status := "sent", sent_at := some 1000 },
       { sampleRow8 with status := "sent", sent_at := some 1001 }] ∧
    (SendPending sampleEnv sampleState).2.log =
      [Call.GetPending,
       Call.GetPreference 7, Call.UpdateStatus 1 "sent",
       Call.GetPreference 8, Call.EmailSend "user8@example.com" "Out now" "Dune",
       Call.UpdateStatus 2 "sent"] := by
  decide

/-- C2.  Let `n` be the notification at position `k` of the batch fetched by `SendPending`,
with a channel that is enabled in the effective preference of its owner, a sender call that
returns success and a status update that the database carries out.  Then after the pass the row
of `n` is the pending row it was, with status `sent` and `sent_at` set to the time of the update.
Moreover `sent_at` is stamped only together with status `sent`: row by row, the pass either
keeps `sent_at` or leaves the row in status `sent`, and the statement of `UpdateStatus` keeps
`sent_at` for every status other than `sent`, as does the statement of `MarkAsRead`. -/
theorem SendPending_success_marks_sent (env : Env) (st : State) (batch : List Notification)
    (k : Nat) (n : Notification)
    (hkey : (st.notifications.map (fun r => r.id)).Nodup)
    (hfetch : (repoGetPending env st).1 = .ok batch)
    (hk : batch[k]? = some n)
    (hpref : env.prefErr k = false)
    (hen : channelEnabled (effectivePreference st.preferences n.UserID) n = true)
    (hsend : senderFails env k n = false)
    (hupd : env.updErr k = false) :
    (∃ r ∈ st.notifications, r.id = n.ID ∧ r.status = "pending" ∧
      (SendPending env st).2.notifications.filter (fun x => x.id = n.ID) =
        [{ r with status := "sent", sent_at := some (env.clock k) }]) ∧
    List.Forall₂ (fun r r' => r'.id = r.id ∧ (r'.sent_at = r.sent_at ∨ r'.status = "sent"))
      st.notifications (SendPending env st).2.notifications ∧
    (∀ now id status r, status ≠ "sent" →
      (updateStatusRow now id status r).sent_at = r.sent_at) ∧
    (∀ now id r, (markAsReadRow now id r).sent_at = r.sent_at) := by
  refine ⟨?_, ?_, ?_, ?_⟩
  · obtain ⟨-, -, r, hr, hid, hstatus, hrow⟩ :=
      SendPending_enabled_at env st batch k n hkey hfetch hk hpref hen hupd
    refine ⟨r, hr, hid, hstatus, ?_⟩
    rw [hrow, hsend]
    simp [updateStatusRow, hid]
  · obtain ⟨hscan, hst1⟩ := repoGetPending_ok env st batch hfetch
    obtain ⟨g, hg, hp⟩ := sendLoop_rows env batch 0 (repoGetPending env st).2
      (batch_nodup st batch hkey hscan)
    rw [SendPending_fetched env st batch hfetch]
    show List.Forall₂ _ st.notifications (sendLoop env 0 batch (repoGetPending env st).2).notifications
    rw [hg, hst1, List.forall₂_map_right_iff, List.forall₂_same]
    intro r _
    rcases hp r with h | ⟨-, j, s, hs, h⟩
    · rw [h]
      exact ⟨rfl, Or.inl rfl⟩
    · rw [h]
      refine ⟨updateStatusRow_id _ _ _ _, ?_⟩
      rcases hs with hs | hs
      · right
        simp [updateStatusRow, hs]
      · left
        simp [updateStatusRow, hs]
  · intro now id status r hne
    unfold updateStatusRow
    split
    · simp [hne]
    · rfl
  · intro now id r
    unfold markAsReadRow
    split <;> rfl

/-- C2, witness: the notification of user 8 in the sample state. -/
theorem SendPending_success_marks_sent_witness :
    (∃ r ∈ sampleState.notifications, r.id = sampleNotification8.ID ∧ r.status = "pending" ∧
      (SendPending sampleEnv sampleState).2.notifications.filter
          (fun x => x.id = sampleNotification8.ID) =
        [{ r with status := "sent", sent_at := some (sampleEnv.clock 1) }]) ∧
    List.Forall₂ (fun r r' => r'.id = r.id ∧ (r'.sent_at = r.sent_at ∨ r'.status = "sent"))
      sampleState.notifications (SendPending sampleEnv sampleState).2.notifications ∧
    (∀ now id status r, status ≠ "sent" →
      (updateStatusRow now id status r).sent_at = r.sent_at) ∧
    (∀ now id r, (markAsReadRow now id r).sent_at = r.sent_at) :=
  SendPending_success_marks_sent sampleEnv sampleState [sampleNotification7, sampleNotification8]
    1 sampleNotification8 (by decide) (by rfl) (by decide) (by decide) (by decide)
    (by decide) (by decide)

/-- C3.  Let `n` be the notification at position `k` of the batch fetched by `SendPending`,
with a channel that is enabled in the effective preference of its owner, a sender call that
returns an error and a status update that the database carries out.  Then after the pass the
row of `n` is the pending row it was with status `failed` and nothing else changed, so `sent_at`
is what it was.  The iteration for `n` logs one preference lookup, one sender call and the
update to `failed`, after which the loop moves on to the next position; and in the whole pass
the number of sender calls is the number of positions whose channel is enabled, whether the call
failed or not: a failed send is not repeated. -/
theorem SendPending_failure_marks_failed (env : Env) (st : State) (batch : List Notification)
    (k : Nat) (n : Notification)
    (hkey : (st.notifications.map (fun r => r.id)).Nodup)
    (hfetch : (repoGetPending env st).1 = .ok batch)
    (hk : batch[k]? = some n)
    (hpref : env.prefErr k = false)
    (hen : channelEnabled (effectivePreference st.preferences n.UserID) n = true)
    (hsend : senderFails env k n = true)
    (hupd : env.updErr k = false) :
    (∃ r ∈ st.notifications, r.id = n.ID ∧ r.status = "pending" ∧
      (SendPending env st).2.notifications.filter (fun x => x.id = n.ID) =
        [{ r with status := "failed" }]) ∧
    (processNotification env k (sendLoop env 0 (batch.take k) (repoGetPending env st).2) n).log =
      (sendLoop env 0 (batch.take k) (repoGetPending env st).2).log ++
        [Call.GetPreference n.UserID, senderCall n, Call.UpdateStatus n.ID "failed"] ∧
    (SendPending env st).2 =
      sendLoop env (k + 1) (batch.drop (k + 1))
        (processNotification env k (sendLoop env 0 (batch.take k) (repoGetPending env st).2) n) ∧
    (SendPending env st).2.log.countP Call.isSend =
      st.log.countP Call.isSend +
        (List.enumFrom 0 batch).countP (fun p => callsSender env st.preferences p.1 p.2) := by
  obtain ⟨hfinal, hlog, r, hr, hid, hstatus, hrow⟩ :=
    SendPending_enabled_at env st batch k n hkey hfetch hk hpref hen hupd
  refine ⟨⟨r, hr, hid, hstatus, ?_⟩, ?_, hfinal, ?_⟩
  · rw [hrow, hsend]
    simp [updateStatusRow, hid]
  · rw [hlog, hsend]
    rfl
  · obtain ⟨-, hst1⟩ := repoGetPending_ok env st batch hfetch
    rw [SendPending_fetched env st batch hfetch]
    show (sendLoop env 0 batch (repoGetPending env st).2).log.countP Call.isSend = _
    rw [sendLoop_sends, hst1]
    simp [List.countP_append, List.countP_cons, Call.isSend]

/-- C3, witness: the notification of user 8 in the sample state, when the e-mail sender fails
for it. -/
theorem SendPending_failure_marks_failed_witness :
    (∃ r ∈ sampleState.notifications, r.id = sampleNotification8.ID ∧ r.status = "pending" ∧
      (SendPending failingSenderEnv sampleState).2.notifications.filter
          (fun x => x.id = sampleNotification8.ID) =
        [{ r with status := "failed" }]) ∧
    (processNotification failingSenderEnv 1
        (sendLoop failingSenderEnv 0 ([sampleNotification7, sampleNotification8].take 1)
          (repoGetPending failingSenderEnv sampleState).2) sampleNotification8).log =
      (sendLoop failingSenderEnv 0 ([sampleNotification7, sampleNotification8].take 1)
          (repoGetPending failingSenderEnv sampleState).2).log ++
        [Call.GetPreference sampleNotification8.UserID, senderCall sampleNotification8,
         Call.UpdateStatus sampleNotification8.ID "failed"] ∧
    (SendPending failingSenderEnv sampleState).2 =
      sendLoop failingSenderEnv (1 + 1) ([sampleNotification7, sampleNotification8].drop (1 + 1))
        (processNotification failingSenderEnv 1
          (sendLoop failingSenderEnv 0 ([sampleNotification7, sampleNotification8].take 1)
            (repoGetPending failingSenderEnv sampleState).2) sampleNotification8) ∧
    (SendPending failingSenderEnv sampleState).2.log.countP Call.isSend =
      sampleState.log.countP Call.isSend +
        (List.enumFrom 0 [sampleNotification7, sampleNotification8]).countP
          (fun p => callsSender failingSenderEnv sampleState.preferences p.1 p.2) :=
  SendPending_failure_marks_failed failingSenderEnv sampleState
    [sampleNotification7, sampleNotification8] 1 sampleNotification8 (by decide) (by rfl)
    (by decide) (by decide) (by decide) (by decide) (by decide)


/-! ## Claims on the canned flows and on invalidation -/

/-- C4 (the code departs from the claim).  On a fresh service with the seed templates, e-mail
enabled by default and working collaborators, each of the four canned flows returns `nil` and
creates exactly one notification record for user 3, but the record is in status `pending`, not
`sent`: the flows call `Create`, which always writes `pending`, after the direct send. -/
theorem canned_flows_record_is_pending :
    (SendMovieRecommendation sampleEnv freshState 3 "alice" "Dune").1 = none ∧
    (SendMovieRecommendation sampleEnv freshState 3 "alice" "Dune").2.notifications =
      [{ id := 1, user_id := 3, typ := "movie_recommendation",
         title := "New Movie Recommendation",
         content := "We have a new movie recommendation for you: Dune",
         status := "pending", channel := "email", created_at := 1000,
         sent_at := none, read_at := none }] ∧
    (SendMovieRecommendation sampleEnv freshState 3 "alice" "Dune").2.log.countP Call.isSend = 1 ∧
    (SendWatchlistReminder sampleEnv freshState 3 "alice" 5).1 = none ∧
    (SendWatchlistReminder sampleEnv freshState 3 "alice" 5).2.notifications.map
      (fun r => (r.user_id, r.typ, r.status)) = [(3, "watchlist_reminder", "pending")] ∧
    (SendNewRelease sampleEnv freshState 3 "alice" "Dune").1 = none ∧
    (SendNewRelease sampleEnv freshState 3 "alice" "Dune").2.notifications.map
      (fun r => (r.user_id, r.typ, r.status)) = [(3, "new_release", "pending")] ∧
    (SendRatingReminder sampleEnv freshState 3 "alice" "Dune").1 = none ∧
    (SendRatingReminder sampleEnv freshState 3 "alice" "Dune").2.notifications.map
      (fun r => (r.user_id, r.typ, r.status)) = [(3, "rating_reminder", "pending")] := by
  decide

/-- C6 (the code departs from the claim).  The cache holds a snapshot of the notifications of
user 7.  `MarkAsRead(1)` updates `read_at` in the store and `SendPending` updates the status,
but neither touches the cache: the entry is still there when they return, and the
`GetUserNotifications(7)` that follows returns the snapshot taken before the update. -/
theorem updates_leave_cache_entry :
    (MarkAsRead snapshotEnv cachedState 1).1 = none ∧
    (MarkAsRead snapshotEnv cachedState 1).2.notifications =
      [{ sampleRow7 with read_at := some 1000 }, sampleRow8] ∧
    (MarkAsRead snapshotEnv cachedState 1).2.redis "notifications:7" =
      some { value := "[n7]", ttl := 5 * Minute, expiresAt := 2000 } ∧
    (MarkAsRead snapshotEnv cachedState 1).2.log = [Call.MarkAsRead 1] ∧
    (GetUserNotifications snapshotEnv (MarkAsRead snapshotEnv cachedState 1).2 7).1 =
      .ok [sampleNotification7] ∧
    (repoGetByUserID snapshotEnv (MarkAsRead snapshotEnv cachedState 1).2 7).1 =
      .ok [{ sampleNotification7 with ReadAt := 1000 }] ∧
    (SendPending snapshotEnv cachedState).1 = none ∧
    (SendPending snapshotEnv cachedState).2.redis "notifications:7" =
      some { value := "[n7]", ttl := 5 * Minute, expiresAt := 2000 } ∧
    (SendPending snapshotEnv cachedState).2.log.countP Call.isCacheWrite = 0 ∧
    (GetUserNotifications snapshotEnv (SendPending snapshotEnv cachedState).2 7).1 =
      .ok [sampleNotification7] ∧
    (repoGetByUserID snapshotEnv (SendPending snapshotEnv cachedState).2 7).1 =
      .ok [{ sampleNotification7 with Status := "sent", SentAt := 1000 }] := by
  refine ⟨by decide, by decide, by decide, by decide, by rfl, by rfl, by decide, by decide,
    by decide, by rfl, by rfl⟩


/-! ## Claims on the read path of the notification service -/

theorem scanAll_error (rows : List NotificationRow) (e : Error)
    (h : scanAll rows = .error e) : e = Error.scan := by
  induction rows with
  | nil => simp [scanAll] at h
  | cons r rs ih =>
    simp only [scanAll] at h
    split at h
    · rename_i e1 he1
      injection h with h
      subst h
      unfold scanNotification at he1
      split at he1
      · exact absurd he1 (by simp)
      · injection he1 with he1
        exact he1.symm
    · split at h
      · rename_i e2 he2
        injection h with h
        subst h
        exact ih he2
      · exact absurd h (by simp)

/-- The store read does not depend on the log, and its error is a store error. -/
theorem repoGetByUserID_result (env : Env) (st : State) (userID : Int) :
    (repoGetByUserID env st userID).1 =
      if env.getByUserErr then .error .db
      else scanAll (selectByUser st.notifications userID) := by
  unfold repoGetByUserID
  split <;> rfl

/-- When the cache yields no decodable payload, the read is the store read followed by a
best-effort `SET`. -/
theorem GetUserNotifications_miss (env : Env) (st : State) (userID : Int)
    (hmiss : ∀ cached snapshot,
      redisGet env.redisGetErr st.redis (env.clock 0) (notificationsKey userID) = .ok cached →
      env.jsonUnmarshal cached ≠ .ok snapshot) :
    GetUserNotifications env st userID =
      match repoGetByUserID env
          { st with log := st.log ++ [Call.RedisGet (notificationsKey userID)] } userID with
      | (.error err, st2) => (.error err, st2)
      | (.ok notifications, st2) =>
        match env.jsonMarshal notifications with
        | .ok data =>
          (.ok notifications, redisSet env st2 (notificationsKey userID) data (5 * Minute))
        | .error _ => (.ok notifications, st2) := by
  cases hget : redisGet env.redisGetErr st.redis (env.clock 0) (notificationsKey userID) with
  | error e => simp only [GetUserNotifications, hget]
  | ok cached =>
    cases hdec : env.jsonUnmarshal cached with
    | error e => simp only [GetUserNotifications, hget, hdec]
    | ok snapshot => exact absurd hdec (hmiss cached snapshot hget)

/-- When the cache yields no decodable payload, the read returns what the store read returns. -/
theorem GetUserNotifications_miss_result (env : Env) (st : State) (userID : Int)
    (hmiss : ∀ cached snapshot,
      redisGet env.redisGetErr st.redis (env.clock 0) (notificationsKey userID) = .ok cached →
      env.jsonUnmarshal cached ≠ .ok snapshot) :
    (GetUserNotifications env st userID).1 = (repoGetByUserID env st userID).1 := by
  rw [GetUserNotifications_miss env st userID hmiss, repoGetByUserID_result]
  unfold repoGetByUserID
  by_cases hq : env.getByUserErr = true
  · simp [hq]
  · simp only [hq]
    cases hs : scanAll (selectByUser st.notifications userID) with
    | error e => simp
    | ok ns =>
      simp only [Bool.false_eq_true, if_false]
      cases env.jsonMarshal ns <;> rfl

/-- C7.  When the cache holds a live entry under the key of the user and its payload decodes,
`GetUserNotifications` returns exactly the decoded snapshot and the only call it makes is the
Redis `GET`: the state is the one before the call with that call logged, so there is no store
read and no cache write, and the answer is the same whatever the notification table holds. -/
theorem GetUserNotifications_hit (env : Env) (st : State) (userID : Int) (cached : String)
    (snapshot : List Notification)
    (hget : redisGet env.redisGetErr st.redis (env.clock 0) (notificationsKey userID) =
      .ok cached)
    (hdec : env.jsonUnmarshal cached = .ok snapshot) :
    GetUserNotifications env st userID =
      (.ok snapshot, { st with log := st.log ++ [Call.RedisGet (notificationsKey userID)] }) ∧
    (GetUserNotifications env st userID).2.log.countP Call.isStoreRead =
      st.log.countP Call.isStoreRead ∧
    (GetUserNotifications env st userID).2.log.countP Call.isCacheWrite =
      st.log.countP Call.isCacheWrite ∧
    (GetUserNotifications env st userID).2.redis = st.redis ∧
    ∀ rows, (GetUserNotifications env { st with notifications := rows } userID).1 =
      .ok snapshot := by
  have h : ∀ st1 : State, st1.redis = st.redis → GetUserNotifications env st1 userID =
      (.ok snapshot, { st1 with log := st1.log ++ [Call.RedisGet (notificationsKey userID)] }) := by
    intro st1 h1
    unfold GetUserNotifications
    simp only [h1, hget, hdec]
  refine ⟨h st rfl, ?_, ?_, ?_, ?_⟩
  · rw [h st rfl]
    simp [List.countP_append, List.countP_cons, Call.isStoreRead]
  · rw [h st rfl]
    simp [List.countP_append, List.countP_cons, Call.isCacheWrite]
  · rw [h st rfl]
  · intro rows
    rw [h { st with notifications := rows } rfl]

/-- C7, witness: user 7 in the sample state with a cached snapshot. -/
theorem GetUserNotifications_hit_witness :
    GetUserNotifications snapshotEnv cachedState 7 =
      (.ok [sampleNotification7],
       { cachedState with log := cachedState.log ++ [Call.RedisGet (notificationsKey 7)] }) ∧
    (GetUserNotifications snapshotEnv cachedState 7).2.log.countP Call.isStoreRead =
      cachedState.log.countP Call.isStoreRead ∧
    (GetUserNotifications snapshotEnv cachedState 7).2.log.countP Call.isCacheWrite =
      cachedState.log.countP Call.isCacheWrite ∧
    (GetUserNotifications snapshotEnv cachedState 7).2.redis = cachedState.redis ∧
    ∀ rows, (GetUserNotifications snapshotEnv { cachedState with notifications := rows } 7).1 =
      .ok [sampleNotification7] :=
  GetUserNotifications_hit snapshotEnv cachedState 7 "[n7]" [sampleNotification7]
    (by rfl) (by rfl)

/-- C10.  Cache failures never reach the caller.  When the Redis `GET` returns an error or a
payload that does not decode, `GetUserNotifications` returns exactly the list or the error of
the store's `GetByUserID`, whether the later `SET` (or the marshalling before it) fails or not.
`Create` returns exactly the record or the error of the store's `Create`, whether the `DEL`
fails or not.  And an error returned by either is a store error, never a Redis or codec one. -/
theorem cache_failures_are_absorbed (env : Env) (st : State) (userID : Int)
    (hfail : ∀ cached snapshot,
      redisGet env.redisGetErr st.redis (env.clock 0) (notificationsKey userID) = .ok cached →
      env.jsonUnmarshal cached ≠ .ok snapshot) :
    (GetUserNotifications env st userID).1 = (repoGetByUserID env st userID).1 ∧
    (∀ notificationType title content channel,
      (Create env st userID notificationType title content channel).1 =
        (repoCreate env st
          { ID := 0, UserID := userID, Typ := notificationType, Title := title,
            Content := content, Status := "pending", Channel := channel, CreatedAt := 0,
            SentAt := 0, ReadAt := 0 }).1) ∧
    (∀ e, (GetUserNotifications env st userID).1 = .error e → e = Error.db ∨ e = Error.scan) ∧
    (∀ notificationType title content channel e,
      (Create env st userID notificationType title content channel).1 = .error e →
        e = Error.db) := by
  have hread := GetUserNotifications_miss_result env st userID hfail
  have hcreate : ∀ notificationType title content channel,
      (Create env st userID notificationType title content channel).1 =
        (repoCreate env st
          { ID := 0, UserID := userID, Typ := notificationType, Title := title,
            Content := content, Status := "pending", Channel := channel, CreatedAt := 0,
            SentAt := 0, ReadAt := 0 }).1 := by
    intro notificationType title content channel
    simp only [Create]
    split <;> rename_i h <;> rw [h]
  refine ⟨hread, hcreate, ?_, ?_⟩
  · intro e he
    rw [hread, repoGetByUserID_result] at he
    by_cases hq : env.getByUserErr = true
    · simp only [hq, if_true] at he
      injection he with he
      exact Or.inl he.symm
    · simp only [hq] at he
      exact Or.inr (scanAll_error _ e he)
  · intro notificationType title content channel e he
    rw [hcreate] at he
    unfold repoCreate at he
    split at he
    · injection he with he
      exact he.symm
    · exact absurd he (by simp)

/-- C10, witness: user 7 in the sample state with a cached snapshot, when Redis cannot be
reached. -/
theorem cache_failures_are_absorbed_witness :
    (GetUserNotifications redisDownEnv cachedState 7).1 =
      (repoGetByUserID redisDownEnv cachedState 7).1 ∧
    (∀ notificationType title content channel,
      (Create redisDownEnv cachedState 7 notificationType title content channel).1 =
        (repoCreate redisDownEnv cachedState
          { ID := 0, UserID := 7, Typ := notificationType, Title := title,
            Content := content, Status := "pending", Channel := channel, CreatedAt := 0,
            SentAt := 0, ReadAt := 0 }).1) ∧
    (∀ e, (GetUserNotifications redisDownEnv cachedState 7).1 = .error e →
      e = Error.db ∨ e = Error.scan) ∧
    (∀ notificationType title content channel e,
      (Create redisDownEnv cachedState 7 notificationType title content channel).1 = .error e →
        e = Error.db) :=
  cache_failures_are_absorbed redisDownEnv cachedState 7
    (fun cached snapshot h => by
      have : redisGet redisDownEnv.redisGetErr cachedState.redis (redisDownEnv.clock 0)
          (notificationsKey 7) = .error .redisDown := by rfl
      rw [this] at h
      exact absurd h (by simp))


/-! ## Claims on the read path of the watchlist service -/

/-- The read handlers of the watchlist service never change the state: the value handed to
`rdb.Set` is a slice of structs, which the client refuses to write. -/
theorem watchlist_reads_keep_state (env : WEnv) (st : WState) (userID : Option Int) :
    (GetWatchlist env st userID).2 = st ∧ (GetHistory env st userID).2 = st := by
  constructor
  · unfold GetWatchlist
    cases userID with
    | none => rfl
    | some u =>
      simp only
      split
      · rfl
      · split <;> rfl
  · unfold GetHistory
    cases userID with
    | none => rfl
    | some u =>
      simp only
      split
      · rfl
      · split <;> rfl

/-- C8 (the code departs from the claim).  On a miss `GetWatchlist` and `GetHistory` return the
list of the store, as claimed, but they write nothing to the cache: in the sample state the key
of user 7 has no entry after the read, and for every environment, state and user the state
after either handler is the state before it.  `GetUserNotifications`, which marshals the list
first, does write the serialization with a time-to-live of five minutes. -/
theorem watchlist_miss_writes_nothing :
    (GetWatchlist sampleWEnv sampleWState (some 7)).1 =
      { code := 200, body := .data (.watchlist [sampleWatchlistItem]) } ∧
    (GetWatchlist sampleWEnv sampleWState (some 7)).2.redis (watchlistKey 7) = none ∧
    (GetHistory sampleWEnv sampleWState (some 7)).1 =
      { code := 200, body := .data (.history [sampleHistoryItem]) } ∧
    (GetHistory sampleWEnv sampleWState (some 7)).2.redis (historyKey 7) = none ∧
    (∀ env st userID, (GetWatchlist env st userID).2.redis = st.redis ∧
      (GetHistory env st userID).2.redis = st.redis) ∧
    (GetUserNotifications sampleEnv freshState 3).1 = .ok [] ∧
    (GetUserNotifications sampleEnv freshState 3).2.redis (notificationsKey 3) =
      some { value := "null", ttl := 5 * Minute, expiresAt := 1000 + 5 * Minute } := by
  refine ⟨by decide, by decide, by decide, by decide, ?_, by rfl, by decide⟩
  intro env st userID
  rw [(watchlist_reads_keep_state env st userID).1, (watchlist_reads_keep_state env st userID).2]
  exact ⟨rfl, rfl⟩

/-- C9 (the code departs from the claim).  Over the same store content, the answer of
`GetWatchlist` on a cache hit carries the cached text itself under `data`, a JSON string, whereas
on a miss it carries the list of items: the two are different for the caller.  The same holds
for `GetHistory`.  Nor does a miss populate the entry: a second read after a miss is a miss
again. -/
theorem watchlist_hit_differs_from_miss :
    (GetWatchlist sampleWEnv cachedWState (some 7)).1 =
      { code := 200, body := .data (.text sampleWatchlistJSON) } ∧
    (GetWatchlist sampleWEnv sampleWState (some 7)).1 =
      { code := 200, body := .data (.watchlist [sampleWatchlistItem]) } ∧
    cachedWState.watchlists = sampleWState.watchlists ∧
    (GetWatchlist sampleWEnv cachedWState (some 7)).1 ≠
      (GetWatchlist sampleWEnv sampleWState (some 7)).1 ∧
    (GetHistory sampleWEnv cachedWState (some 7)).1 =
      { code := 200, body := .data (.text sampleHistoryJSON) } ∧
    (GetHistory sampleWEnv sampleWState (some 7)).1 =
      { code := 200, body := .data (.history [sampleHistoryItem]) } ∧
    (GetHistory sampleWEnv cachedWState (some 7)).1 ≠
      (GetHistory sampleWEnv sampleWState (some 7)).1 ∧
    (GetWatchlist sampleWEnv (GetWatchlist sampleWEnv sampleWState (some 7)).2 (some 7)).1 =
      { code := 200, body := .data (.watchlist [sampleWatchlistItem]) } ∧
    (∀ (cached : String) (items : List WatchlistItem),
      Payload.text cached ≠ Payload.watchlist items) := by
  refine ⟨by decide, by decide, by rfl, by decide, by decide, by decide, by decide, by decide,
    ?_⟩
  intro cached items h
  exact Payload.noConfusion h


/-! ## The claim on invalidation by the write paths -/

/-- The store reads of the watchlist service do not look at the cache. -/
theorem watchlist_reads_ignore_cache (env : WEnv) (st : WState) (c : Cache) (userID : Int) :
    watchlistGetByUserID env { st with redis := c } userID = watchlistGetByUserID env st userID ∧
    historyGetByUserID env { st with redis := c } userID = historyGetByUserID env st userID :=
  ⟨rfl, rfl⟩

/-- The value of a decimal digit character. -/
theorem digitChar_value (m : Nat) (h : m < 10) : (Nat.digitChar m).toNat - 48 = m := by
  interval_cases m <;> rfl

theorem digitChar_ne_minus (m : Nat) (h : m < 10) : Nat.digitChar m ≠ '-' := by
  interval_cases m <;> decide

/-- Reading the digits written by `Nat.toDigitsCore` gives the number back. -/
theorem toDigitsCore_value (fuel n : Nat) (ds : List Char) (h : n < fuel) :
    (Nat.toDigitsCore 10 fuel n ds).foldl (fun a c => 10 * a + (c.toNat - 48)) 0 =
      ds.foldl (fun a c => 10 * a + (c.toNat - 48)) n := by
  induction fuel generalizing n ds with
  | zero => exact absurd h (Nat.not_lt_zero _)
  | succ fuel ih =>
    simp only [Nat.toDigitsCore]
    by_cases h0 : n / 10 = 0
    · simp only [h0, if_true, List.foldl_cons]
      have hn : n < 10 := by omega
      rw [digitChar_value _ (Nat.mod_lt _ (by decide)), Nat.mod_eq_of_lt hn]
      simp
    · simp only [h0, if_false]
      rw [ih (n / 10) _ (by omega)]
      simp only [List.foldl_cons]
      rw [digitChar_value _ (Nat.mod_lt _ (by decide))]
      congr 1
      omega

theorem toDigitsCore_no_minus (fuel n : Nat) (ds : List Char) (h : '-' ∉ ds) :
    '-' ∉ Nat.toDigitsCore 10 fuel n ds := by
  induction fuel generalizing n ds with
  | zero => simpa [Nat.toDigitsCore] using h
  | succ fuel ih =>
    have hd : '-' ∉ Nat.digitChar (n % 10) :: ds := by
      intro hm
      rcases List.mem_cons.mp hm with e | e
      · exact digitChar_ne_minus _ (Nat.mod_lt _ (by decide)) e.symm
      · exact h e
    simp only [Nat.toDigitsCore]
    split
    · exact hd
    · exact ih _ _ hd

theorem repr_injective (n m : Nat) (h : Nat.repr n = Nat.repr m) : n = m := by
  have hd : Nat.toDigits 10 n = Nat.toDigits 10 m := by
    have := congrArg String.data h
    simpa [Nat.repr, List.asString] using this
  have hn := toDigitsCore_value (n + 1) n [] (Nat.lt_succ_self n)
  have hm := toDigitsCore_value (m + 1) m [] (Nat.lt_succ_self m)
  simp only [List.foldl_nil] at hn hm
  unfold Nat.toDigits at hd
  rw [← hn, ← hm, hd]

theorem repr_no_minus (n : Nat) : '-' ∉ (Nat.repr n).data := by
  have : (Nat.repr n).data = Nat.toDigits 10 n := by simp [Nat.repr, List.asString]
  rw [this]
  exact toDigitsCore_no_minus _ _ _ (List.not_mem_nil _)

theorem append_left_cancel (p a b : String) (h : p ++ a = p ++ b) : a = b := by
  have := congrArg String.data h
  simp only [String.data_append] at this
  exact String.ext (List.append_cancel_left this)

/-- The decimal rendering determines the integer. -/
theorem Itoa_injective (u v : Int) (h : Itoa u = Itoa v) : u = v := by
  cases u with
  | ofNat n =>
    cases v with
    | ofNat m =>
      simp only [Itoa] at h
      rw [repr_injective n m h]
    | negSucc m =>
      simp only [Itoa] at h
      have hmem : '-' ∈ (Nat.repr n).data := by
        rw [h]
        simp [String.data_append]
      exact absurd hmem (repr_no_minus n)
  | negSucc n =>
    cases v with
    | ofNat m =>
      simp only [Itoa] at h
      have hmem : '-' ∈ (Nat.repr m).data := by
        rw [← h]
        simp [String.data_append]
      exact absurd hmem (repr_no_minus m)
    | negSucc m =>
      simp only [Itoa] at h
      have := repr_injective _ _ (append_left_cancel _ _ _ h)
      have : n = m := by omega
      rw [this]

/-- C11.  The cache key of a collection kind and a user id, built as the kind, a colon and the
decimal rendering of the id, determines both: two keys are equal exactly when the kinds are
equal and the user ids are equal, for all integers, negative ones included. -/
theorem cacheKey_injective (k1 k2 : CollectionKind) (u1 u2 : Int) :
    cacheKey k1 u1 = cacheKey k2 u2 ↔ k1 = k2 ∧ u1 = u2 := by
  constructor
  · intro h
    have hd := congrArg String.data h
    cases k1 <;> cases k2 <;>
      simp only [cacheKey, notificationsKey, watchlistKey, historyKey, String.data_append] at hd h
    · exact ⟨rfl, Itoa_injective _ _ (append_left_cancel _ _ _ h)⟩
    · exact absurd (List.head_eq_of_cons_eq hd) (by decide)
    · exact absurd (List.head_eq_of_cons_eq hd) (by decide)
    · exact absurd (List.head_eq_of_cons_eq hd) (by decide)
    · exact ⟨rfl, Itoa_injective _ _ (append_left_cancel _ _ _ h)⟩
    · exact absurd (List.head_eq_of_cons_eq hd) (by decide)
    · exact absurd (List.head_eq_of_cons_eq hd) (by decide)
    · exact absurd (List.head_eq_of_cons_eq hd) (by decide)
    · exact ⟨rfl, Itoa_injective _ _ (append_left_cancel _ _ _ h)⟩
  · rintro ⟨rfl, rfl⟩
    rfl


/-! ## Adding to the watchlist twice -/

/-- C12, as stated, fails for movie 0: starting from an empty store, the request of user 7 to
add movie 0 does not succeed.  `MovieID` is tagged `binding:"required"`, which the zero value
does not satisfy, so the handler answers 400 with the message of the validator and inserts
nothing. -/
theorem AddToWatchlist_movie_zero_is_rejected :
    (AddToWatchlist sampleWEnv emptyWState (some 7)
      (bindAddToWatchlistRequest (.object (some 0)))).1 =
      { code := 400, body := .error requiredMessage } ∧
    (AddToWatchlist sampleWEnv emptyWState (some 7)
      (bindAddToWatchlistRequest (.object (some 0)))).2.watchlists = [] := by
  decide

/-- C12, amended.  For every user `U` and every movie `M` other than 0, starting from a store
without a row for `(U, M)` and with the statements of the store succeeding: the first
`AddToWatchlist(U, M)` answers 201 with the new item, the second answers 409 "Movie already in
watchlist" and leaves the table as the first call left it, and the table then holds exactly one
row for `(U, M)`. -/
theorem AddToWatchlist_twice (env1 env2 : WEnv) (st : WState) (U M : Int)
    (hM : M ≠ 0)
    (habsent : ∀ r ∈ st.watchlists, ¬ (r.UserID = U ∧ r.MovieID = M))
    (hexists1 : env1.existsErr = false) (hadd1 : env1.addErr = false)
    (hexists2 : env2.existsErr = false) :
    (AddToWatchlist env1 st (some U) (bindAddToWatchlistRequest (.object (some M)))).1 =
      { code := 201, body := .data (.watchlistItem
          { ID := st.watchlistSerial, UserID := U, MovieID := M, CreatedAt := env1.now }) } ∧
    (AddToWatchlist env2
      (AddToWatchlist env1 st (some U) (bindAddToWatchlistRequest (.object (some M)))).2
      (some U) (bindAddToWatchlistRequest (.object (some M)))).1 =
      { code := 409, body := .error "Movie already in watchlist" } ∧
    (AddToWatchlist env2
      (AddToWatchlist env1 st (some U) (bindAddToWatchlistRequest (.object (some M)))).2
      (some U) (bindAddToWatchlistRequest (.object (some M)))).2.watchlists =
      (AddToWatchlist env1 st (some U)
        (bindAddToWatchlistRequest (.object (some M)))).2.watchlists ∧
    ((AddToWatchlist env2
      (AddToWatchlist env1 st (some U) (bindAddToWatchlistRequest (.object (some M)))).2
      (some U) (bindAddToWatchlistRequest (.object (some M)))).2.watchlists.filter
        (fun r => r.UserID = U ∧ r.MovieID = M)).length = 1 := by
  have hbind : bindAddToWatchlistRequest (.object (some M)) = .ok { MovieID := M } := by
    simp [bindAddToWatchlistRequest, hM]
  have hany : st.watchlists.any (fun r => decide (r.UserID = U ∧ r.MovieID = M)) = false := by
    rw [List.any_eq_false]
    intro r hr
    simpa using habsent r hr
  have hfirst : AddToWatchlist env1 st (some U) (.ok { MovieID := M }) =
      ({ code := 201, body := .data (.watchlistItem
          { ID := st.watchlistSerial, UserID := U, MovieID := M, CreatedAt := env1.now }) },
       rdbDel env1
        { st with
          watchlists := st.watchlists ++
            [{ ID := st.watchlistSerial, UserID := U, MovieID := M, CreatedAt := env1.now }],
          watchlistSerial := st.watchlistSerial + 1 } (watchlistKey U)) := by
    simp only [AddToWatchlist, watchlistExists, watchlistAdd, hexists1, hadd1, hany]
    rfl
  have hrows : (AddToWatchlist env1 st (some U) (.ok { MovieID := M })).2.watchlists =
      st.watchlists ++
        [{ ID := st.watchlistSerial, UserID := U, MovieID := M, CreatedAt := env1.now }] := by
    rw [hfirst]
    unfold rdbDel
    split <;> rfl
  have hany2 : (AddToWatchlist env1 st (some U) (.ok { MovieID := M })).2.watchlists.any
      (fun r => decide (r.UserID = U ∧ r.MovieID = M)) = true := by
    rw [hrows]
    simp
  have hsecond : AddToWatchlist env2
      (AddToWatchlist env1 st (some U) (.ok { MovieID := M })).2 (some U)
      (.ok { MovieID := M }) =
      ({ code := 409, body := .error "Movie already in watchlist" },
       (AddToWatchlist env1 st (some U) (.ok { MovieID := M })).2) := by
    generalize hst1 : (AddToWatchlist env1 st (some U) (.ok { MovieID := M })).2 = st1 at hany2 ⊢
    simp only [AddToWatchlist, watchlistExists, hexists2, hany2]
    rfl
  rw [hbind]
  refine ⟨by rw [hfirst], by rw [hsecond], by rw [hsecond], ?_⟩
  rw [hsecond, hrows, List.filter_append]
  have h0 : st.watchlists.filter (fun r => decide (r.UserID = U ∧ r.MovieID = M)) = [] := by
    apply List.filter_eq_nil_iff.mpr
    intro r hr
    simpa using habsent r hr
  rw [h0]
  simp

/-- C12, witness: user 7 and movie 456 in the sample state, which holds movie 123 only. -/
theorem AddToWatchlist_twice_witness :
    (AddToWatchlist sampleWEnv sampleWState (some 7)
      (bindAddToWatchlistRequest (.object (some 456)))).1 =
      { code := 201, body := .data (.watchlistItem
          { ID := sampleWState.watchlistSerial, UserID := 7, MovieID := 456,
            CreatedAt := sampleWEnv.now }) } ∧
    (AddToWatchlist sampleWEnv
      (AddToWatchlist sampleWEnv sampleWState (some 7)
        (bindAddToWatchlistRequest (.object (some 456)))).2
      (some 7) (bindAddToWatchlistRequest (.object (some 456)))).1 =
      { code := 409, body := .error "Movie already in watchlist" } ∧
    (AddToWatchlist sampleWEnv
      (AddToWatchlist sampleWEnv sampleWState (some 7)
        (bindAddToWatchlistRequest (.object (some 456)))).2
      (some 7) (bindAddToWatchlistRequest (.object (some 456)))).2.watchlists =
      (AddToWatchlist sampleWEnv sampleWState (some 7)
        (bindAddToWatchlistRequest (.object (some 456)))).2.watchlists ∧
    ((AddToWatchlist sampleWEnv
      (AddToWatchlist sampleWEnv sampleWState (some 7)
        (bindAddToWatchlistRequest (.object (some 456)))).2
      (some 7) (bindAddToWatchlistRequest (.object (some 456)))).2.watchlists.filter
        (fun r => r.UserID = 7 ∧ r.MovieID = 456)).length = 1 :=
  AddToWatchlist_twice sampleWEnv sampleWEnv sampleWState 7 456 (by decide) (by decide)
    (by decide) (by decide) (by decide)

/-! ## Preferences -/

/-- C13.  For a user without a preference row, when the query itself succeeds,
`GetPreferences` returns no error and the default preference of that user, with both channels
enabled, and it writes nothing: the state afterwards is the state before with the lookup logged,
so the preference table is unchanged and still has no row for the user. -/
theorem GetPreferences_default (env : Env) (st : State) (userID : Int)
    (hnone : ∀ p ∈ st.preferences, p.UserID ≠ userID)
    (hquery : env.prefErr 0 = false) :
    GetPreferences env st userID =
      (.ok { ID := 0, UserID := userID, EmailEnabled := true, PushEnabled := true,
             CreatedAt := 0, UpdatedAt := 0 },
       { st with log := st.log ++ [Call.GetPreference userID] }) ∧
    (GetPreferences env st userID).2.preferences = st.preferences ∧
    (∀ p ∈ (GetPreferences env st userID).2.preferences, p.UserID ≠ userID) := by
  have hfind : st.preferences.find? (fun p => decide (p.UserID = userID)) = none := by
    rw [List.find?_eq_none]
    intro p hp
    simpa using hnone p hp
  have h : GetPreferences env st userID =
      (.ok { ID := 0, UserID := userID, EmailEnabled := true, PushEnabled := true,
             CreatedAt := 0, UpdatedAt := 0 },
       { st with log := st.log ++ [Call.GetPreference userID] }) := by
    simp only [GetPreferences, repoGetPreference, hquery, effectivePreference, hfind]
    rfl
  refine ⟨h, by rw [h], ?_⟩
  rw [h]
  exact hnone

/-- C13, witness: user 8, who has no preference row in the sample state. -/
theorem GetPreferences_default_witness :
    GetPreferences sampleEnv sampleState 8 =
      (.ok { ID := 0, UserID := 8, EmailEnabled := true, PushEnabled := true,
             CreatedAt := 0, UpdatedAt := 0 },
       { sampleState with log := sampleState.log ++ [Call.GetPreference 8] }) ∧
    (GetPreferences sampleEnv sampleState 8).2.preferences = sampleState.preferences ∧
    (∀ p ∈ (GetPreferences sampleEnv sampleState 8).2.preferences, p.UserID ≠ 8) :=
  GetPreferences_default sampleEnv sampleState 8 (by decide) (by decide)


/-! ## The canned flows: absent template, disabled e-mail, failing send -/

/-- The common body when the template lookup finds no row. -/
theorem sendTemplated_absent (env : Env) (st : State) (userID : Int) (name : String)
    (data : TemplateData) (notificationType title content : String)
    (hquery : env.templateErr = false)
    (habsent : st.templates.find? (fun t => t.Name = name ∧ t.Typ = "email") = none) :
    sendTemplated env st userID name data notificationType title content =
      (some Error.templateNotFound,
       { st with log := st.log ++ [Call.GetTemplate name "email"] }) := by
  simp only [sendTemplated, repoGetTemplate, hquery, habsent]
  rfl

/-- The common body when the template exists and the preference lookup succeeds. -/
theorem sendTemplated_found (env : Env) (st : State) (userID : Int) (name : String)
    (data : TemplateData) (notificationType title content : String) (t : Template)
    (hquery : env.templateErr = false) (hpref : env.prefErr 0 = false)
    (hfound : st.templates.find? (fun t => t.Name = name ∧ t.Typ = "email") = some t) :
    sendTemplated env st userID name data notificationType title content =
      if (effectivePreference st.preferences userID).EmailEnabled then
        match env.sendWithTemplate (userEmail userID) t data with
        | some err =>
          (some err,
           { st with log := st.log ++ [Call.GetTemplate name "email", Call.GetPreference userID,
               Call.EmailSendWithTemplate (userEmail userID) t data] })
        | none =>
          (none,
           (Create env
             { st with log := st.log ++ [Call.GetTemplate name "email",
                 Call.GetPreference userID,
                 Call.EmailSendWithTemplate (userEmail userID) t data] }
             userID notificationType title content "email").2)
      else
        (none,
         { st with log := st.log ++ [Call.GetTemplate name "email",
             Call.GetPreference userID] }) := by
  simp only [sendTemplated, repoGetTemplate, repoGetPreference, hquery, hpref, hfound,
    Bool.false_eq_true, if_false, List.append_assoc, List.singleton_append, List.cons_append,
    List.nil_append]


/-- C14.  When the template query succeeds and finds no template with the name of the flow and
type `email`, each of the four canned flows returns the error "template not found" and makes no
further call: the state afterwards is the state before with the template lookup logged.  So no
sender is called, no record is created and the cache is not touched, whatever the preferences
and the other collaborators are. -/
theorem canned_flows_without_template (env : Env) (st : State) (userID : Int)
    (username movieTitle : String) (count : Int)
    (hquery : env.templateErr = false) :
    (st.templates.find? (fun t => t.Name = "movie_recommendation" ∧ t.Typ = "email") = none →
      SendMovieRecommendation env st userID username movieTitle =
        (some Error.templateNotFound,
         { st with log := st.log ++ [Call.GetTemplate "movie_recommendation" "email"] })) ∧
    (st.templates.find? (fun t => t.Name = "watchlist_reminder" ∧ t.Typ = "email") = none →
      SendWatchlistReminder env st userID username count =
        (some Error.templateNotFound,
         { st with log := st.log ++ [Call.GetTemplate "watchlist_reminder" "email"] })) ∧
    (st.templates.find? (fun t => t.Name = "new_release" ∧ t.Typ = "email") = none →
      SendNewRelease env st userID username movieTitle =
        (some Error.templateNotFound,
         { st with log := st.log ++ [Call.GetTemplate "new_release" "email"] })) ∧
    (st.templates.find? (fun t => t.Name = "rating_reminder" ∧ t.Typ = "email") = none →
      SendRatingReminder env st userID username movieTitle =
        (some Error.templateNotFound,
         { st with log := st.log ++ [Call.GetTemplate "rating_reminder" "email"] })) :=
  ⟨fun h => sendTemplated_absent env st userID _ _ _ _ _ hquery h,
   fun h => sendTemplated_absent env st userID _ _ _ _ _ hquery h,
   fun h => sendTemplated_absent env st userID _ _ _ _ _ hquery h,
   fun h => sendTemplated_absent env st userID _ _ _ _ _ hquery h⟩

/-- C14, witness: the sample state, which has no template at all, and user 8, whose e-mail is
enabled. -/
theorem canned_flows_without_template_witness :
    SendMovieRecommendation sampleEnv sampleState 8 "alice" "Dune" =
      (some Error.templateNotFound,
       { sampleState with
         log := sampleState.log ++ [Call.GetTemplate "movie_recommendation" "email"] }) ∧
    SendWatchlistReminder sampleEnv sampleState 8 "alice" 5 =
      (some Error.templateNotFound,
       { sampleState with
         log := sampleState.log ++ [Call.GetTemplate "watchlist_reminder" "email"] }) ∧
    SendNewRelease sampleEnv sampleState 8 "alice" "Dune" =
      (some Error.templateNotFound,
       { sampleState with
         log := sampleState.log ++ [Call.GetTemplate "new_release" "email"] }) ∧
    SendRatingReminder sampleEnv sampleState 8 "alice" "Dune" =
      (some Error.templateNotFound,
       { sampleState with
         log := sampleState.log ++ [Call.GetTemplate "rating_reminder" "email"] }) :=
  have h := canned_flows_without_template sampleEnv sampleState 8 "alice" "Dune" 5 (by decide)
  ⟨h.1 (by decide), h.2.1 (by decide), h.2.2.1 (by decide), h.2.2.2 (by decide)⟩

/-- C15.  When the template of the flow exists, the preference lookup succeeds and the
effective preference of the user has e-mail disabled, each of the four canned flows returns
`nil` and makes no further call: the state afterwards is the state before with the template
lookup and the preference lookup logged.  So no sender is called, no record is created and the
cache is unchanged. -/
theorem canned_flows_email_disabled (env : Env) (st : State) (userID : Int)
    (username movieTitle : String) (count : Int)
    (hquery : env.templateErr = false) (hpref : env.prefErr 0 = false)
    (hoff : (effectivePreference st.preferences userID).EmailEnabled = false) :
    (∀ t, st.templates.find? (fun t => t.Name = "movie_recommendation" ∧ t.Typ = "email") =
        some t →
      SendMovieRecommendation env st userID username movieTitle =
        (none, { st with log := st.log ++
          [Call.GetTemplate "movie_recommendation" "email", Call.GetPreference userID] })) ∧
    (∀ t, st.templates.find? (fun t => t.Name = "watchlist_reminder" ∧ t.Typ = "email") =
        some t →
      SendWatchlistReminder env st userID username count =
        (none, { st with log := st.log ++
          [Call.GetTemplate "watchlist_reminder" "email", Call.GetPreference userID] })) ∧
    (∀ t, st.templates.find? (fun t => t.Name = "new_release" ∧ t.Typ = "email") = some t →
      SendNewRelease env st userID username movieTitle =
        (none, { st with log := st.log ++
          [Call.GetTemplate "new_release" "email", Call.GetPreference userID] })) ∧
    (∀ t, st.templates.find? (fun t => t.Name = "rating_reminder" ∧ t.Typ = "email") =
        some t →
      SendRatingReminder env st userID username movieTitle =
        (none, { st with log := st.log ++
          [Call.GetTemplate "rating_reminder" "email", Call.GetPreference userID] })) := by
  refine ⟨?_, ?_, ?_, ?_⟩ <;> intro t ht
  · unfold SendMovieRecommendation
    rw [sendTemplated_found env st userID _ _ _ _ _ t hquery hpref ht, hoff]
    rfl
  · unfold SendWatchlistReminder
    rw [sendTemplated_found env st userID _ _ _ _ _ t hquery hpref ht, hoff]
    rfl
  · unfold SendNewRelease
    rw [sendTemplated_found env st userID _ _ _ _ _ t hquery hpref ht, hoff]
    rfl
  · unfold SendRatingReminder
    rw [sendTemplated_found env st userID _ _ _ _ _ t hquery hpref ht, hoff]
    rfl

/-- C15, witness: user 7, who has switched e-mail off, in the sample state with the seed
templates. -/
theorem canned_flows_email_disabled_witness :
    SendMovieRecommendation sampleEnv seededState 7 "alice" "Dune" =
      (none, { seededState with log := seededState.log ++
        [Call.GetTemplate "movie_recommendation" "email", Call.GetPreference 7] }) ∧
    SendWatchlistReminder sampleEnv seededState 7 "alice" 5 =
      (none, { seededState with log := seededState.log ++
        [Call.GetTemplate "watchlist_reminder" "email", Call.GetPreference 7] }) ∧
    SendNewRelease sampleEnv seededState 7 "alice" "Dune" =
      (none, { seededState with log := seededState.log ++
        [Call.GetTemplate "new_release" "email", Call.GetPreference 7] }) ∧
    SendRatingReminder sampleEnv seededState 7 "alice" "Dune" =
      (none, { seededState with log := seededState.log ++
        [Call.GetTemplate "rating_reminder" "email", Call.GetPreference 7] }) :=
  have h := canned_flows_email_disabled sampleEnv seededState 7 "alice" "Dune" 5
    (by decide) (by decide) (by decide)
  ⟨h.1 _ (by rfl), h.2.1 _ (by rfl), h.2.2.1 _ (by rfl), h.2.2.2 _ (by rfl)⟩

/-- C16.  When the template of the flow exists, the preference lookup succeeds, e-mail is
enabled and `SendWithTemplate` returns an error (from rendering or from the sender), each of the
four canned flows returns that very error and stops: the state afterwards is the state before
with the two lookups and the send logged.  So no record is created: the notification table and
its id sequence are unchanged, and so is the cache. -/
theorem canned_flows_send_fails (env : Env) (st : State) (userID : Int)
    (username movieTitle : String) (count : Int)
    (hquery : env.templateErr = false) (hpref : env.prefErr 0 = false)
    (hon : (effectivePreference st.preferences userID).EmailEnabled = true) :
    (∀ t err,
      st.templates.find? (fun t => t.Name = "movie_recommendation" ∧ t.Typ = "email") = some t →
      env.sendWithTemplate (userEmail userID) t
        [("Username", .str username), ("MovieTitle", .str movieTitle)] = some err →
      SendMovieRecommendation env st userID username movieTitle =
        (some err, { st with log := st.log ++
          [Call.GetTemplate "movie_recommendation" "email", Call.GetPreference userID,
           Call.EmailSendWithTemplate (userEmail userID) t
             [("Username", .str username), ("MovieTitle", .str movieTitle)]] })) ∧
    (∀ t err,
      st.templates.find? (fun t => t.Name = "watchlist_reminder" ∧ t.Typ = "email") = some t →
      env.sendWithTemplate (userEmail userID) t
        [("Username", .str username), ("Count", .int count)] = some err →
      SendWatchlistReminder env st userID username count =
        (some err, { st with log := st.log ++
          [Call.GetTemplate "watchlist_reminder" "email", Call.GetPreference userID,
           Call.EmailSendWithTemplate (userEmail userID) t
             [("Username", .str username), ("Count", .int count)]] })) ∧
    (∀ t err,
      st.templates.find? (fun t => t.Name = "new_release" ∧ t.Typ = "email") = some t →
      env.sendWithTemplate (userEmail userID) t
        [("Username", .str username), ("MovieTitle", .str movieTitle)] = some err →
      SendNewRelease env st userID username movieTitle =
        (some err, { st with log := st.log ++
          [Call.GetTemplate "new_release" "email", Call.GetPreference userID,
           Call.EmailSendWithTemplate (userEmail userID) t
             [("Username", .str username), ("MovieTitle", .str movieTitle)]] })) ∧
    (∀ t err,
      st.templates.find? (fun t => t.Name = "rating_reminder" ∧ t.Typ = "email") = some t →
      env.sendWithTemplate (userEmail userID) t
        [("Username", .str username), ("MovieTitle", .str movieTitle)] = some err →
      SendRatingReminder env st userID username movieTitle =
        (some err, { st with log := st.log ++
          [Call.GetTemplate "rating_reminder" "email", Call.GetPreference userID,
           Call.EmailSendWithTemplate (userEmail userID) t
             [("Username", .str username), ("MovieTitle", .str movieTitle)]] })) := by
  refine ⟨?_, ?_, ?_, ?_⟩ <;> intro t err ht hsend
  · unfold SendMovieRecommendation
    rw [sendTemplated_found env st userID _ _ _ _ _ t hquery hpref ht, hon]
    simp only [if_true, hsend]
  · unfold SendWatchlistReminder
    rw [sendTemplated_found env st userID _ _ _ _ _ t hquery hpref ht, hon]
    simp only [if_true, hsend]
  · unfold SendNewRelease
    rw [sendTemplated_found env st userID _ _ _ _ _ t hquery hpref ht, hon]
    simp only [if_true, hsend]
  · unfold SendRatingReminder
    rw [sendTemplated_found env st userID _ _ _ _ _ t hquery hpref ht, hon]
    simp only [if_true, hsend]

/-- C16, witness: user 8, whose e-mail is enabled, in the sample state with the seed templates,
when `SendWithTemplate` fails. -/
theorem canned_flows_send_fails_witness :
    (SendMovieRecommendation failingTemplateSendEnv seededState 8 "alice" "Dune").1 =
      some Error.sender ∧
    (SendMovieRecommendation failingTemplateSendEnv seededState 8 "alice"
      "Dune").2.notifications = seededState.notifications ∧
    (SendWatchlistReminder failingTemplateSendEnv seededState 8 "alice" 5).1 =
      some Error.sender ∧
    (SendWatchlistReminder failingTemplateSendEnv seededState 8 "alice" 5).2.notifications =
      seededState.notifications ∧
    (SendNewRelease failingTemplateSendEnv seededState 8 "alice" "Dune").1 =
      some Error.sender ∧
    (SendNewRelease failingTemplateSendEnv seededState 8 "alice" "Dune").2.notifications =
      seededState.notifications ∧
    (SendRatingReminder failingTemplateSendEnv seededState 8 "alice" "Dune").1 =
      some Error.sender ∧
    (SendRatingReminder failingTemplateSendEnv seededState 8 "alice" "Dune").2.notifications =
      seededState.notifications :=
  have h := canned_flows_send_fails failingTemplateSendEnv seededState 8 "alice" "Dune" 5
    (by decide) (by decide) (by decide)
  ⟨by rw [h.1 _ _ (by rfl) (by rfl)], by rw [h.1 _ _ (by rfl) (by rfl)],
   by rw [h.2.1 _ _ (by rfl) (by rfl)], by rw [h.2.1 _ _ (by rfl) (by rfl)],
   by rw [h.2.2.1 _ _ (by rfl) (by rfl)], by rw [h.2.2.1 _ _ (by rfl) (by rfl)],
   by rw [h.2.2.2 _ _ (by rfl) (by rfl)], by rw [h.2.2.2 _ _ (by rfl) (by rfl)]⟩


/-! ## The dispatch pass, position by position -/

/-- One iteration of the loop, in full: it logs the calls of `callsFor` and applies the update
of `statusWritten`, unless the update statement fails. -/
theorem processNotification_eq (env : Env) (k : Nat) (st : State) (n : Notification) :
    processNotification env k st n =
      { st with
        log := st.log ++ callsFor env st.preferences k n,
        notifications :=
          match statusWritten env st.preferences k n with
          | some s =>
            if env.updErr k then st.notifications
            else st.notifications.map (updateStatusRow (env.clock k) n.ID s)
          | none => st.notifications } := by
  unfold callsFor statusWritten channelEnabled senderFails senderCall
  unfold processNotification repoGetPreference sendByChannel emailSend pushSend repoUpdateStatus
  by_cases h1 : env.prefErr k = true <;> by_cases h2 : n.Channel = "email" <;>
    by_cases h3 : (effectivePreference st.preferences n.UserID).EmailEnabled = true <;>
    by_cases h4 : n.Channel = "push" <;>
    by_cases h5 : (effectivePreference st.preferences n.UserID).PushEnabled = true <;>
    by_cases h6 : env.emailErr k = true <;> by_cases h7 : env.pushErr k = true <;>
    by_cases h8 : env.updErr k = true <;>
    simp [h1, h2, h3, h4, h5, h6, h7, h8]

/-- The log of the loop: the calls of each position, in the order of the batch. -/
theorem sendLoop_log (env : Env) (batch : List Notification) (k : Nat) (st : State) :
    (sendLoop env k batch st).log =
      st.log ++ (List.enumFrom k batch).flatMap (fun p => callsFor env st.preferences p.1 p.2) := by
  induction batch generalizing k st with
  | nil => simp [sendLoop]
  | cons n rest ih =>
    simp only [sendLoop, List.enumFrom_cons, List.flatMap_cons]
    rw [ih, processNotification_preferences, processNotification_eq, List.append_assoc]

/-- The row of the notification at position `k` after the pass, under the primary key: the row
before the pass with the update of `statusWritten` applied, unless that update failed. -/
theorem SendPending_row_at (env : Env) (st : State) (batch : List Notification) (k : Nat)
    (n : Notification)
    (hkey : (st.notifications.map (fun r => r.id)).Nodup)
    (hfetch : (repoGetPending env st).1 = .ok batch)
    (hk : batch[k]? = some n) :
    (SendPending env st).2.notifications.filter (fun x => x.id = n.ID) =
      match statusWritten env st.preferences k n with
      | some s =>
        if env.updErr k then st.notifications.filter (fun x => x.id = n.ID)
        else (st.notifications.filter (fun x => x.id = n.ID)).map
          (updateStatusRow (env.clock k) n.ID s)
      | none => st.notifications.filter (fun x => x.id = n.ID) := by
  obtain ⟨hscan, hst1⟩ := repoGetPending_ok env st batch hfetch
  have hnd := batch_nodup st batch hkey hscan
  obtain ⟨hsplit, hlen, hpre, hpost⟩ := batch_split batch k n hk hnd
  have hfinal : (SendPending env st).2 =
      sendLoop env (k + 1) (batch.drop (k + 1))
        (processNotification env k (sendLoop env 0 (batch.take k) (repoGetPending env st).2) n)
      := by
    rw [SendPending_fetched env st batch hfetch]
    show sendLoop env 0 batch (repoGetPending env st).2 = _
    conv_lhs => rw [hsplit]
    rw [sendLoop_append, hlen, Nat.zero_add]
    rfl
  have hbpref : (sendLoop env 0 (batch.take k) (repoGetPending env st).2).preferences =
      st.preferences := by
    rw [sendLoop_preferences, hst1]
  have hbrows : (sendLoop env 0 (batch.take k) (repoGetPending env st).2).notifications.filter
      (fun x => x.id = n.ID) = st.notifications.filter (fun x => x.id = n.ID) := by
    rw [sendLoop_filter_other _ _ _ _ _ hpre, hst1]
  rw [hfinal, sendLoop_filter_other _ _ _ _ _ hpost, processNotification_eq, hbpref]
  cases statusWritten env st.preferences k n with
  | none => exact hbrows
  | some s =>
    by_cases hu : env.updErr k = true
    · simp only [hu, if_true]
      exact hbrows
    · simp only [hu, Bool.false_eq_true, if_false]
      rw [filter_id_map_updateStatusRow, hbrows]

/-- C17.  Take two runs of `SendPending` on the same state whose fetch succeeds, in
environments that agree on what happens to the notification at position `i` (its preference
lookup, its sender, its status update and the time of that update) and differ in any way on the
other positions.  Both runs return `nil`.  In each run the log is the fetch followed, position
by position in the order of the batch, by the calls of that position, so no failure stops the
loop.  And for position `i` the two runs make the same calls, ask for the same status and leave
the same row: none of this depends on a failure at another position. -/
theorem SendPending_positions_are_independent (env1 env2 : Env) (st : State)
    (batch : List Notification) (i : Nat) (n : Notification)
    (hkey : (st.notifications.map (fun r => r.id)).Nodup)
    (hfetch1 : (repoGetPending env1 st).1 = .ok batch)
    (hfetch2 : (repoGetPending env2 st).1 = .ok batch)
    (hi : batch[i]? = some n)
    (hpref : env1.prefErr i = env2.prefErr i)
    (hemail : env1.emailErr i = env2.emailErr i)
    (hpush : env1.pushErr i = env2.pushErr i)
    (hupd : env1.updErr i = env2.updErr i)
    (hclock : env1.clock i = env2.clock i) :
    (SendPending env1 st).1 = none ∧ (SendPending env2 st).1 = none ∧
    (SendPending env1 st).2.log =
      st.log ++ Call.GetPending ::
        (List.enumFrom 0 batch).flatMap (fun p => callsFor env1 st.preferences p.1 p.2) ∧
    (SendPending env2 st).2.log =
      st.log ++ Call.GetPending ::
        (List.enumFrom 0 batch).flatMap (fun p => callsFor env2 st.preferences p.1 p.2) ∧
    callsFor env1 st.preferences i n = callsFor env2 st.preferences i n ∧
    statusWritten env1 st.preferences i n = statusWritten env2 st.preferences i n ∧
    (SendPending env1 st).2.notifications.filter (fun x => x.id = n.ID) =
      (SendPending env2 st).2.notifications.filter (fun x => x.id = n.ID) := by
  have hlog : ∀ env : Env, (repoGetPending env st).1 = .ok batch →
      (SendPending env st).2.log =
        st.log ++ Call.GetPending ::
          (List.enumFrom 0 batch).flatMap (fun p => callsFor env st.preferences p.1 p.2) := by
    intro env hf
    obtain ⟨-, hst1⟩ := repoGetPending_ok env st batch hf
    rw [SendPending_fetched env st batch hf]
    show (sendLoop env 0 batch (repoGetPending env st).2).log = _
    rw [sendLoop_log, hst1]
    simp
  have hcalls : callsFor env1 st.preferences i n = callsFor env2 st.preferences i n := by
    unfold callsFor senderFails
    rw [hpref, hemail, hpush]
  have hstatus : statusWritten env1 st.preferences i n =
      statusWritten env2 st.preferences i n := by
    unfold statusWritten senderFails
    rw [hpref, hemail, hpush]
  refine ⟨by rw [SendPending_fetched env1 st batch hfetch1],
    by rw [SendPending_fetched env2 st batch hfetch2],
    hlog env1 hfetch1, hlog env2 hfetch2, hcalls, hstatus, ?_⟩
  rw [SendPending_row_at env1 st batch i n hkey hfetch1 hi,
    SendPending_row_at env2 st batch i n hkey hfetch2 hi, hstatus, hupd, hclock]

/-- C17, witness: the notification of user 8, at position 1 of the batch of the sample state,
in a run without failure and in a run in which everything fails for position 0. -/
theorem SendPending_positions_are_independent_witness :
    (SendPending sampleEnv sampleState).1 = none ∧
    (SendPending firstFailsEnv sampleState).1 = none ∧
    (SendPending sampleEnv sampleState).2.log =
      sampleState.log ++ Call.GetPending ::
        (List.enumFrom 0 [sampleNotification7, sampleNotification8]).flatMap
          (fun p => callsFor sampleEnv sampleState.preferences p.1 p.2) ∧
    (SendPending firstFailsEnv sampleState).2.log =
      sampleState.log ++ Call.GetPending ::
        (List.enumFrom 0 [sampleNotification7, sampleNotification8]).flatMap
          (fun p => callsFor firstFailsEnv sampleState.preferences p.1 p.2) ∧
    callsFor sampleEnv sampleState.preferences 1 sampleNotification8 =
      callsFor firstFailsEnv sampleState.preferences 1 sampleNotification8 ∧
    statusWritten sampleEnv sampleState.preferences 1 sampleNotification8 =
      statusWritten firstFailsEnv sampleState.preferences 1 sampleNotification8 ∧
    (SendPending sampleEnv sampleState).2.notifications.filter
        (fun x => x.id = sampleNotification8.ID) =
      (SendPending firstFailsEnv sampleState).2.notifications.filter
        (fun x => x.id = sampleNotification8.ID) :=
  SendPending_positions_are_independent sampleEnv firstFailsEnv sampleState
    [sampleNotification7, sampleNotification8] 1 sampleNotification8 (by decide) (by rfl)
    (by rfl) (by decide) (by decide) (by decide) (by decide) (by decide) (by decide)


/-! ## What the pass may change, what the fetch returns -/

/-- When the fetch fails the pass changes no row. -/
theorem SendPending_fetch_failed (env : Env) (st : State) (e : Error)
    (h : (repoGetPending env st).1 = .error e) :
    (SendPending env st).2.notifications = st.notifications := by
  unfold SendPending
  generalize hres : repoGetPending env st = res at h
  obtain ⟨r, st1⟩ := res
  simp only at h
  subst h
  have : st1.notifications = st.notifications := by
    have h2 := congrArg (fun p => p.2.notifications) hres
    simp only at h2
    rw [← h2]
    unfold repoGetPending
    split <;> rfl
  exact this

/-- Under the primary key, a row whose id is the id of a fetched notification is pending. -/
theorem pending_of_mem_batch (st : State) (batch : List Notification) (r : NotificationRow)
    (hkey : (st.notifications.map (fun r => r.id)).Nodup)
    (hscan : scanAll (selectPending st.notifications) = .ok batch)
    (hr : r ∈ st.notifications) (hid : r.id ∈ batch.map (fun m => m.ID)) :
    r.status = "pending" := by
  rw [scanAll_ids _ _ hscan] at hid
  obtain ⟨r0, hr0, hid0⟩ := List.mem_map.mp hid
  obtain ⟨hmem, hstatus⟩ := selectPending_mem _ _ hr0
  have : r0 = r := List.inj_on_of_nodup_map hkey hmem hr hid0
  rw [← this]
  exact hstatus

/-- C18.  Under the primary key, the pass of `SendPending` maps the table row by row, and each
row is either left exactly as it was, or it was pending, it is the row of a notification that
`GetPending` returned, and it is now the same row with status `sent` and `sent_at` stamped, or
the same row with status `failed`.  In particular a row whose status is `sent` or `failed`
when the pass starts is left exactly as it was, status and `sent_at` included. -/
theorem SendPending_only_moves_pending (env : Env) (st : State)
    (hkey : (st.notifications.map (fun r => r.id)).Nodup) :
    List.Forall₂
      (fun r r' => r' = r ∨
        (r.status = "pending" ∧
         (∃ batch, (repoGetPending env st).1 = .ok batch ∧ r.id ∈ batch.map (fun m => m.ID)) ∧
         ((∃ j, r' = { r with status := "sent", sent_at := some (env.clock j) }) ∨
          r' = { r with status := "failed" })))
      st.notifications (SendPending env st).2.notifications ∧
    List.Forall₂
      (fun r r' => (r.status = "sent" ∨ r.status = "failed") →
        r' = r ∧ r'.status = r.status ∧ r'.sent_at = r.sent_at)
      st.notifications (SendPending env st).2.notifications := by
  have main : List.Forall₂
      (fun r r' => r' = r ∨
        (r.status = "pending" ∧
         (∃ batch, (repoGetPending env st).1 = .ok batch ∧ r.id ∈ batch.map (fun m => m.ID)) ∧
         ((∃ j, r' = { r with status := "sent", sent_at := some (env.clock j) }) ∨
          r' = { r with status := "failed" })))
      st.notifications (SendPending env st).2.notifications := by
    cases hres : (repoGetPending env st).1 with
    | error e =>
      rw [SendPending_fetch_failed env st e hres, List.forall₂_same]
      intro r _
      exact Or.inl rfl
    | ok batch =>
      obtain ⟨hscan, hst1⟩ := repoGetPending_ok env st batch hres
      obtain ⟨g, hg, hp⟩ := sendLoop_rows env batch 0 (repoGetPending env st).2
        (batch_nodup st batch hkey hscan)
      rw [SendPending_fetched env st batch hres]
      show List.Forall₂ _ st.notifications
        (sendLoop env 0 batch (repoGetPending env st).2).notifications
      rw [hg, hst1, List.forall₂_map_right_iff, List.forall₂_same]
      intro r hr
      rcases hp r with h | ⟨hm, j, s, hs, h⟩
      · exact Or.inl h
      · right
        refine ⟨pending_of_mem_batch st batch r hkey hscan hr hm, ⟨batch, rfl, hm⟩, ?_⟩
        rw [h]
        rcases hs with hs | hs
        · left
          exact ⟨j, by simp [updateStatusRow, hs]⟩
        · right
          simp [updateStatusRow, hs]
  refine ⟨main, main.imp ?_⟩
  intro r r' h hdone
  rcases h with h | ⟨hp, -, -⟩
  · rw [h]
    exact ⟨rfl, rfl, rfl⟩
  · rw [hp] at hdone
    exact absurd hdone (by decide)

/-- C18, witness: a table with a pending row, a sent row and a failed row. -/
theorem SendPending_only_moves_pending_witness :
    List.Forall₂
      (fun r r' => r' = r ∨
        (r.status = "pending" ∧
         (∃ batch, (repoGetPending sampleEnv mixedState).1 = .ok batch ∧
            r.id ∈ batch.map (fun m => m.ID)) ∧
         ((∃ j, r' = { r with status := "sent", sent_at := some (sampleEnv.clock j) }) ∨
          r' = { r with status := "failed" })))
      mixedState.notifications (SendPending sampleEnv mixedState).2.notifications ∧
    List.Forall₂
      (fun r r' => (r.status = "sent" ∨ r.status = "failed") →
        r' = r ∧ r'.status = r.status ∧ r'.sent_at = r.sent_at)
      mixedState.notifications (SendPending sampleEnv mixedState).2.notifications :=
  SendPending_only_moves_pending sampleEnv mixedState (by decide)

theorem scanAll_forall₂ (rows : List NotificationRow) (ns : List Notification)
    (h : scanAll rows = .ok ns) :
    List.Forall₂ (fun r n => scanNotification r = .ok n) rows ns := by
  induction rows generalizing ns with
  | nil =>
    simp only [scanAll] at h
    injection h with h
    subst h
    exact List.Forall₂.nil
  | cons r rs ih =>
    simp only [scanAll] at h
    split at h
    · exact absurd h (by simp)
    · rename_i n hn
      split at h
      · exact absurd h (by simp)
      · rename_i ns1 hns
        injection h with h
        subst h
        exact List.Forall₂.cons hn (ih ns1 hns)

theorem scanNotification_created (r : NotificationRow) (n : Notification)
    (h : scanNotification r = .ok n) : n.CreatedAt = r.created_at := by
  unfold scanNotification at h
  split at h
  · injection h with h
    subst h
    rfl
  · exact absurd h (by simp)

theorem scanAll_created (rows : List NotificationRow) (ns : List Notification)
    (h : scanAll rows = .ok ns) :
    ns.map (fun m => m.CreatedAt) = rows.map (fun r => r.created_at) := by
  have h2 := scanAll_forall₂ rows ns h
  clear h
  induction h2 with
  | nil => rfl
  | cons hhead _ ih => simp [scanNotification_created _ _ hhead, ih]

/-- The rows that the query of `GetPending` selects are in ascending order of `created_at`. -/
theorem selectPending_sorted (rows : List NotificationRow) :
    (selectPending rows).Pairwise (fun a b => a.created_at ≤ b.created_at) := by
  unfold selectPending
  haveI : IsTotal NotificationRow (fun a b => a.created_at ≤ b.created_at) :=
    ⟨fun a b => Nat.le_total _ _⟩
  haveI : IsTrans NotificationRow (fun a b => a.created_at ≤ b.created_at) :=
    ⟨fun _ _ _ h1 h2 => Nat.le_trans h1 h2⟩
  exact (List.sorted_insertionSort (fun a b : NotificationRow => a.created_at ≤ b.created_at)
    _).sublist (List.take_sublist _ _)

/-- C19.  For every notification table, the rows that the query of `GetPending` selects are
pending rows of the table, 100 of them or all the pending rows if there are fewer, in ascending
order of `created_at`, and the pending rows of the table are the selected rows together with
rows `rest` none of which is older than a selected one: when more than 100 rows are pending the
selected ones are the 100 oldest.  A batch that `GetPending` returns is the scan of the selected
rows, in order, so it is made of pending notifications, at most 100, in ascending order of
`CreatedAt`. -/
theorem GetPending_returns_oldest_pending (env : Env) (st : State) :
    (∀ r ∈ selectPending st.notifications, r ∈ st.notifications ∧ r.status = "pending") ∧
    (selectPending st.notifications).length =
      min 100 (st.notifications.filter (fun r => r.status = "pending")).length ∧
    (selectPending st.notifications).Pairwise (fun a b => a.created_at ≤ b.created_at) ∧
    (∃ rest : List NotificationRow,
      (selectPending st.notifications ++ rest).Perm
        (st.notifications.filter (fun r => r.status = "pending")) ∧
      ∀ x ∈ selectPending st.notifications, ∀ y ∈ rest, x.created_at ≤ y.created_at) ∧
    (∀ batch, (repoGetPending env st).1 = .ok batch →
      List.Forall₂ (fun r n => scanNotification r = .ok n)
        (selectPending st.notifications) batch ∧
      (∀ n ∈ batch, n.Status = "pending") ∧
      batch.length ≤ 100 ∧
      batch.Pairwise (fun a b => a.CreatedAt ≤ b.CreatedAt)) := by
  have hsel : (selectPending st.notifications).length =
      min 100 (st.notifications.filter (fun r => r.status = "pending")).length := by
    unfold selectPending
    rw [List.length_take, List.length_insertionSort]
  refine ⟨fun r hr => selectPending_mem _ _ hr, hsel, selectPending_sorted _, ?_, ?_⟩
  · haveI : IsTotal NotificationRow (fun a b => a.created_at ≤ b.created_at) :=
      ⟨fun a b => Nat.le_total _ _⟩
    haveI : IsTrans NotificationRow (fun a b => a.created_at ≤ b.created_at) :=
      ⟨fun _ _ _ h1 h2 => Nat.le_trans h1 h2⟩
    have hsorted := List.sorted_insertionSort
      (fun a b : NotificationRow => a.created_at ≤ b.created_at)
      (st.notifications.filter (fun r => r.status = "pending"))
    refine ⟨(((st.notifications.filter (fun r => r.status = "pending")).insertionSort
        (fun a b => a.created_at ≤ b.created_at)).drop 100), ?_, ?_⟩
    · unfold selectPending
      rw [List.take_append_drop]
      exact List.perm_insertionSort _ _
    · have hsplit := List.take_append_drop 100
        ((st.notifications.filter (fun r => r.status = "pending")).insertionSort
          (fun a b => a.created_at ≤ b.created_at))
      rw [← hsplit] at hsorted
      have hp := List.pairwise_append.mp hsorted
      intro x hx y hy
      exact hp.2.2 x hx y hy
  · intro batch hfetch
    obtain ⟨hscan, -⟩ := repoGetPending_ok env st batch hfetch
    have hf := scanAll_forall₂ _ _ hscan
    have hlen : batch.length = (selectPending st.notifications).length := hf.length_eq.symm
    refine ⟨hf, ?_, ?_, ?_⟩
    · intro n hn
      obtain ⟨r, hr, hs⟩ := scanAll_mem _ _ hscan n hn
      rw [(scanNotification_ok r n hs).2.2.1]
      exact (selectPending_mem _ _ hr).2
    · rw [hlen, hsel]
      exact Nat.min_le_left _ _
    · have h1 := selectPending_sorted st.notifications
      have h2 : ((selectPending st.notifications).map (fun r => r.created_at)).Pairwise
          (fun a b => a ≤ b) := List.pairwise_map.mpr h1
      rw [← scanAll_created _ _ hscan] at h2
      exact List.pairwise_map.mp h2

/-- C19, witness: the batch of the sample state, which is the scan of its two pending rows. -/
theorem GetPending_returns_oldest_pending_witness :
    (repoGetPending sampleEnv sampleState).1 =
      .ok [sampleNotification7, sampleNotification8] ∧
    selectPending sampleState.notifications = [sampleRow7, sampleRow8] ∧
    List.Forall₂ (fun r n => scanNotification r = .ok n)
      (selectPending sampleState.notifications) [sampleNotification7, sampleNotification8] ∧
    (∀ n ∈ [sampleNotification7, sampleNotification8], n.Status = "pending") ∧
    [sampleNotification7, sampleNotification8].length ≤ 100 ∧
    [sampleNotification7, sampleNotification8].Pairwise
      (fun a b => a.CreatedAt ≤ b.CreatedAt) :=
  ⟨by rfl, by decide,
   (GetPending_returns_oldest_pending sampleEnv sampleState).2.2.2.2
     [sampleNotification7, sampleNotification8] (by rfl)⟩

/-- C20 (the code departs from the claim).  `Create` inserts a pending row whose `sent_at` and
`read_at` are NULL.  The scan of the notification queries stores these columns into fields of
type `time.Time`, which cannot hold NULL, so it fails: right after the `Create`, `GetPending`
and `GetByUserID` return the scan error instead of the notification, `SendPending` returns that
error without calling a sender or changing the row, and `GetUserNotifications` returns it too. -/
theorem created_notification_cannot_be_read :
    (Create sampleEnv freshState 7 "new_release" "Out now" "Dune" "email").1 =
      .ok { ID := 1, UserID := 7, Typ := "new_release", Title := "Out now", Content := "Dune",
            Status := "pending", Channel := "email", CreatedAt := 1000, SentAt := 0,
            ReadAt := 0 } ∧
    (Create sampleEnv freshState 7 "new_release" "Out now" "Dune" "email").2.notifications =
      [createdRow] ∧
    scanNotification createdRow = .error Error.scan ∧
    (repoGetPending sampleEnv
      (Create sampleEnv freshState 7 "new_release" "Out now" "Dune" "email").2).1 =
      .error Error.scan ∧
    (repoGetByUserID sampleEnv
      (Create sampleEnv freshState 7 "new_release" "Out now" "Dune" "email").2 7).1 =
      .error Error.scan ∧
    (SendPending sampleEnv
      (Create sampleEnv freshState 7 "new_release" "Out now" "Dune" "email").2).1 =
      some Error.scan ∧
    (SendPending sampleEnv
      (Create sampleEnv freshState 7 "new_release" "Out now" "Dune" "email").2).2.notifications =
      [createdRow] ∧
    (SendPending sampleEnv
      (Create sampleEnv freshState 7 "new_release" "Out now" "Dune" "email").2).2.log.countP
      Call.isSend = 0 ∧
    (GetUserNotifications sampleEnv
      (Create sampleEnv freshState 7 "new_release" "Out now" "Dune" "email").2 7).1 =
      .error Error.scan := by
  refine ⟨by rfl, by decide, by rfl, by rfl, by rfl, by decide, by decide, by decide, by rfl⟩


/-! ## The e-mail service: rendering -/

theorem htmlEscapeChar_plain (c : Char) (h : needsEscape c = false) : htmlEscapeChar c = [c] := by
  unfold needsEscape at h
  simp only [Bool.or_eq_false_iff, decide_eq_false_iff_not] at h
  obtain ⟨⟨⟨⟨⟨⟨h0, h1⟩, h2⟩, h3⟩, h4⟩, h5⟩, h6⟩ := h
  simp [htmlEscapeChar, h0, h1, h2, h3, h4, h5, h6]

/-- A text without any of the characters that the escaper rewrites is left as it is. -/
theorem htmlEscape_plain (s : String) (h : ∀ c ∈ s.data, needsEscape c = false) :
    htmlEscape s = s := by
  unfold htmlEscape
  have : s.data.flatMap htmlEscapeChar = s.data := by
    generalize s.data = l at h
    induction l with
    | nil => rfl
    | cons c cs ih =>
      rw [List.flatMap_cons, htmlEscapeChar_plain c (h c (List.mem_cons_self _ _)),
        ih (fun d hd => h d (List.mem_cons_of_mem _ hd))]
      rfl
  rw [this]

/-- The rendering of the seed template `movie_recommendation`. -/
theorem render_recommendation (other : String → TemplateData → Except Error String)
    (username movieTitle : String) :
    renderTemplate other recommendationContent
      [("Username", .str username), ("MovieTitle", .str movieTitle)] =
      .ok ("Hi " ++ htmlEscape username ++ ", we have a new movie recommendation for you: " ++
        htmlEscape movieTitle) := by
  have hlex : lexTemplate recommendationContent.data .text [] [] =
      .ok [.text "Hi ".data, .action ".Username".data,
           .text ", we have a new movie recommendation for you: ".data,
           .action ".MovieTitle".data] := by rfl
  have hf1 : fieldOfAction ".Username".data = some "Username" := by rfl
  have hf2 : fieldOfAction ".MovieTitle".data = some "MovieTitle" := by rfl
  have hl1 : lookupField [("Username", FieldValue.str username),
      ("MovieTitle", FieldValue.str movieTitle)] "Username" = some (.str username) := by rfl
  have hl2 : lookupField [("Username", FieldValue.str username),
      ("MovieTitle", FieldValue.str movieTitle)] "MovieTitle" = some (.str movieTitle) := by rfl
  have hfrag : inFragment [.text "Hi ".data, .action ".Username".data,
      .text ", we have a new movie recommendation for you: ".data,
      .action ".MovieTitle".data] = true := by rfl
  unfold renderTemplate
  rw [hlex]
  simp only [hfrag, if_true, execSegments, hf1, hf2, Option.bind, hl1, hl2, printValue]
  congr 1
  apply String.ext
  simp [String.data_append]


/-- The service method `Create` calls no sender. -/
theorem Create_log_sends (env : Env) (st : State) (userID : Int)
    (notificationType title content channel : String) :
    (Create env st userID notificationType title content channel).2.log.countP Call.isSend =
      st.log.countP Call.isSend := by
  simp only [Create, repoCreate]
  split
  · rename_i err st1 heq
    split at heq
    · injection heq with h1 h2
      subst h2
      simp [List.countP_append, List.countP_cons, Call.isSend]
    · exact absurd heq (by simp)
  · rename_i created st1 heq
    split at heq
    · exact absurd heq (by simp)
    · injection heq with h1 h2
      subst h2
      simp [redisDel, List.countP_append, List.countP_cons, Call.isSend]

set_option maxRecDepth 100000

/-- C21, as stated, fails for a title with an ampersand: for user 3, `alice` and the title
`Fast & Furious`, with the seed template and e-mail enabled, the one call of `Send` carries a
body in which the title reads `Fast &amp; Furious`; the title as given does not occur in it.
The content is executed by `html/template`, which escapes the values it prints. -/
theorem recommendation_body_is_escaped :
    (SendMovieRecommendation productionEnv freshState 3 "alice" "Fast & Furious").1 = none ∧
    (SendMovieRecommendation productionEnv freshState 3 "alice"
      "Fast & Furious").2.log.filter Call.isSend =
      [Call.EmailSendWithTemplate "user3@example.com"
        { ID := 1, Name := "movie_recommendation", Typ := "email",
          Subject := "New Movie Recommendation", Content := recommendationContent,
          CreatedAt := 0, UpdatedAt := 0 }
        [("Username", .str "alice"), ("MovieTitle", .str "Fast & Furious")]] ∧
    (SendWithTemplate sampleOther SendGridSend "user3@example.com"
        { ID := 1, Name := "movie_recommendation", Typ := "email",
          Subject := "New Movie Recommendation", Content := recommendationContent,
          CreatedAt := 0, UpdatedAt := 0 }
        [("Username", .str "alice"), ("MovieTitle", .str "Fast & Furious")]).1 =
      [Call.EmailSend "user3@example.com" "New Movie Recommendation"
        "Hi alice, we have a new movie recommendation for you: Fast &amp; Furious"] ∧
    ¬ ("Fast & Furious".data <:+:
      "Hi alice, we have a new movie recommendation for you: Fast &amp; Furious".data) := by
  refine ⟨by decide, by decide, by decide, by decide⟩

/-- C21, amended.  For every user id, username and movie title, when the template
`movie_recommendation` of type `email` is found with the seeded subject and content, e-mail is
enabled and the e-mail service is the one of the repository: `SendMovieRecommendation` returns
`nil` and calls the e-mail service once, with `SendWithTemplate` for `user<id>@example.com`; that
call makes exactly one call of `Send`, to the same address, with subject "New Movie
Recommendation" and the body "Hi U, we have a new movie recommendation for you: T" in which `U`
and `T` are the username and the title after HTML escaping.  So the body contains the escaped
username and title, and it contains them as given when they hold none of the characters that
the escaper rewrites. -/
theorem SendMovieRecommendation_sends_rendered (env : Env) (st : State) (userID : Int)
    (username movieTitle : String) (t : Template)
    (other : String → TemplateData → Except Error String)
    (hquery : env.templateErr = false) (hpref : env.prefErr 0 = false)
    (hfound : st.templates.find? (fun t => t.Name = "movie_recommendation" ∧ t.Typ = "email") =
      some t)
    (hsubject : t.Subject = "New Movie Recommendation")
    (hcontent : t.Content = recommendationContent)
    (hon : (effectivePreference st.preferences userID).EmailEnabled = true)
    (hwired : env.sendWithTemplate = fun recipient template data =>
      (SendWithTemplate other SendGridSend recipient template data).2) :
    (SendMovieRecommendation env st userID username movieTitle).1 = none ∧
    (SendMovieRecommendation env st userID username movieTitle).2.log.countP Call.isSend =
      st.log.countP Call.isSend + 1 ∧
    Call.EmailSendWithTemplate (userEmail userID) t
      [("Username", .str username), ("MovieTitle", .str movieTitle)] ∈
      (SendMovieRecommendation env st userID username movieTitle).2.log ∧
    userEmail userID = "user" ++ Itoa userID ++ "@example.com" ∧
    SendWithTemplate other SendGridSend (userEmail userID) t
      [("Username", .str username), ("MovieTitle", .str movieTitle)] =
      ([Call.EmailSend (userEmail userID) "New Movie Recommendation"
          ("Hi " ++ htmlEscape username ++ ", we have a new movie recommendation for you: " ++
            htmlEscape movieTitle)], none) ∧
    (htmlEscape username).data <:+:
      ("Hi " ++ htmlEscape username ++ ", we have a new movie recommendation for you: " ++
        htmlEscape movieTitle).data ∧
    (htmlEscape movieTitle).data <:+:
      ("Hi " ++ htmlEscape username ++ ", we have a new movie recommendation for you: " ++
        htmlEscape movieTitle).data ∧
    ((∀ c ∈ username.data, needsEscape c = false) → htmlEscape username = username) ∧
    ((∀ c ∈ movieTitle.data, needsEscape c = false) → htmlEscape movieTitle = movieTitle) := by
  have hsend : SendWithTemplate other SendGridSend (userEmail userID) t
      [("Username", .str username), ("MovieTitle", .str movieTitle)] =
      ([Call.EmailSend (userEmail userID) "New Movie Recommendation"
          ("Hi " ++ htmlEscape username ++ ", we have a new movie recommendation for you: " ++
            htmlEscape movieTitle)], none) := by
    unfold SendWithTemplate
    rw [hcontent, render_recommendation, hsubject]
    rfl
  have hnone : env.sendWithTemplate (userEmail userID) t
      [("Username", .str username), ("MovieTitle", .str movieTitle)] = none := by
    rw [hwired]
    simp only [hsend]
  have hflow : SendMovieRecommendation env st userID username movieTitle =
      (none,
       (Create env
         { st with log := st.log ++ [Call.GetTemplate "movie_recommendation" "email",
             Call.GetPreference userID,
             Call.EmailSendWithTemplate (userEmail userID) t
               [("Username", .str username), ("MovieTitle", .str movieTitle)]] }
         userID "movie_recommendation" "New Movie Recommendation"
         ("We have a new movie recommendation for you: " ++ movieTitle) "email").2) := by
    unfold SendMovieRecommendation
    rw [sendTemplated_found env st userID _ _ _ _ _ t hquery hpref hfound, hon]
    simp only [if_true, hnone]
  refine ⟨by rw [hflow], ?_, ?_, rfl, hsend, ?_, ?_, htmlEscape_plain _, htmlEscape_plain _⟩
  · rw [hflow]
    simp only
    rw [Create_log_sends]
    simp [List.countP_append, List.countP_cons, Call.isSend]
  · rw [hflow]
    simp only [Create, repoCreate]
    split
    · rename_i err st1 heq
      split at heq
      · injection heq with h1 h2
        subst h2
        simp
      · exact absurd heq (by simp)
    · rename_i created st1 heq
      split at heq
      · exact absurd heq (by simp)
      · injection heq with h1 h2
        subst h2
        simp [redisDel]
  · simp only [String.data_append]
    exact ⟨"Hi ".data, ", we have a new movie recommendation for you: ".data ++
      (htmlEscape movieTitle).data, by simp⟩
  · simp only [String.data_append]
    exact ⟨"Hi ".data ++ (htmlEscape username).data ++
      ", we have a new movie recommendation for you: ".data, [], by simp⟩

/-- C21, witness: user 3, `alice` and `Dune` on a fresh service. -/
theorem SendMovieRecommendation_sends_rendered_witness :
    (SendMovieRecommendation productionEnv freshState 3 "alice" "Dune").1 = none ∧
    (SendMovieRecommendation productionEnv freshState 3 "alice" "Dune").2.log.countP
      Call.isSend = freshState.log.countP Call.isSend + 1 ∧
    SendWithTemplate sampleOther SendGridSend (userEmail 3)
      { ID := 1, Name := "movie_recommendation", Typ := "email",
        Subject := "New Movie Recommendation", Content := recommendationContent,
        CreatedAt := 0, UpdatedAt := 0 }
      [("Username", .str "alice"), ("MovieTitle", .str "Dune")] =
      ([Call.EmailSend (userEmail 3) "New Movie Recommendation"
          ("Hi " ++ htmlEscape "alice" ++ ", we have a new movie recommendation for you: " ++
            htmlEscape "Dune")], none) ∧
    htmlEscape "alice" = "alice" ∧ htmlEscape "Dune" = "Dune" ∧
    userEmail 3 = "user3@example.com" :=
  have h := SendMovieRecommendation_sends_rendered productionEnv freshState 3 "alice" "Dune"
    { ID := 1, Name := "movie_recommendation", Typ := "email",
      Subject := "New Movie Recommendation", Content := recommendationContent,
      CreatedAt := 0, UpdatedAt := 0 }
    sampleOther (by decide) (by decide) (by rfl) (by rfl) (by rfl) (by decide) (by rfl)
  ⟨h.1, h.2.1, h.2.2.2.2.1, h.2.2.2.2.2.2.2.1 (by decide), h.2.2.2.2.2.2.2.2 (by decide),
   by decide⟩


/-- The execution of a template of the fragment fails as soon as one of its actions names a
field that the data does not have. -/
theorem execSegments_missing (data : TemplateData) (segs : List Segment) (body : List Char)
    (name : String) (hmem : Segment.action body ∈ segs) (hname : fieldOfAction body = some name)
    (hmissing : lookupField data name = none) :
    execSegments data segs = .error Error.render := by
  induction segs with
  | nil => exact absurd hmem (List.not_mem_nil _)
  | cons seg rest ih =>
    cases seg with
    | text chars =>
      have hrest : Segment.action body ∈ rest := by
        rcases List.mem_cons.mp hmem with h | h
        · exact absurd h (by simp)
        · exact h
      simp only [execSegments, ih hrest]
    | action b =>
      rcases List.mem_cons.mp hmem with h | h
      · injection h with hb
        subst hb
        simp only [execSegments, hname, Option.bind, hmissing]
      · simp only [execSegments, ih h]
        split <;> rfl

/-- C22, as stated, fails for a template with a conditional.  The content of
`conditionalTemplate` references the placeholder `Nickname` between `if .Count` and `end`, and
the data, `Username` and `Count`, do not provide it.  When `Count` is 0 the branch is not
executed: `SendWithTemplate` returns no error and calls `Send` with the body "Hi alice.",
whatever the library does elsewhere.  When `Count` is 2 the branch is executed and the missing
field is the rendering error. -/
theorem conditional_placeholder_is_skipped :
    (∀ other : String → TemplateData → Except Error String,
      SendWithTemplate other SendGridSend "user3@example.com" conditionalTemplate
          [("Username", .str "alice"), ("Count", .int 0)] =
        ([Call.EmailSend "user3@example.com" "Your watchlist" "Hi alice."], none)) ∧
    lexTemplate conditionalTemplate.Content.data .text [] [] =
      .ok [.text "Hi ".data, .action ".Username".data, .action "if .Count".data,
           .text ", ".data, .action ".Nickname".data, .text " has ".data,
           .action ".Count".data, .text " movies waiting".data, .action "end".data,
           .text ".".data] ∧
    fieldOfAction ".Nickname".data = some "Nickname" ∧
    List.lookup "Nickname" [("Username", FieldValue.str "alice"), ("Count", FieldValue.int 0)] =
      none ∧
    (∀ other : String → TemplateData → Except Error String,
      SendWithTemplate other SendGridSend "user3@example.com" conditionalTemplate
          [("Username", .str "alice"), ("Count", .int 2)] = ([], some Error.render)) := by
  refine ⟨fun other => by rfl, by rfl, by rfl, by rfl, fun other => by rfl⟩

/-- C22, amended.  For every template whose actions are all named placeholders, whatever its
literal text is, and every data struct: if the content references a named placeholder, that is,
one of its actions names a field, and the data do not provide a field of that name, then
`SendWithTemplate` returns the rendering error and makes no call of `Send`, so no text at all
is sent in place of the missing value; this holds whatever `Send` would do and whatever the
library does on other templates. -/
theorem SendWithTemplate_missing_placeholder
    (other : String → TemplateData → Except Error String)
    (send : String → String → String → Option Error)
    (recipient : String) (template : Template) (data : TemplateData)
    (segs : List Segment) (body : List Char) (name : String)
    (hlex : lexTemplate template.Content.data .text [] [] = .ok segs)
    (hflat : isFlat segs = true)
    (hreferenced : Segment.action body ∈ segs)
    (hname : fieldOfAction body = some name)
    (hmissing : data.lookup name = none) :
    SendWithTemplate other send recipient template data = ([], some Error.render) ∧
    (SendWithTemplate other send recipient template data).1.countP Call.isSend = 0 := by
  have hlook : lookupField data name = none := by
    unfold lookupField
    split
    · exact hmissing
    · rfl
  have hnot : providesAll data segs = false := by
    cases hall : providesAll data segs with
    | false => rfl
    | true =>
      have h := List.all_eq_true.mp hall _ hreferenced
      simp [hname, hlook] at h
  have h : SendWithTemplate other send recipient template data = ([], some Error.render) := by
    by_cases hfragment : inFragment segs = true
    · simp only [SendWithTemplate, renderTemplate, hlex, hfragment, if_true,
        execSegments_missing data segs body name hreferenced hname hlook]
    · simp only [SendWithTemplate, renderTemplate, hlex, hfragment, hflat, hnot, if_true,
        if_false, Bool.false_eq_true]
  rw [h]
  exact ⟨rfl, rfl⟩

/-- C22, witness: the greeting template, which references `Username`, on data that provide only
`MovieTitle`. -/
theorem SendWithTemplate_missing_placeholder_witness :
    SendWithTemplate sampleOther SendGridSend "user3@example.com" greetingTemplate
        [("MovieTitle", .str "Dune")] = ([], some Error.render) ∧
    (SendWithTemplate sampleOther SendGridSend "user3@example.com" greetingTemplate
        [("MovieTitle", .str "Dune")]).1.countP Call.isSend = 0 :=
  SendWithTemplate_missing_placeholder sampleOther SendGridSend "user3@example.com"
    greetingTemplate [("MovieTitle", .str "Dune")]
    [.text "Hi ".data, .action ".Username".data, .text ", welcome back.".data]
    ".Username".data "Username" (by rfl) (by rfl) (by simp) (by rfl) (by rfl)

/-- C23, as stated, fails.  For the greeting template, whose subject is "Welcome" followed by
the placeholder `Username`, and data that supply `Username` as `alice`, the one call of `Send`
carries the body with the placeholder substituted, "Hi alice, welcome back.", but the subject as
stored, placeholder included; the subject with the placeholder substituted would be "Welcome
alice". -/
theorem greeting_subject_is_not_rendered :
    SendWithTemplate sampleOther SendGridSend "user3@example.com" greetingTemplate
        [("Username", .str "alice")] =
      ([Call.EmailSend "user3@example.com" "Welcome \x7b\x7b.Username\x7d\x7d"
          "Hi alice, welcome back."], none) ∧
    renderTemplate sampleOther greetingTemplate.Subject [("Username", .str "alice")] =
      .ok "Welcome alice" ∧
    "Welcome \x7b\x7b.Username\x7d\x7d" ≠ "Welcome alice" := by
  refine ⟨by rfl, by rfl, by decide⟩

/-- C23, amended.  `SendWithTemplate` renders the content of the template only.  For every
template and data whose content renders to a body, `SendWithTemplate` makes exactly one call of
`Send`, with that body and with the subject of the template exactly as it is stored, and returns
what `Send` returns.  So when the subject holds a placeholder that the data supply, that is, when
rendering the subject would give another text, no call of `Send` carries the rendered subject.
Whatever the data are, every call of `Send` carries the stored subject. -/
theorem SendWithTemplate_renders_content_only
    (other : String → TemplateData → Except Error String)
    (send : String → String → String → Option Error)
    (recipient : String) (template : Template) (data : TemplateData) (body : String)
    (hrender : renderTemplate other template.Content data = .ok body) :
    SendWithTemplate other send recipient template data =
      ([Call.EmailSend recipient template.Subject body],
       send recipient template.Subject body) ∧
    (∀ subject, renderTemplate other template.Subject data = .ok subject →
      subject ≠ template.Subject →
      ∀ content, Call.EmailSend recipient subject content ∉
        (SendWithTemplate other send recipient template data).1) ∧
    (∀ (data2 : TemplateData) (call : Call),
      call ∈ (SendWithTemplate other send recipient template data2).1 →
        ∃ content, call = Call.EmailSend recipient template.Subject content) := by
  have h : SendWithTemplate other send recipient template data =
      ([Call.EmailSend recipient template.Subject body],
       send recipient template.Subject body) := by
    simp only [SendWithTemplate, hrender]
  refine ⟨h, ?_, ?_⟩
  · intro subject _ hne content hmem
    rw [h] at hmem
    simp only [List.mem_singleton] at hmem
    injection hmem with _ hsubject _
    exact hne hsubject
  · intro data2 call hcall
    unfold SendWithTemplate at hcall
    split at hcall
    · exact absurd hcall (List.not_mem_nil _)
    · rename_i content _
      exact ⟨content, by simpa using hcall⟩

/-- C23, witness: the greeting template on data that supply `Username` as `alice`. -/
theorem SendWithTemplate_renders_content_only_witness :
    SendWithTemplate sampleOther SendGridSend "user3@example.com" greetingTemplate
        [("Username", .str "alice")] =
      ([Call.EmailSend "user3@example.com" greetingTemplate.Subject "Hi alice, welcome back."],
       SendGridSend "user3@example.com" greetingTemplate.Subject "Hi alice, welcome back.") ∧
    (∀ content, Call.EmailSend "user3@example.com" "Welcome alice" content ∉
      (SendWithTemplate sampleOther SendGridSend "user3@example.com" greetingTemplate
        [("Username", .str "alice")]).1) :=
  have h := SendWithTemplate_renders_content_only sampleOther SendGridSend "user3@example.com"
    greetingTemplate [("Username", .str "alice")] "Hi alice, welcome back." (by rfl)
  ⟨h.1, h.2.1 "Welcome alice" (by rfl) (by decide)⟩

/-! ## Preferences: updates -/

theorem effectivePreference_user (rows : List Preference) (userID : Int) :
    (effectivePreference rows userID).UserID = userID := by
  unfold effectivePreference
  split
  · rename_i p h
    simpa using List.find?_some h
  · rfl

theorem updatePreferenceRow_user (now : Nat) (p r : Preference) :
    (updatePreferenceRow now p r).UserID = r.UserID := by
  unfold updatePreferenceRow
  split <;> rfl

theorem find_map_updatePreferenceRow (now : Nat) (p : Preference) (userID : Int)
    (rows : List Preference) :
    (rows.map (updatePreferenceRow now p)).find? (fun r => r.UserID = userID) =
      (rows.find? (fun r => r.UserID = userID)).map (updatePreferenceRow now p) := by
  induction rows with
  | nil => rfl
  | cons r rest ih =>
    by_cases h : r.UserID = userID
    · simp [List.find?_cons, updatePreferenceRow_user, h]
    · simp [List.find?_cons, updatePreferenceRow_user, h, ih]

theorem filter_map_updatePreferenceRow (now : Nat) (p : Preference)
    (rows : List Preference) :
    (rows.map (updatePreferenceRow now p)).filter (fun r => r.UserID ≠ p.UserID) =
      rows.filter (fun r => r.UserID ≠ p.UserID) := by
  induction rows with
  | nil => rfl
  | cons r rest ih =>
    rw [List.map_cons, List.filter_cons, List.filter_cons, ih, updatePreferenceRow_user]
    split
    · rename_i h
      have hne : r.UserID ≠ p.UserID := of_decide_eq_true h
      simp [updatePreferenceRow, hne]
    · rfl

/-- The service method `UpdatePreferences` saves the effective preference with the fields of the
request written over it. -/
theorem UpdatePreferences_eq (env : Env) (st : State) (userID : Int)
    (req : UpdatePreferenceRequest) (hget : env.prefErr 0 = false) :
    UpdatePreferences env st userID req =
      repoCreateOrUpdate env { st with log := st.log ++ [Call.GetPreference userID] }
        { effectivePreference st.preferences userID with
          EmailEnabled :=
            req.EmailEnabled.getD (effectivePreference st.preferences userID).EmailEnabled,
          PushEnabled :=
            req.PushEnabled.getD (effectivePreference st.preferences userID).PushEnabled } := by
  simp only [UpdatePreferences, repoGetPreference, hget]
  cases req.EmailEnabled <;> cases req.PushEnabled <;> rfl

/-- C24.  For every user and every update request, the statements of the store succeeding,
`UpdatePreferences` returns a preference of that user whose `email_enabled` (resp.
`push_enabled`) is the value of the request when the request carries the field and otherwise the
previous effective value of the user, which is `true` when the user had no row.  The preference
is persisted: afterwards the table has a row for the user, every row of the user carries the
two returned values, and a `GetPreferences` that follows returns the very preference that the
update returned.  The rows of other users are unchanged; a first update for a user appends
exactly one row, the returned one, and an update for a user who has a row creates none. -/
theorem UpdatePreferences_merges_and_persists (env : Env) (st : State) (userID : Int)
    (req : UpdatePreferenceRequest)
    (hget : env.prefErr 0 = false) (hupdate : env.prefUpdateErr = false)
    (hselect : env.prefSelectErr = false) (hinsert : env.prefInsertErr = false) :
    ∃ p : Preference,
      (UpdatePreferences env st userID req).1 = .ok p ∧
      p.UserID = userID ∧
      p.EmailEnabled =
        req.EmailEnabled.getD (effectivePreference st.preferences userID).EmailEnabled ∧
      p.PushEnabled =
        req.PushEnabled.getD (effectivePreference st.preferences userID).PushEnabled ∧
      (∃ r ∈ (UpdatePreferences env st userID req).2.preferences, r.UserID = userID) ∧
      (∀ r ∈ (UpdatePreferences env st userID req).2.preferences, r.UserID = userID →
        r.EmailEnabled = p.EmailEnabled ∧ r.PushEnabled = p.PushEnabled) ∧
      (GetPreferences env (UpdatePreferences env st userID req).2 userID).1 = .ok p ∧
      (UpdatePreferences env st userID req).2.preferences.filter (fun r => r.UserID ≠ userID) =
        st.preferences.filter (fun r => r.UserID ≠ userID) ∧
      ((∀ r ∈ st.preferences, r.UserID ≠ userID) →
        (effectivePreference st.preferences userID).EmailEnabled = true ∧
        (effectivePreference st.preferences userID).PushEnabled = true ∧
        (UpdatePreferences env st userID req).2.preferences = st.preferences ++ [p]) ∧
      ((∃ r ∈ st.preferences, r.UserID = userID) →
        (UpdatePreferences env st userID req).2.preferences.length =
          st.preferences.length) := by
  rw [UpdatePreferences_eq env st userID req hget]
  cases hfind : st.preferences.find? (fun p => decide (p.UserID = userID)) with
  | none =>
    have hnone : ∀ r ∈ st.preferences, r.UserID ≠ userID := by
      intro r hr
      simpa using List.find?_eq_none.mp hfind r hr
    have hany : st.preferences.any (fun r => decide (r.UserID = userID)) = false := by
      rw [List.any_eq_false]
      intro r hr
      simpa using hnone r hr
    have heff : effectivePreference st.preferences userID =
        { ID := 0, UserID := userID, EmailEnabled := true, PushEnabled := true,
          CreatedAt := 0, UpdatedAt := 0 } := by
      simp only [effectivePreference, hfind]
    rw [heff]
    simp only [repoCreateOrUpdate, hupdate, hinsert, hany, Bool.false_eq_true, if_false]
    refine ⟨_, rfl, rfl, rfl, rfl, ⟨_, List.mem_append_right _ (List.mem_singleton_self _), rfl⟩,
      ?_, ?_, ?_, ?_, ?_⟩
    · intro r hr hu
      rcases List.mem_append.mp hr with h | h
      · exact absurd hu (hnone r h)
      · rw [List.mem_singleton.mp h]
        exact ⟨rfl, rfl⟩
    · simp only [GetPreferences, repoGetPreference, hget, Bool.false_eq_true, if_false,
        effectivePreference, List.find?_append, hfind]
      simp
    · rw [List.filter_append]
      simp
    · intro _
      simp
    · rintro ⟨r, hr, hu⟩
      exact absurd hu (hnone r hr)
  | some r0 =>
    have hr0 : r0.UserID = userID := by simpa using List.find?_some hfind
    subst hr0
    have hmem : r0 ∈ st.preferences := List.mem_of_find?_eq_some hfind
    have hany : st.preferences.any (fun r => decide (r.UserID = r0.UserID)) = true := by
      rw [List.any_eq_true]
      exact ⟨r0, hmem, by simp⟩
    have heff : effectivePreference st.preferences r0.UserID = r0 := by
      simp only [effectivePreference, hfind]
    rw [heff]
    have hfm := find_map_updatePreferenceRow (env.clock 0)
      { r0 with EmailEnabled := req.EmailEnabled.getD r0.EmailEnabled,
                PushEnabled := req.PushEnabled.getD r0.PushEnabled } r0.UserID st.preferences
    rw [hfind] at hfm
    simp only [repoCreateOrUpdate, hupdate, hselect, hany, Bool.false_eq_true, if_false,
      if_true, hfm, Option.map]
    refine ⟨_, rfl, rfl, ?_, ?_, ?_, ?_, ?_, ?_, ?_, ?_⟩
    · rfl
    · rfl
    · exact ⟨_, List.mem_map_of_mem _ hmem, by rw [updatePreferenceRow_user]⟩
    · intro r hr hu
      obtain ⟨r1, hr1, rfl⟩ := List.mem_map.mp hr
      rw [updatePreferenceRow_user] at hu
      simp [updatePreferenceRow, hu]
    · simp only [GetPreferences, repoGetPreference, hget, Bool.false_eq_true, if_false,
        effectivePreference, hfm, Option.map]
      simp [updatePreferenceRow]
    · exact filter_map_updatePreferenceRow (env.clock 0)
        { r0 with EmailEnabled := req.EmailEnabled.getD r0.EmailEnabled,
                  PushEnabled := req.PushEnabled.getD r0.PushEnabled } st.preferences
    · intro hnone
      exact absurd rfl (hnone r0 hmem)
    · intro _
      simp

/-- C24, witness: the first update of user 8, who has no row, switching e-mail off and leaving
push alone. -/
theorem UpdatePreferences_merges_and_persists_witness :
    (UpdatePreferences sampleEnv preferenceState 8
        { EmailEnabled := some false, PushEnabled := none }).1 =
      .ok { ID := 2, UserID := 8, EmailEnabled := false, PushEnabled := true,
            CreatedAt := sampleEnv.clock 0, UpdatedAt := sampleEnv.clock 0 } ∧
    ∃ p : Preference,
      (UpdatePreferences sampleEnv preferenceState 8
        { EmailEnabled := some false, PushEnabled := none }).1 = .ok p ∧
      p.UserID = 8 ∧
      p.EmailEnabled = (some false).getD (effectivePreference preferenceState.preferences 8).EmailEnabled ∧
      p.PushEnabled = (none : Option Bool).getD (effectivePreference preferenceState.preferences 8).PushEnabled :=
  ⟨by rfl,
   match UpdatePreferences_merges_and_persists sampleEnv preferenceState 8
      { EmailEnabled := some false, PushEnabled := none }
      (by decide) (by decide) (by decide) (by decide) with
   | ⟨p, h1, h2, h3, h4, _⟩ => ⟨p, h1, h2, h3, h4⟩⟩


/-! ## History: removal -/

theorem rdbDel_history (env : WEnv) (st : WState) (key : String) :
    (rdbDel env st key).history = st.history ∧
    (rdbDel env st key).watchlists = st.watchlists := by
  unfold rdbDel
  split <;> exact ⟨rfl, rfl⟩

/-- The handler `RemoveFromHistory` when the `DELETE` succeeds. -/
theorem RemoveFromHistory_ok (env : WEnv) (st : WState) (userID movieID : Int)
    (hdelete : env.removeErr = false) :
    (RemoveFromHistory env st (some userID) (.ok movieID)).1 =
      { code := 200, body := .message "History item removed" } ∧
    (RemoveFromHistory env st (some userID) (.ok movieID)).2.history =
      st.history.filter (fun r => ¬ (r.UserID = userID ∧ r.MovieID = movieID)) ∧
    (RemoveFromHistory env st (some userID) (.ok movieID)).2.watchlists = st.watchlists := by
  simp only [RemoveFromHistory, historyRemove, hdelete, Bool.false_eq_true, if_false]
  exact ⟨trivial, (rdbDel_history env _ _).1, (rdbDel_history env _ _).2⟩

/-- C25.  For every user U and movie M, when the `DELETE` itself succeeds, `RemoveFromHistory`
answers 200 and leaves the history table as it was without the rows of user U and movie M: no
row with that user and movie remains, whatever its action and however many there were, and
every other row is still there, unchanged and in the same order.  It answers 200 also when no
row matches, the table then being unchanged; so a second call answers 200 again and changes
nothing more. -/
theorem RemoveFromHistory_deletes_all_matching (env : WEnv) (st : WState) (userID movieID : Int)
    (hdelete : env.removeErr = false) :
    (RemoveFromHistory env st (some userID) (.ok movieID)).1 =
      { code := 200, body := .message "History item removed" } ∧
    (∀ r ∈ (RemoveFromHistory env st (some userID) (.ok movieID)).2.history,
      ¬ (r.UserID = userID ∧ r.MovieID = movieID)) ∧
    (RemoveFromHistory env st (some userID) (.ok movieID)).2.history =
      st.history.filter (fun r => ¬ (r.UserID = userID ∧ r.MovieID = movieID)) ∧
    (∀ r ∈ st.history, ¬ (r.UserID = userID ∧ r.MovieID = movieID) →
      r ∈ (RemoveFromHistory env st (some userID) (.ok movieID)).2.history) ∧
    ((∀ r ∈ st.history, ¬ (r.UserID = userID ∧ r.MovieID = movieID)) →
      (RemoveFromHistory env st (some userID) (.ok movieID)).2.history = st.history) ∧
    (RemoveFromHistory env (RemoveFromHistory env st (some userID) (.ok movieID)).2
        (some userID) (.ok movieID)).1 =
      { code := 200, body := .message "History item removed" } ∧
    (RemoveFromHistory env (RemoveFromHistory env st (some userID) (.ok movieID)).2
        (some userID) (.ok movieID)).2.history =
      (RemoveFromHistory env st (some userID) (.ok movieID)).2.history := by
  obtain ⟨h1, h2, _⟩ := RemoveFromHistory_ok env st userID movieID hdelete
  obtain ⟨k1, k2, _⟩ := RemoveFromHistory_ok env
    (RemoveFromHistory env st (some userID) (.ok movieID)).2 userID movieID hdelete
  refine ⟨h1, ?_, h2, ?_, ?_, k1, ?_⟩
  · intro r hr
    rw [h2] at hr
    exact of_decide_eq_true (List.mem_filter.mp hr).2
  · intro r hr hne
    rw [h2]
    exact List.mem_filter.mpr ⟨hr, decide_eq_true hne⟩
  · intro hall
    rw [h2]
    exact List.filter_eq_self.mpr (fun r hr => decide_eq_true (hall r hr))
  · rw [k2, h2, List.filter_filter]
    simp

/-- C25, witness: user 7 and movie 123 in a table that holds three rows for them, `watched`
twice and `rated` once, and one row of user 8: the three rows go, the row of user 8 stays. -/
theorem RemoveFromHistory_deletes_all_matching_witness :
    (RemoveFromHistory sampleWEnv historyWState (some 7) (.ok 123)).2.history =
      [{ ID := 3, UserID := 8, MovieID := 123, Action := "watched", CreatedAt := 12 }] ∧
    (RemoveFromHistory sampleWEnv historyWState (some 7) (.ok 123)).1 =
      { code := 200, body := .message "History item removed" } ∧
    (RemoveFromHistory sampleWEnv
        (RemoveFromHistory sampleWEnv historyWState (some 7) (.ok 123)).2
        (some 7) (.ok 123)).2.history =
      (RemoveFromHistory sampleWEnv historyWState (some 7) (.ok 123)).2.history :=
  have h := RemoveFromHistory_deletes_all_matching sampleWEnv historyWState 7 123 (by decide)
  ⟨by decide, h.1, h.2.2.2.2.2.2⟩


/-! ## The migrations: seed templates -/

theorem insertSeed_keeps (now : Nat) (acc : List Template × Int) (seed : Template) :
    acc.1 <+: (insertSeed now acc seed).1 := by
  unfold insertSeed
  split
  · exact List.prefix_refl _
  · exact List.prefix_append _ _

theorem foldl_insertSeed_keeps (now : Nat) (seeds : List Template) :
    ∀ acc : List Template × Int, acc.1 <+: (seeds.foldl (insertSeed now) acc).1 := by
  induction seeds with
  | nil => intro acc; exact List.prefix_refl _
  | cons s rest ih =>
    intro acc
    exact (insertSeed_keeps now acc s).trans (ih _)

theorem insertSeed_present (now : Nat) (acc : List Template × Int) (seed : Template) :
    ∃ t ∈ (insertSeed now acc seed).1, t.Name = seed.Name ∧ t.Typ = seed.Typ := by
  unfold insertSeed
  split
  · rename_i h
    obtain ⟨t, ht, hkey⟩ := List.any_eq_true.mp h
    exact ⟨t, ht, of_decide_eq_true hkey⟩
  · exact ⟨_, List.mem_append_right _ (List.mem_singleton_self _), rfl, rfl⟩

theorem foldl_insertSeed_present (now : Nat) (seeds : List Template) :
    ∀ acc : List Template × Int, ∀ s ∈ seeds,
      ∃ t ∈ (seeds.foldl (insertSeed now) acc).1, t.Name = s.Name ∧ t.Typ = s.Typ := by
  induction seeds with
  | nil => intro acc s hs; exact absurd hs (List.not_mem_nil _)
  | cons s0 rest ih =>
    intro acc s hs
    rcases List.mem_cons.mp hs with h | h
    · subst h
      obtain ⟨t, ht, hkey⟩ := insertSeed_present now acc s
      exact ⟨t, (foldl_insertSeed_keeps now rest _).subset ht, hkey⟩
    · exact ih _ s h

theorem insertSeed_nodup (now : Nat) (acc : List Template × Int) (seed : Template)
    (h : (acc.1.map (fun t => (t.Name, t.Typ))).Nodup) :
    ((insertSeed now acc seed).1.map (fun t => (t.Name, t.Typ))).Nodup := by
  unfold insertSeed
  split
  · exact h
  · rename_i hany
    rw [List.map_append, List.nodup_append]
    refine ⟨h, List.nodup_singleton _, ?_⟩
    intro key hkey hkey2
    rw [List.map_singleton, List.mem_singleton] at hkey2
    obtain ⟨t, ht, htk⟩ := List.mem_map.mp hkey
    apply hany
    rw [List.any_eq_true]
    refine ⟨t, ht, decide_eq_true ?_⟩
    rw [hkey2] at htk
    exact ⟨congrArg Prod.fst htk, congrArg Prod.snd htk⟩

theorem foldl_insertSeed_nodup (now : Nat) (seeds : List Template) :
    ∀ acc : List Template × Int, (acc.1.map (fun t => (t.Name, t.Typ))).Nodup →
      (((seeds.foldl (insertSeed now) acc).1).map (fun t => (t.Name, t.Typ))).Nodup := by
  induction seeds with
  | nil => intro acc h; exact h
  | cons s rest ih =>
    intro acc h
    exact ih _ (insertSeed_nodup now acc s h)

theorem foldl_insertSeed_fixed (now : Nat) (seeds : List Template) :
    ∀ acc : List Template × Int,
      (∀ s ∈ seeds, ∃ t ∈ acc.1, t.Name = s.Name ∧ t.Typ = s.Typ) →
      (seeds.foldl (insertSeed now) acc).1 = acc.1 := by
  induction seeds with
  | nil => intro acc _; rfl
  | cons s rest ih =>
    intro acc h
    have hstep : (insertSeed now acc s).1 = acc.1 := by
      obtain ⟨t, ht, hkey⟩ := h s (List.mem_cons_self _ _)
      have hany : acc.1.any (fun t => decide (t.Name = s.Name ∧ t.Typ = s.Typ)) = true :=
        List.any_eq_true.mpr ⟨t, ht, decide_eq_true hkey⟩
      simp only [insertSeed, hany, if_true]
    have hrest := ih (insertSeed now acc s) (by
      intro s1 hs1
      rw [hstep]
      exact h s1 (List.mem_cons_of_mem _ hs1))
    rw [List.foldl_cons, hrest, hstep]

/-- In a table with unique keys, a key that is present selects exactly one row. -/
theorem filter_key_length (rows : List Template) (name typ : String)
    (hunique : (rows.map (fun t => (t.Name, t.Typ))).Nodup)
    (hpresent : ∃ t ∈ rows, t.Name = name ∧ t.Typ = typ) :
    (rows.filter (fun t => t.Name = name ∧ t.Typ = typ)).length = 1 := by
  induction rows with
  | nil =>
    obtain ⟨t, ht, _⟩ := hpresent
    exact absurd ht (List.not_mem_nil _)
  | cons r rest ih =>
    rw [List.map_cons, List.nodup_cons] at hunique
    by_cases hr : r.Name = name ∧ r.Typ = typ
    · have hnone : rest.filter (fun t => decide (t.Name = name ∧ t.Typ = typ)) = [] := by
        rw [List.filter_eq_nil_iff]
        intro t ht hkey
        have hkey2 := of_decide_eq_true hkey
        apply hunique.1
        rw [List.mem_map]
        exact ⟨t, ht, by rw [hkey2.1, hkey2.2, hr.1, hr.2]⟩
      rw [List.filter_cons, if_pos (decide_eq_true hr), hnone]
      rfl
    · rw [List.filter_cons, if_neg (by simpa using hr)]
      apply ih hunique.2
      obtain ⟨t, ht, hkey⟩ := hpresent
      rcases List.mem_cons.mp ht with h | h
      · subst h
        exact absurd hkey hr
      · exact ⟨t, h, hkey⟩

/-- The log of `Create` extends the log before by calls that are not template lookups. -/
theorem Create_log_extends (env : Env) (st : State) (userID : Int)
    (notificationType title content channel : String) :
    ∃ rest, (Create env st userID notificationType title content channel).2.log =
        st.log ++ rest ∧ ∀ n ty, Call.GetTemplate n ty ∉ rest := by
  simp only [Create, repoCreate]
  split
  · rename_i err st1 heq
    split at heq
    · injection heq with h1 h2
      subst h2
      exact ⟨_, rfl, by simp⟩
    · exact absurd heq (by simp)
  · rename_i created st1 heq
    split at heq
    · exact absurd heq (by simp)
    · injection heq with h1 h2
      subst h2
      refine ⟨[Call.CreateNotification
          { ID := 0, UserID := userID, Typ := notificationType, Title := title,
            Content := content, Status := "pending", Channel := channel, CreatedAt := 0,
            SentAt := 0, ReadAt := 0 },
        Call.RedisDel (notificationsKey userID)], ?_, ?_⟩
      · simp [redisDel]
      · simp

/-- The one template lookup of the common body of the canned flows: it is its first call, and
its key is the name of the flow with type `email`. -/
theorem sendTemplated_lookup (env : Env) (st : State) (userID : Int) (name : String)
    (data : TemplateData) (notificationType title content : String) :
    ∃ rest, (sendTemplated env st userID name data notificationType title content).2.log =
        st.log ++ Call.GetTemplate name "email" :: rest ∧
      ∀ n ty, Call.GetTemplate n ty ∉ rest := by
  cases ht : env.templateErr
  · cases hfind : st.templates.find? (fun t => decide (t.Name = name ∧ t.Typ = "email")) with
    | none =>
      refine ⟨[], ?_, by simp⟩
      rw [sendTemplated_absent env st userID name data _ _ _ ht hfind]
    | some t =>
      cases hp : env.prefErr 0
      · rw [sendTemplated_found env st userID name data _ _ _ t ht hp hfind]
        by_cases he : (effectivePreference st.preferences userID).EmailEnabled = true
        · rw [if_pos he]
          cases hs : env.sendWithTemplate (userEmail userID) t data with
          | some err =>
            exact ⟨[Call.GetPreference userID,
              Call.EmailSendWithTemplate (userEmail userID) t data], by simp, by simp⟩
          | none =>
            obtain ⟨rest, hlog, hrest⟩ := Create_log_extends env
              { st with log := st.log ++ [Call.GetTemplate name "email",
                  Call.GetPreference userID,
                  Call.EmailSendWithTemplate (userEmail userID) t data] }
              userID notificationType title content "email"
            refine ⟨[Call.GetPreference userID,
              Call.EmailSendWithTemplate (userEmail userID) t data] ++ rest, ?_, ?_⟩
            · simp only [hlog]
              simp
            · intro n ty hmem
              rcases List.mem_append.mp hmem with h | h
              · simp at h
              · exact hrest n ty h
        · rw [if_neg he]
          exact ⟨[Call.GetPreference userID], by simp, by simp⟩
      · refine ⟨[Call.GetPreference userID], ?_, by simp⟩
        simp only [sendTemplated, repoGetTemplate, repoGetPreference, ht, hfind, hp,
          Bool.false_eq_true, if_false, if_true]
        simp
  · refine ⟨[], ?_, by simp⟩
    simp [sendTemplated, repoGetTemplate, ht]

/-- C26.  When `RunMigrations` succeeds on a template table that respects its unique constraint
on (name, type), then for each of the four names `movie_recommendation`, `watchlist_reminder`,
`new_release` and `rating_reminder` the table holds exactly one template with that name and type
`email`, and the lookup by that name and type `email` finds it.  The rows that were there before
are still there, unchanged, at the head of the table, and the table still has unique keys.  A
re-run changes no template, and neither does any number of further runs.  The four names with
type `email` are the keys that the canned flows look up: the one template lookup that each flow
makes is its first call and carries the name of the flow and type `email`. -/
theorem RunMigrations_seeds_exactly_once (env : Env) (st : State) (name : String)
    (hok : env.migrateErr = false)
    (hunique : (st.templates.map (fun t => (t.Name, t.Typ))).Nodup)
    (hname : name ∈ ["movie_recommendation", "watchlist_reminder", "new_release",
      "rating_reminder"]) :
    (RunMigrations env st).1 = none ∧
    ((RunMigrations env st).2.templates.filter
      (fun t => t.Name = name ∧ t.Typ = "email")).length = 1 ∧
    (∀ env2 : Env, env2.templateErr = false →
      ∃ t, (repoGetTemplate env2 (RunMigrations env st).2 name "email").1 = .ok (some t) ∧
        t.Name = name ∧ t.Typ = "email") ∧
    st.templates <+: (RunMigrations env st).2.templates ∧
    ((RunMigrations env st).2.templates.map (fun t => (t.Name, t.Typ))).Nodup ∧
    (∀ env2 : Env, env2.migrateErr = false →
      (RunMigrations env2 (RunMigrations env st).2).1 = none ∧
      (RunMigrations env2 (RunMigrations env st).2).2.templates =
        (RunMigrations env st).2.templates) ∧
    (∀ n : Nat, (Nat.iterate (fun s => (RunMigrations env s).2) (n + 1) st).templates =
      (RunMigrations env st).2.templates) ∧
    (∀ (env2 : Env) (s : State) (userID : Int) (username movieTitle : String) (count : Int),
      (∃ rest, (SendMovieRecommendation env2 s userID username movieTitle).2.log =
          s.log ++ Call.GetTemplate "movie_recommendation" "email" :: rest ∧
        ∀ n ty, Call.GetTemplate n ty ∉ rest) ∧
      (∃ rest, (SendWatchlistReminder env2 s userID username count).2.log =
          s.log ++ Call.GetTemplate "watchlist_reminder" "email" :: rest ∧
        ∀ n ty, Call.GetTemplate n ty ∉ rest) ∧
      (∃ rest, (SendNewRelease env2 s userID username movieTitle).2.log =
          s.log ++ Call.GetTemplate "new_release" "email" :: rest ∧
        ∀ n ty, Call.GetTemplate n ty ∉ rest) ∧
      (∃ rest, (SendRatingReminder env2 s userID username movieTitle).2.log =
          s.log ++ Call.GetTemplate "rating_reminder" "email" :: rest ∧
        ∀ n ty, Call.GetTemplate n ty ∉ rest)) := by
  have hrun : ∀ (e : Env) (s : State), e.migrateErr = false →
      (RunMigrations e s).1 = none ∧
      (RunMigrations e s).2.templates =
        (seedTemplates.foldl (insertSeed (e.clock 0)) (s.templates, s.templateSerial)).1 := by
    intro e s he
    simp only [RunMigrations, he, Bool.false_eq_true, if_false]
    exact ⟨trivial, trivial⟩
  have hpresent : ∀ (e : Env) (s : State), e.migrateErr = false →
      ∀ seed ∈ seedTemplates, ∃ t ∈ (RunMigrations e s).2.templates,
        t.Name = seed.Name ∧ t.Typ = seed.Typ := by
    intro e s he seed hseed
    rw [(hrun e s he).2]
    exact foldl_insertSeed_present (e.clock 0) seedTemplates _ seed hseed
  have hfixed : ∀ (e e2 : Env) (s : State), e.migrateErr = false → e2.migrateErr = false →
      (RunMigrations e2 (RunMigrations e s).2).2.templates = (RunMigrations e s).2.templates := by
    intro e e2 s he he2
    rw [(hrun e2 _ he2).2]
    exact foldl_insertSeed_fixed (e2.clock 0) seedTemplates _ (hpresent e s he)
  have hnodup : ((RunMigrations env st).2.templates.map (fun t => (t.Name, t.Typ))).Nodup := by
    rw [(hrun env st hok).2]
    exact foldl_insertSeed_nodup (env.clock 0) seedTemplates _ hunique
  have hseed : ∃ seed ∈ seedTemplates, seed.Name = name ∧ seed.Typ = "email" := by
    simp only [List.mem_cons, List.mem_singleton, List.not_mem_nil, or_false] at hname
    rcases hname with h | h | h | h <;> subst h <;> simp [seedTemplates]
  have hthere : ∃ t ∈ (RunMigrations env st).2.templates, t.Name = name ∧ t.Typ = "email" := by
    obtain ⟨seed, hmem, h1, h2⟩ := hseed
    obtain ⟨t, ht, k1, k2⟩ := hpresent env st hok seed hmem
    exact ⟨t, ht, k1.trans h1, k2.trans h2⟩
  refine ⟨(hrun env st hok).1, filter_key_length _ name "email" hnodup hthere, ?_, ?_, hnodup,
    ?_, ?_, ?_⟩
  · intro env2 h2
    simp only [repoGetTemplate, h2, Bool.false_eq_true, if_false]
    cases hfind : (RunMigrations env st).2.templates.find?
        (fun t => decide (t.Name = name ∧ t.Typ = "email")) with
    | none =>
      obtain ⟨t, ht, hkey⟩ := hthere
      exact absurd (decide_eq_true hkey) (List.find?_eq_none.mp hfind t ht)
    | some t =>
      have := List.find?_some hfind
      exact ⟨t, rfl, of_decide_eq_true this⟩
  · rw [(hrun env st hok).2]
    exact foldl_insertSeed_keeps (env.clock 0) seedTemplates (st.templates, st.templateSerial)
  · intro env2 h2
    exact ⟨(hrun env2 _ h2).1, hfixed env env2 st hok h2⟩
  · intro n
    induction n with
    | zero => rfl
    | succ k ih =>
      rw [Function.iterate_succ_apply', ← ih]
      have h := hfixed env env (Nat.iterate (fun s => (RunMigrations env s).2) k st) hok hok
      rw [Function.iterate_succ_apply']
      exact h
  · intro env2 s userID username movieTitle count
    exact ⟨sendTemplated_lookup env2 s userID _ _ _ _ _,
      sendTemplated_lookup env2 s userID _ _ _ _ _,
      sendTemplated_lookup env2 s userID _ _ _ _ _,
      sendTemplated_lookup env2 s userID _ _ _ _ _⟩

/-- C26, witness: the migration of a service whose template table is empty, for the name
`new_release`; the table then holds the four seed templates with ids 1 to 4. -/
theorem RunMigrations_seeds_exactly_once_witness :
    (RunMigrations sampleEnv sampleState).2.templates.map (fun t => (t.ID, t.Name, t.Typ)) =
      [(1, "movie_recommendation", "email"), (2, "watchlist_reminder", "email"),
       (3, "new_release", "email"), (4, "rating_reminder", "email")] ∧
    (RunMigrations sampleEnv sampleState).1 = none ∧
    ((RunMigrations sampleEnv sampleState).2.templates.filter
      (fun t => t.Name = "new_release" ∧ t.Typ = "email")).length = 1 ∧
    (RunMigrations sampleEnv (RunMigrations sampleEnv sampleState).2).2.templates =
      (RunMigrations sampleEnv sampleState).2.templates :=
  have h := RunMigrations_seeds_exactly_once sampleEnv sampleState "new_release"
    (by decide) (by decide) (by decide)
  ⟨by decide, h.1, h.2.1, (h.2.2.2.2.2.1 sampleEnv (by decide)).2⟩


/-! ## The canned flows: failing record creation -/

/-- The service method `Create` when the `INSERT` fails: the error, and nothing but the attempt
logged. -/
theorem Create_fails (env : Env) (st : State) (userID : Int)
    (notificationType title content channel : String) (hcreate : env.createErr = true) :
    Create env st userID notificationType title content channel =
      (.error Error.db,
       { st with log := st.log ++ [Call.CreateNotification
          { ID := 0, UserID := userID, Typ := notificationType, Title := title,
            Content := content, Status := "pending", Channel := channel, CreatedAt := 0,
            SentAt := 0, ReadAt := 0 }] }) := by
  simp only [Create, repoCreate, hcreate, Bool.true_or, if_true]

/-- The common body of the flows when the send succeeds and the `INSERT` of the record fails. -/
theorem sendTemplated_create_fails (env : Env) (st : State) (userID : Int) (name : String)
    (data : TemplateData) (notificationType title content : String) (t : Template)
    (hquery : env.templateErr = false) (hpref : env.prefErr 0 = false)
    (hon : (effectivePreference st.preferences userID).EmailEnabled = true)
    (hcreate : env.createErr = true)
    (hfound : st.templates.find? (fun t => t.Name = name ∧ t.Typ = "email") = some t)
    (hsend : env.sendWithTemplate (userEmail userID) t data = none) :
    sendTemplated env st userID name data notificationType title content =
      (none, { st with log := st.log ++
        [Call.GetTemplate name "email", Call.GetPreference userID,
         Call.EmailSendWithTemplate (userEmail userID) t data,
         Call.CreateNotification
          { ID := 0, UserID := userID, Typ := notificationType, Title := title,
            Content := content, Status := "pending", Channel := "email", CreatedAt := 0,
            SentAt := 0, ReadAt := 0 }] }) := by
  rw [sendTemplated_found env st userID name data _ _ _ t hquery hpref hfound, if_pos hon]
  simp only [hsend, Create_fails env _ userID _ _ _ _ hcreate, List.append_assoc,
    List.cons_append, List.nil_append]

/-- C27.  When the template of the flow exists, the preference lookup succeeds, e-mail is
enabled, `SendWithTemplate` returns `nil` and the `INSERT` of the notification record fails, each
of the four canned flows returns `nil`: the error of `Create` is not returned.  The state
afterwards is the state before with four calls logged, the two lookups, the one send and the
attempt to create the record: the send is made once and nothing follows the failed attempt, so
it is neither undone nor repeated; no record is stored and the cache is not touched. -/
theorem canned_flows_create_fails (env : Env) (st : State) (userID : Int)
    (username movieTitle : String) (count : Int)
    (hquery : env.templateErr = false) (hpref : env.prefErr 0 = false)
    (hon : (effectivePreference st.preferences userID).EmailEnabled = true)
    (hcreate : env.createErr = true) :
    (∀ t,
      st.templates.find? (fun t => t.Name = "movie_recommendation" ∧ t.Typ = "email") = some t →
      env.sendWithTemplate (userEmail userID) t
        [("Username", .str username), ("MovieTitle", .str movieTitle)] = none →
      SendMovieRecommendation env st userID username movieTitle =
        (none, { st with log := st.log ++
          [Call.GetTemplate "movie_recommendation" "email", Call.GetPreference userID,
           Call.EmailSendWithTemplate (userEmail userID) t
             [("Username", .str username), ("MovieTitle", .str movieTitle)],
           Call.CreateNotification
            { ID := 0, UserID := userID, Typ := "movie_recommendation",
              Title := "New Movie Recommendation",
              Content := "We have a new movie recommendation for you: " ++ movieTitle,
              Status := "pending", Channel := "email", CreatedAt := 0, SentAt := 0,
              ReadAt := 0 }] })) ∧
    (∀ t,
      st.templates.find? (fun t => t.Name = "watchlist_reminder" ∧ t.Typ = "email") = some t →
      env.sendWithTemplate (userEmail userID) t
        [("Username", .str username), ("Count", .int count)] = none →
      SendWatchlistReminder env st userID username count =
        (none, { st with log := st.log ++
          [Call.GetTemplate "watchlist_reminder" "email", Call.GetPreference userID,
           Call.EmailSendWithTemplate (userEmail userID) t
             [("Username", .str username), ("Count", .int count)],
           Call.CreateNotification
            { ID := 0, UserID := userID, Typ := "watchlist_reminder",
              Title := "Movies in Your Watchlist",
              Content := "You have " ++ Itoa count ++
                " movies in your watchlist. Why not watch one tonight?",
              Status := "pending", Channel := "email", CreatedAt := 0, SentAt := 0,
              ReadAt := 0 }] })) ∧
    (∀ t,
      st.templates.find? (fun t => t.Name = "new_release" ∧ t.Typ = "email") = some t →
      env.sendWithTemplate (userEmail userID) t
        [("Username", .str username), ("MovieTitle", .str movieTitle)] = none →
      SendNewRelease env st userID username movieTitle =
        (none, { st with log := st.log ++
          [Call.GetTemplate "new_release" "email", Call.GetPreference userID,
           Call.EmailSendWithTemplate (userEmail userID) t
             [("Username", .str username), ("MovieTitle", .str movieTitle)],
           Call.CreateNotification
            { ID := 0, UserID := userID, Typ := "new_release",
              Title := "New Movie Release",
              Content := "A new movie \"" ++ movieTitle ++
                "\" has been released that you might like.",
              Status := "pending", Channel := "email", CreatedAt := 0, SentAt := 0,
              ReadAt := 0 }] })) ∧
    (∀ t,
      st.templates.find? (fun t => t.Name = "rating_reminder" ∧ t.Typ = "email") = some t →
      env.sendWithTemplate (userEmail userID) t
        [("Username", .str username), ("MovieTitle", .str movieTitle)] = none →
      SendRatingReminder env st userID username movieTitle =
        (none, { st with log := st.log ++
          [Call.GetTemplate "rating_reminder" "email", Call.GetPreference userID,
           Call.EmailSendWithTemplate (userEmail userID) t
             [("Username", .str username), ("MovieTitle", .str movieTitle)],
           Call.CreateNotification
            { ID := 0, UserID := userID, Typ := "rating_reminder",
              Title := "Rate Your Watched Movies",
              Content := "You recently watched \"" ++ movieTitle ++
                "\". Would you like to rate it?",
              Status := "pending", Channel := "email", CreatedAt := 0, SentAt := 0,
              ReadAt := 0 }] })) := by
  refine ⟨?_, ?_, ?_, ?_⟩ <;> intro t ht hsend
  · exact sendTemplated_create_fails env st userID _ _ _ _ _ t hquery hpref hon hcreate ht hsend
  · exact sendTemplated_create_fails env st userID _ _ _ _ _ t hquery hpref hon hcreate ht hsend
  · exact sendTemplated_create_fails env st userID _ _ _ _ _ t hquery hpref hon hcreate ht hsend
  · exact sendTemplated_create_fails env st userID _ _ _ _ _ t hquery hpref hon hcreate ht hsend

/-- C27, witness: user 8, whose e-mail is enabled, in the sample state with the seed templates,
when the `INSERT` of `Create` fails: each flow returns `nil`, has made one send, and has stored
no record. -/
theorem canned_flows_create_fails_witness :
    (SendMovieRecommendation failingCreateEnv seededState 8 "alice" "Dune").1 = none ∧
    (SendMovieRecommendation failingCreateEnv seededState 8 "alice" "Dune").2.log.countP
      Call.isSend = 1 ∧
    (SendMovieRecommendation failingCreateEnv seededState 8 "alice" "Dune").2.notifications =
      seededState.notifications ∧
    (SendWatchlistReminder failingCreateEnv seededState 8 "alice" 5).1 = none ∧
    (SendWatchlistReminder failingCreateEnv seededState 8 "alice" 5).2.notifications =
      seededState.notifications ∧
    (SendNewRelease failingCreateEnv seededState 8 "alice" "Dune").1 = none ∧
    (SendNewRelease failingCreateEnv seededState 8 "alice" "Dune").2.notifications =
      seededState.notifications ∧
    (SendRatingReminder failingCreateEnv seededState 8 "alice" "Dune").1 = none ∧
    (SendRatingReminder failingCreateEnv seededState 8 "alice" "Dune").2.notifications =
      seededState.notifications :=
  have h := canned_flows_create_fails failingCreateEnv seededState 8 "alice" "Dune" 5
    (by decide) (by decide) (by decide) (by decide)
  ⟨by rw [h.1 _ (by rfl) (by rfl)], by rw [h.1 _ (by rfl) (by rfl)]; rfl,
   by rw [h.1 _ (by rfl) (by rfl)],
   by rw [h.2.1 _ (by rfl) (by rfl)], by rw [h.2.1 _ (by rfl) (by rfl)],
   by rw [h.2.2.1 _ (by rfl) (by rfl)], by rw [h.2.2.1 _ (by rfl) (by rfl)],
   by rw [h.2.2.2 _ (by rfl) (by rfl)], by rw [h.2.2.2 _ (by rfl) (by rfl)]⟩


/-! ## The `Authenticate` middleware -/

/-- The middleware puts a `userID` in the context only when the header is not empty, the
configuration loads, `jwt.Parse` returns a token without error, the token is valid and its claim
`sub` is a number; the `userID` is then that number. -/
theorem Authenticate_userID (env : AuthEnv) (header : String) (userID : Int)
    (h : (Authenticate env header).userID = some userID) :
    header ≠ "" ∧ (Authenticate env header).aborted = false ∧
    ∃ secret token, env.config = .ok secret ∧
      jwtParse env secret (stripBearer header) = .ok token ∧
      token.Valid = true ∧ token.sub = .number userID := by
  have hh : header ≠ "" := by
    intro hh
    simp [Authenticate, hh] at h
  cases hc : env.config with
  | error e => simp [Authenticate, hh, hc] at h
  | ok secret =>
    cases hp : jwtParse env secret (stripBearer header) with
    | error e => simp [Authenticate, hh, hc, hp] at h
    | ok token =>
      by_cases hv : token.Valid = true
      · cases hs : token.sub with
        | other => simp [Authenticate, hh, hc, hp, hv, hs] at h
        | number u =>
          simp [Authenticate, hh, hc, hp, hv, hs] at h
          subst h
          exact ⟨hh, by simp [Authenticate, hh, hc, hp, hv, hs], secret, token,
            rfl, hp, hv, hs⟩
      · simp [Authenticate, hh, hc, hp, hv] at h

/-- C28.  For every request whose `Authorization` header is missing, and, the configuration
loading, for every request whose token fails verification (`jwt.Parse` returns an error, or the
token it returns is not valid), the middleware answers 401 and aborts the chain without putting
a `userID` in the context: behind it the handler does not run, the answer of the route is the
401 of the middleware whatever the handler is, and the state is unchanged.  The header `Bearer
valid_token` is such a request whatever the secret and the verification are, its token not
having three segments.  In general, for every environment and header, a `userID` is in the
context only when `jwt.Parse` returned a valid token whose claim `sub` is a number, and it is
that number; and the chain is aborted exactly when no `userID` is set. -/
theorem Authenticate_rejects_unverified (env : AuthEnv) (header : String)
    (hrejected : header = "" ∨
      ∃ secret, env.config = .ok secret ∧
        ∀ token, jwtParse env secret (stripBearer header) = .ok token → token.Valid = false) :
    (Authenticate env header).response.map (fun r => r.code) = some 401 ∧
    (Authenticate env header).aborted = true ∧
    (Authenticate env header).userID = none ∧
    (∀ (handler : Option Int → WState → Response × WState) (st : WState),
      (authenticated env header handler st).1.code = 401 ∧
      (authenticated env header handler st).2 = st ∧
      ∀ handler2 : Option Int → WState → Response × WState,
        authenticated env header handler st = authenticated env header handler2 st) ∧
    (∀ (env2 : AuthEnv) (secret : String), env2.config = .ok secret →
      Authenticate env2 "Bearer valid_token" =
        { response := some { code := 401, body := .error "Invalid token" },
          aborted := true, userID := none }) ∧
    (∀ (env2 : AuthEnv) (header2 : String) (userID : Int),
      (Authenticate env2 header2).userID = some userID →
        header2 ≠ "" ∧ (Authenticate env2 header2).aborted = false ∧
        ∃ secret token, env2.config = .ok secret ∧
          jwtParse env2 secret (stripBearer header2) = .ok token ∧
          token.Valid = true ∧ token.sub = .number userID) ∧
    (∀ (env2 : AuthEnv) (header2 : String),
      (Authenticate env2 header2).aborted = true ↔ (Authenticate env2 header2).userID = none) := by
  have hmain : (Authenticate env header).response.map (fun r => r.code) = some 401 ∧
      (Authenticate env header).aborted = true ∧ (Authenticate env header).userID = none := by
    rcases hrejected with h | ⟨secret, hc, hp⟩
    · simp [Authenticate, h]
    · by_cases hh : header = ""
      · simp [Authenticate, hh]
      · cases hparse : jwtParse env secret (stripBearer header) with
        | error e => simp [Authenticate, hh, hc, hparse]
        | ok token =>
          have hv := hp token hparse
          simp [Authenticate, hh, hc, hparse, hv]
  refine ⟨hmain.1, hmain.2.1, hmain.2.2, ?_, ?_, Authenticate_userID, ?_⟩
  · intro handler st
    have hcode : ((Authenticate env header).response.getD
        { code := 200, body := .message "" }).code = 401 := by
      have h1 := hmain.1
      cases hr : (Authenticate env header).response with
      | none => simp [hr] at h1
      | some r =>
        rw [hr] at h1
        simpa using h1
    simp only [authenticated, hmain.2.1, if_true]
    exact ⟨hcode, trivial, fun _ => trivial⟩
  · intro env2 secret hc
    have hparse : jwtParse env2 secret (stripBearer "Bearer valid_token") = .error Error.jwt := by
      have hstrip : stripBearer "Bearer valid_token" = "valid_token" := by decide
      rw [hstrip]
      have hcount : ¬ ("valid_token".data.count '.' = 2) := by decide
      simp only [jwtParse, hcount, if_false]
    have hne : ¬ ("Bearer valid_token" = "") := by decide
    simp only [Authenticate, hne, if_false, hc, hparse]
  · intro env2 header2
    unfold Authenticate
    by_cases hh : header2 = ""
    · simp [hh]
    · simp only [hh, if_false]
      cases env2.config with
      | error e => simp
      | ok secret =>
        simp only
        cases jwtParse env2 secret (stripBearer header2) with
        | error e => simp
        | ok token =>
          simp only
          by_cases hv : token.Valid = true
          · simp only [hv, if_true]
            cases token.sub <;> simp
          · simp [hv]

/-- C28, witness: the header `Bearer valid_token` of the tests, in an environment whose
verification accepts every token of three segments. -/
theorem Authenticate_rejects_unverified_witness :
    Authenticate sampleAuthEnv "Bearer valid_token" =
      { response := some { code := 401, body := .error "Invalid token" },
        aborted := true, userID := none } ∧
    (Authenticate sampleAuthEnv "Bearer valid_token").response.map (fun r => r.code) =
      some 401 ∧
    (∀ (handler : Option Int → WState → Response × WState) (st : WState),
      (authenticated sampleAuthEnv "Bearer valid_token" handler st).1.code = 401 ∧
      (authenticated sampleAuthEnv "Bearer valid_token" handler st).2 = st) ∧
    Authenticate sampleAuthEnv "Bearer a.b.c" =
      { response := none, aborted := false, userID := some 7 } :=
  have h := Authenticate_rejects_unverified sampleAuthEnv "Bearer valid_token"
    (Or.inr ⟨"watchlist_jwt_secret", rfl, fun token htoken => by
      have hparse : jwtParse sampleAuthEnv "watchlist_jwt_secret"
          (stripBearer "Bearer valid_token") = .error Error.jwt := by rfl
      rw [hparse] at htoken
      exact absurd htoken (by simp)⟩)
  ⟨by decide, h.1, fun handler st => ⟨(h.2.2.2.1 handler st).1, (h.2.2.2.1 handler st).2.1⟩,
   by decide⟩


/-! ## A canned flow followed by a dispatch pass -/

/-- C29 (the code departs from the claim).  On a fresh service with e-mail enabled by default,
`SendMovieRecommendation` for user 3 returns `nil`, sends one e-mail and stores one record in
status `pending`, as claimed; but the row has `sent_at` and `read_at` NULL, which the scan of
`GetPending` cannot store, so `GetPending` does not return the record but the scan error, and
the `SendPending` that follows returns that error without calling any sender and without
touching the row: the flow and the pass together make one send, not two.  Only in a state in
which the two timestamps of the row have been given a value by hand does the pass fetch the
record and send the second e-mail, to the same address. -/
theorem canned_record_is_not_dispatched :
    (SendMovieRecommendation sampleEnv freshState 3 "alice" "Dune").1 = none ∧
    afterRecommendation.log.countP Call.isSend = 1 ∧
    afterRecommendation.notifications =
      [{ id := 1, user_id := 3, typ := "movie_recommendation",
         title := "New Movie Recommendation",
         content := "We have a new movie recommendation for you: Dune",
         status := "pending", channel := "email", created_at := 1000,
         sent_at := none, read_at := none }] ∧
    (effectivePreference afterRecommendation.preferences 3).EmailEnabled = true ∧
    (repoGetPending sampleEnv afterRecommendation).1 = .error Error.scan ∧
    (SendPending sampleEnv afterRecommendation).1 = some Error.scan ∧
    (SendPending sampleEnv afterRecommendation).2.log.countP Call.isSend = 1 ∧
    (SendPending sampleEnv afterRecommendation).2.log.filter Call.isSend =
      afterRecommendation.log.filter Call.isSend ∧
    (SendPending sampleEnv afterRecommendation).2.notifications =
      afterRecommendation.notifications ∧
    (SendPending sampleEnv stampedRecommendation).1 = none ∧
    (SendPending sampleEnv stampedRecommendation).2.log.filter Call.isSend =
      afterRecommendation.log.filter Call.isSend ++
        [Call.EmailSend "user3@example.com" "New Movie Recommendation"
          "We have a new movie recommendation for you: Dune"] := by
  refine ⟨by decide, by decide, by decide, by decide, by rfl, by decide, by decide, by decide,
    by decide, by decide, by decide⟩


/-! ## The dispatch pass: channels other than e-mail and push -/

/-- The handler `CreateNotification` on a body without the member `channel`, the other members
being valid and the `INSERT` succeeding: it answers 201 and stores a pending row whose channel is
empty. -/
theorem CreateNotification_without_channel (env : Env) (st : State) (userID : Int)
    (notificationType title : String) (content : Option String)
    (huser : userID ≠ 0) (htype : notificationType ≠ "") (htitle : title ≠ "")
    (htypeFits : notificationType.length ≤ 50) (htitleFits : title.length ≤ 255)
    (hcreate : env.createErr = false) :
    (CreateNotification env st
      (.ok { userId := some userID, typ := some notificationType, title := some title,
             content := content, channel := none })).1 = 201 ∧
    (CreateNotification env st
      (.ok { userId := some userID, typ := some notificationType, title := some title,
             content := content, channel := none })).2.notifications =
      st.notifications ++
        [{ id := st.serial, user_id := userID, typ := notificationType, title := title,
           content := content.getD "", status := "pending", channel := "",
           created_at := env.clock 0, sent_at := none, read_at := none }] := by
  have hfits : fitsColumns
      { ID := 0, UserID := userID, Typ := notificationType, Title := title,
        Content := content.getD "", Status := "pending", Channel := "", CreatedAt := 0,
        SentAt := 0, ReadAt := 0 } = true := by
    have hpending : "pending".length ≤ 50 := by decide
    simp [fitsColumns, htypeFits, htitleFits, hpending]
  simp only [CreateNotification, bindCreateNotificationRequest, Option.getD_some, huser, htype,
    htitle, if_false, List.append_nil, List.isEmpty_nil, if_true, Option.getD_none, Create,
    repoCreate, hcreate, hfits, Bool.not_true, Bool.or_self, Bool.false_eq_true, redisDel]
  exact ⟨trivial, trivial⟩

/-- C30.  Let `n` be the notification at position `k` of the batch fetched by `SendPending`,
with a channel that is neither `email` nor `push`, a preference lookup that succeeds and a status
update that the database carries out.  Then the pass calls no sender for `n`: its iteration logs
the preference lookup and the update to `sent` only, and position `k` does not count among the
sender calls of the pass.  After the pass the row of `n` is the pending row it was, with status
`sent` and `sent_at` set to the time of the update.  The empty channel is such a channel, and
the handler `CreateNotification` accepts a request without the member `channel`, answering 201
and storing a pending row whose channel is empty. -/
theorem SendPending_unknown_channel_marked_sent (env : Env) (st : State)
    (batch : List Notification) (k : Nat) (n : Notification)
    (hkey : (st.notifications.map (fun r => r.id)).Nodup)
    (hfetch : (repoGetPending env st).1 = .ok batch)
    (hk : batch[k]? = some n)
    (hemail : n.Channel ≠ "email") (hpush : n.Channel ≠ "push")
    (hpref : env.prefErr k = false)
    (hupd : env.updErr k = false) :
    callsSender env st.preferences k n = false ∧
    (processNotification env k (sendLoop env 0 (batch.take k) (repoGetPending env st).2) n).log =
      (sendLoop env 0 (batch.take k) (repoGetPending env st).2).log ++
        [Call.GetPreference n.UserID, Call.UpdateStatus n.ID "sent"] ∧
    (SendPending env st).2 =
      sendLoop env (k + 1) (batch.drop (k + 1))
        (processNotification env k (sendLoop env 0 (batch.take k) (repoGetPending env st).2) n) ∧
    (∃ r ∈ st.notifications, r.id = n.ID ∧ r.status = "pending" ∧
      (SendPending env st).2.notifications.filter (fun x => x.id = n.ID) =
        [{ r with status := "sent", sent_at := some (env.clock k) }]) ∧
    (SendPending env st).2.log.countP Call.isSend =
      st.log.countP Call.isSend +
        (List.enumFrom 0 batch).countP (fun p => callsSender env st.preferences p.1 p.2) ∧
    ("" ≠ "email" ∧ "" ≠ "push") ∧
    (∀ (env2 : Env) (st2 : State) (userID : Int) (notificationType title : String)
      (content : Option String),
      userID ≠ 0 → notificationType ≠ "" → title ≠ "" →
      notificationType.length ≤ 50 → title.length ≤ 255 → env2.createErr = false →
      (CreateNotification env2 st2
        (.ok { userId := some userID, typ := some notificationType, title := some title,
               content := content, channel := none })).1 = 201 ∧
      (CreateNotification env2 st2
        (.ok { userId := some userID, typ := some notificationType, title := some title,
               content := content, channel := none })).2.notifications =
        st2.notifications ++
          [{ id := st2.serial, user_id := userID, typ := notificationType, title := title,
             content := content.getD "", status := "pending", channel := "",
             created_at := env2.clock 0, sent_at := none, read_at := none }]) := by
  obtain ⟨hscan, hst1⟩ := repoGetPending_ok env st batch hfetch
  have hnd := batch_nodup st batch hkey hscan
  obtain ⟨hsplit, hlen, hpre, hpost⟩ := batch_split batch k n hk hnd
  obtain ⟨r, hr, hid, hstatus⟩ := batch_row st batch k n hscan hk
  have hfinal : (SendPending env st).2 =
      sendLoop env (k + 1) (batch.drop (k + 1))
        (processNotification env k (sendLoop env 0 (batch.take k) (repoGetPending env st).2) n)
      := by
    rw [SendPending_fetched env st batch hfetch]
    show sendLoop env 0 batch (repoGetPending env st).2 = _
    conv_lhs => rw [hsplit]
    rw [sendLoop_append, hlen, Nat.zero_add]
    rfl
  have hbpref : (sendLoop env 0 (batch.take k) (repoGetPending env st).2).preferences =
      st.preferences := by
    rw [sendLoop_preferences, hst1]
  have hoff : ∀ p : Preference, channelEnabled p n = false := by
    intro p
    simp [channelEnabled, hemail, hpush]
  have hwritten : statusWritten env st.preferences k n = some "sent" := by
    simp [statusWritten, hpref, hoff]
  have hcalls : callsFor env st.preferences k n =
      [Call.GetPreference n.UserID, Call.UpdateStatus n.ID "sent"] := by
    simp [callsFor, hpref, hoff]
  refine ⟨by simp [callsSender, hoff], ?_, hfinal, ⟨r, hr, hid, hstatus, ?_⟩, ?_,
    ⟨by decide, by decide⟩, ?_⟩
  · rw [processNotification_eq, hbpref, hcalls]
  · rw [SendPending_row_at env st batch k n hkey hfetch hk, hwritten]
    simp only [hupd, Bool.false_eq_true, if_false]
    rw [← hid, filter_id_singleton _ _ hkey hr]
    simp [updateStatusRow]
  · rw [SendPending_fetched env st batch hfetch]
    show (sendLoop env 0 batch (repoGetPending env st).2).log.countP Call.isSend = _
    rw [sendLoop_sends, hst1]
    simp [List.countP_append, List.countP_cons, Call.isSend]
  · intro env2 st2 userID notificationType title content h1 h2 h3 h4 h5 h6
    exact CreateNotification_without_channel env2 st2 userID notificationType title content
      h1 h2 h3 h4 h5 h6

/-- C30, witness: the notification with the empty channel in a table of three pending rows; it
is third in the batch.  No sender is called for it, and its row becomes `sent`. -/
theorem SendPending_unknown_channel_marked_sent_witness :
    callsSender sampleEnv emptyChannelState.preferences 2 sampleNotification9 = false ∧
    (∃ r ∈ emptyChannelState.notifications, r.id = sampleNotification9.ID ∧
      r.status = "pending" ∧
      (SendPending sampleEnv emptyChannelState).2.notifications.filter
          (fun x => x.id = sampleNotification9.ID) =
        [{ r with status := "sent", sent_at := some (sampleEnv.clock 2) }]) ∧
    (SendPending sampleEnv emptyChannelState).2.log =
      [Call.GetPending,
       Call.GetPreference 7, Call.UpdateStatus 1 "sent",
       Call.GetPreference 8, Call.EmailSend "user8@example.com" "Out now" "Dune",
       Call.UpdateStatus 2 "sent",
       Call.GetPreference 8, Call.UpdateStatus 9 "sent"] :=
  have h := SendPending_unknown_channel_marked_sent sampleEnv emptyChannelState
    [sampleNotification7, sampleNotification8, sampleNotification9] 2 sampleNotification9
    (by decide) (by rfl) (by decide) (by decide) (by decide) (by decide) (by decide)
  ⟨h.1, h.2.2.2.1, by decide⟩

end MovieMicroservices
